import Mathlib

/-! ark: ball, bricks and paddle

A shallow embedding of `src/main.cpp` (the physics and the round lifecycle of a
brick-breaker game) together with theorems about it.

Conventions of the embedding:

* C++ `int` is `Int`; integer division is `Int.tdiv` (truncation toward zero), as
  in C++.  The 32-bit range of `int` is modelled where an input of the program
  reaches it: the pointer position in `pointer_motion` (`wrap32`) and the
  conversion of a `float` to `int` (`Flt.toInt`).  Elsewhere the arithmetic on
  `int` is taken without overflow.
* C++ `float` is `Flt K`: the finite values are the elements of an ordered field
  `K`, and the three non-finite IEEE values `NaN`, `+∞`, `-∞` are kept, with the
  IEEE rules for arithmetic and comparison on them.  The arithmetic of the
  collision code is taken exactly (rounding, overflow and the sign of zero are
  idealised away); theorems whose statement would be false of the rounded
  computation are stated for a range of inputs on which it is exact, or give
  the expression the code evaluates.  Where a `float` is truncated to `int`
  (the sums of `move_ball`, the height at which the ball is put on the slider)
  every operation is rounded by a parameter `fl`.
* `std::sqrt` is a parameter `sqrtK : K → K` of the functions that call it.
  Theorems state what they need of it: `IsSqrt sqrtK` (the exact square root,
  as `Real.sqrt` on `ℝ`), or a property that the rounded square root of `float`
  has as well.
* The global variables `ball` and `rectangles` and the hidden state of `rand()`
  are the fields of `Game`; functions that mutate globals take a `Game` and
  return the new one.  `throw` is `Except.error`.  A store past the end of
  `rectangles` is undefined behaviour; it leaves the array as it is, and its
  effect on `ball` is the field `stray` of `Game`, about which nothing is
  assumed unless a theorem says so.
* The window, the renderer and the clock are not modelled: a frame is the list
  of draw calls, the events of a tick and its `dt` are inputs.
-/

namespace Ark

/-! ## Floating point values -/

/-- A `float`: NaN, minus infinity, a finite value, or plus infinity. -/
inductive Flt (K : Type) where
  | nan : Flt K
  | ninf : Flt K
  | fin (v : K) : Flt K
  | pinf : Flt K
  deriving DecidableEq, Repr

namespace Flt

variable {K : Type} [LinearOrderedField K]

/-- Unary minus. -/
def neg : Flt K → Flt K
  | nan => nan
  | ninf => pinf
  | fin v => fin (-v)
  | pinf => ninf

/-- Addition; `∞ + -∞` is NaN. -/
def add : Flt K → Flt K → Flt K
  | nan, _ => nan
  | _, nan => nan
  | fin a, fin b => fin (a + b)
  | pinf, ninf => nan
  | ninf, pinf => nan
  | pinf, _ => pinf
  | _, pinf => pinf
  | ninf, _ => ninf
  | _, ninf => ninf

/-- Subtraction. -/
def sub (a b : Flt K) : Flt K := add a (neg b)

/-- The infinity that has the sign of `v`, NaN for `v = 0` (used for `∞ * v`). -/
def infOfSign (v : K) : Flt K :=
  if 0 < v then pinf else if v < 0 then ninf else nan

/-- Multiplication; `∞ * 0` is NaN. -/
def mul : Flt K → Flt K → Flt K
  | nan, _ => nan
  | _, nan => nan
  | fin a, fin b => fin (a * b)
  | pinf, fin b => infOfSign b
  | ninf, fin b => infOfSign (-b)
  | fin a, pinf => infOfSign a
  | fin a, ninf => infOfSign (-a)
  | pinf, pinf => pinf
  | ninf, ninf => pinf
  | pinf, ninf => ninf
  | ninf, pinf => ninf

/-- Division; `0 / 0` and `∞ / ∞` are NaN, `a / 0` is an infinity for `a ≠ 0`. -/
def div : Flt K → Flt K → Flt K
  | nan, _ => nan
  | _, nan => nan
  | fin a, fin b => if b = 0 then infOfSign a else fin (a / b)
  | fin _, pinf => fin 0
  | fin _, ninf => fin 0
  | pinf, fin b => if b < 0 then ninf else pinf
  | ninf, fin b => if b < 0 then pinf else ninf
  | pinf, pinf => nan
  | pinf, ninf => nan
  | ninf, pinf => nan
  | ninf, ninf => nan

/-- The comparison `a < b`; false as soon as one side is NaN. -/
def lt : Flt K → Flt K → Bool
  | nan, _ => false
  | _, nan => false
  | fin a, fin b => decide (a < b)
  | ninf, ninf => false
  | ninf, _ => true
  | _, ninf => false
  | pinf, _ => false
  | _, pinf => true

/-- The function `std::sqrt`, from the square root `sqrtK` of finite values. -/
def sqrt (sqrtK : K → K) : Flt K → Flt K
  | nan => nan
  | ninf => nan
  | fin v => if v < 0 then nan else fin (sqrtK v)
  | pinf => pinf

/-- The function `std::abs` on `float`. -/
def abs : Flt K → Flt K
  | nan => nan
  | ninf => pinf
  | fin v => fin |v|
  | pinf => pinf

/-- Conversion of an `int` to `float`. -/
def ofInt (n : Int) : Flt K := fin (n : K)

/-- The integer part of a finite value: the fractional part is discarded. -/
def trunc [FloorRing K] (v : K) : Int := if 0 ≤ v then ⌊v⌋ else ⌈v⌉

/-- Conversion of a `float` to `int`: the fractional part is discarded.  The
conversion of a non-finite value, and of a value whose integer part is outside
the range of `int`, is undefined in C++; it is given the value x86 produces,
`INT_MIN`. -/
def toInt [FloorRing K] : Flt K → Int
  | fin v => if -2147483648 ≤ trunc v ∧ trunc v ≤ 2147483647 then trunc v else -2147483648
  | _ => -2147483648

/-- The rounding of the result of an operation to `float`: `fl v` is the `float`
the real number `v` is rounded to (an infinity when `v` is out of range); NaN
and the infinities are left as they are. -/
def round (fl : K → Flt K) : Flt K → Flt K
  | fin v => fl v
  | x => x

/-- The function `std::min`: `(b < a) ? b : a`. -/
def min (a b : Flt K) : Flt K := if lt b a then b else a

/-- The function `std::max`: `(a < b) ? b : a`. -/
def max (a b : Flt K) : Flt K := if lt a b then b else a

instance : Neg (Flt K) := ⟨neg⟩
instance : Add (Flt K) := ⟨add⟩
instance : Sub (Flt K) := ⟨sub⟩
instance : Mul (Flt K) := ⟨mul⟩
instance : Div (Flt K) := ⟨div⟩
instance : LT (Flt K) := ⟨fun a b => lt a b = true⟩
instance (a b : Flt K) : Decidable (a < b) := inferInstanceAs (Decidable (lt a b = true))

end Flt

/-- What this development asks of `std::sqrt` on finite non-negative values:
it returns the non-negative square root. -/
def IsSqrt {K : Type} [LinearOrderedField K] (sqrtK : K → K) : Prop :=
  ∀ x : K, 0 ≤ x → 0 ≤ sqrtK x ∧ sqrtK x * sqrtK x = x

/-! ## Data -/

/-- The enumeration `CollisionSide { LEFT, RIGHT, UP, DOWN }`. -/
inductive CollisionSide where
  | LEFT | RIGHT | UP | DOWN
  deriving DecidableEq, Repr

/-- The cast `(CollisionSide)max_idx`. -/
def CollisionSide.ofIdx : Nat → CollisionSide
  | 0 => .LEFT
  | 1 => .RIGHT
  | 2 => .UP
  | _ => .DOWN

/-- The struct `CollisionInfo`. -/
structure CollisionInfo (K : Type) where
  collided : Bool
  side : CollisionSide
  closest_x : Flt K
  closest_y : Flt K

def SCREEN_WIDTH : Nat := 640
def SCREEN_HEIGHT : Nat := 480
def RECT_WIDTH : Nat := 80
def RECT_HEIGHT : Nat := 20
def RECT_PADDING : Nat := 10
def RECT_EDGE_OFFSET : Nat := 10

def RECT_COUNT_X : Nat :=
  (SCREEN_WIDTH - 2 * RECT_EDGE_OFFSET) / (RECT_WIDTH + RECT_PADDING) + 1

def RECT_COUNT_Y : Nat :=
  (SCREEN_HEIGHT / 2 - 2 * RECT_EDGE_OFFSET) / (RECT_HEIGHT + RECT_PADDING) + 1

def BALL_SPEED : Nat := 300

/-- The member `dims` of `Rectangle`. -/
structure Dims where
  w : Int
  h : Int
  deriving DecidableEq, Repr

/-- The member `pos` of `Rectangle`. -/
structure Pos where
  x : Int
  y : Int
  deriving DecidableEq, Repr

/-- The member `color` of `Rectangle` (four `uint8_t`). -/
structure Color where
  r : Nat
  g : Nat
  b : Nat
  a : Nat
  deriving DecidableEq, Repr

/-- The struct `Rectangle`; `active` is `true` unless it is assigned. -/
structure Rectangle where
  dims : Dims
  pos : Pos
  color : Color
  active : Bool := true
  deriving DecidableEq, Repr

/-- The struct `Ball`: an `int` centre, the other members are `float`. -/
structure Ball (K : Type) where
  x : Int
  y : Int
  radius : Flt K
  r : Flt K
  g : Flt K
  b : Flt K
  a : Flt K
  vx : Flt K
  vy : Flt K
  speed : Flt K

/-- The number of elements of the array `rectangles`. -/
def RECT_SLOTS : Nat := RECT_COUNT_X * RECT_COUNT_Y + 1

/-- The globals of the program.  `rectangles i` is the element `i` of the array
`rectangles` for `i < RECT_SLOTS` (the values at other indices are not part of
the program's state); `slider_rectangle` is the element
`RECT_COUNT_X * RECT_COUNT_Y`.  `rng` is the sequence of the values the coming
calls of `rand()` return.  `stray i r b` is the value of `ball` after a store of
`r` at the index `i` past the end of `rectangles`, when `ball` was `b` before:
such a store is undefined behaviour, what it does depends on where the compiler
puts `ball` (behind the array, where the store overwrites members of `ball`,
or elsewhere, where it leaves `ball` alone), and the embedding fixes nothing
about it. -/
structure Game (K : Type) where
  ball : Ball K
  rectangles : Nat → Rectangle
  rng : Nat → Nat
  stray : Nat → Rectangle → Ball K → Ball K

variable {K : Type} [LinearOrderedField K]

/-- The reference `slider_rectangle`. -/
def Game.slider_rectangle (g : Game K) : Rectangle :=
  g.rectangles (RECT_COUNT_X * RECT_COUNT_Y)

/-- A store to the element `i` of `rectangles` through a reference to it
(`rect`, `slider_rectangle`); every such reference is to an element of the
array, `i < RECT_SLOTS`. -/
def Game.store (g : Game K) (i : Nat) (r : Rectangle) : Game K :=
  if i < RECT_SLOTS then { g with rectangles := Function.update g.rectangles i r } else g

/-- An assignment `rectangles[i] = r` with a computed index, which nothing
checks.  Inside the array it is the store to element `i`; a store past the end
leaves the array as it is and changes `ball` to `stray i r ball`. -/
def Game.assign (g : Game K) (i : Nat) (r : Rectangle) : Game K :=
  if i < RECT_SLOTS then g.store i r else { g with ball := g.stray i r g.ball }

/-- The value of an `int` expression whose mathematical value is `n`: signed
32-bit arithmetic wraps around in the compiled program (an overflow is
undefined behaviour in C++). -/
def wrap32 (n : Int) : Int := (n + 2147483648) % 4294967296 - 2147483648

/-- A call of `rand()`: the value returned and the state after the call. -/
def Game.rand (g : Game K) : Nat × Game K :=
  (g.rng 0, { g with rng := fun n => g.rng (n + 1) })

/-! ## Collision detection (`clamp`, `check_collision`) -/

/-- The function `clamp`: `std::max(min, std::min(max, value))`. -/
def clamp (value min max : Flt K) : Flt K :=
  Flt.max min (Flt.min max value)

/-- The local `clamped_dist_x` of `check_collision`. -/
def clamped_dist_x (ball : Ball K) (rectangle : Rectangle) : Flt K :=
  clamp (Flt.ofInt (ball.x - (rectangle.pos.x + rectangle.dims.w.tdiv 2)))
    (Flt.ofInt ((-rectangle.dims.w).tdiv 2)) (Flt.ofInt (rectangle.dims.w.tdiv 2))

/-- The local `clamped_dist_y` of `check_collision`. -/
def clamped_dist_y (ball : Ball K) (rectangle : Rectangle) : Flt K :=
  clamp (Flt.ofInt (ball.y - (rectangle.pos.y + rectangle.dims.h.tdiv 2)))
    (Flt.ofInt ((-rectangle.dims.h).tdiv 2)) (Flt.ofInt (rectangle.dims.h.tdiv 2))

/-- The local `closest_x` of `check_collision`. -/
def closest_x (ball : Ball K) (rectangle : Rectangle) : Flt K :=
  Flt.ofInt (rectangle.dims.w.tdiv 2 + rectangle.pos.x) + clamped_dist_x ball rectangle

/-- The local `closest_y` of `check_collision`. -/
def closest_y (ball : Ball K) (rectangle : Rectangle) : Flt K :=
  Flt.ofInt (rectangle.dims.h.tdiv 2 + rectangle.pos.y) + clamped_dist_y ball rectangle

/-- The local `ball_to_closest_x` of `check_collision`. -/
def ball_to_closest_x (ball : Ball K) (rectangle : Rectangle) : Flt K :=
  closest_x ball rectangle - Flt.ofInt ball.x

/-- The local `ball_to_closest_y` of `check_collision`. -/
def ball_to_closest_y (ball : Ball K) (rectangle : Rectangle) : Flt K :=
  closest_y ball rectangle - Flt.ofInt ball.y

/-- The local `dist_to_closest` of `check_collision`. -/
def dist_to_closest (sqrtK : K → K) (ball : Ball K) (rectangle : Rectangle) : Flt K :=
  Flt.sqrt sqrtK
    (ball_to_closest_x ball rectangle * ball_to_closest_x ball rectangle +
      ball_to_closest_y ball rectangle * ball_to_closest_y ball rectangle)

/-- The local `ball_to_closest_dir_x` of `check_collision`. -/
def ball_to_closest_dir_x (sqrtK : K → K) (ball : Ball K) (rectangle : Rectangle) : Flt K :=
  ball_to_closest_x ball rectangle / dist_to_closest sqrtK ball rectangle

/-- The local `ball_to_closest_dir_y` of `check_collision`. -/
def ball_to_closest_dir_y (sqrtK : K → K) (ball : Ball K) (rectangle : Rectangle) : Flt K :=
  ball_to_closest_y ball rectangle / dist_to_closest sqrtK ball rectangle

/-- The array `dot_products` of `check_collision`, from the two direction
components. -/
def dot_products (dir_x dir_y : Flt K) : Nat → Flt K
  | 0 => -dir_x
  | 1 => dir_x
  | 2 => dir_y
  | _ => -dir_y

/-- The loop `for (int i = 1; i < 4; i++)` of `check_collision` that finds
`max_idx`. -/
def find_max_idx (dot : Nat → Flt K) : Nat :=
  [1, 2, 3].foldl (fun max_idx i => if dot i > dot max_idx then i else max_idx) 0

/-- The function `check_collision`.  The early return leaves `side`,
`closest_x` and `closest_y` uninitialised; they are given fixed values here,
and no caller reads them when `collided` is false. -/
def check_collision (sqrtK : K → K) (ball : Ball K) (rectangle : Rectangle) :
    CollisionInfo K :=
  if dist_to_closest sqrtK ball rectangle > ball.radius then
    { collided := false, side := .LEFT, closest_x := .fin 0, closest_y := .fin 0 }
  else
    { collided := true
      side := CollisionSide.ofIdx
        (find_max_idx (dot_products (ball_to_closest_dir_x sqrtK ball rectangle)
          (ball_to_closest_dir_y sqrtK ball rectangle)))
      closest_x := ball_to_closest_x ball rectangle
      closest_y := ball_to_closest_y ball rectangle }

/-! ## Collision response (`check_collisions`, `move_ball`) -/

/-- The statements `ball.vx = v` and `ball.vy = v`. -/
def Game.setVx (g : Game K) (v : Flt K) : Game K := { g with ball := { g.ball with vx := v } }

def Game.setVy (g : Game K) (v : Flt K) : Game K := { g with ball := { g.ball with vy := v } }

/-- Lines 239-244 of `check_collisions`: `vy *= -1` for the sides UP and DOWN,
`vx *= -1` for the others. -/
def reflect (g : Game K) (side : CollisionSide) : Game K :=
  if side = .UP ∨ side = .DOWN then g.setVy (g.ball.vy * Flt.ofInt (-1))
  else g.setVx (g.ball.vx * Flt.ofInt (-1))

/-- The local `ball_to_center_x` of `check_collisions`. -/
def ball_to_center_x (g : Game K) : Flt K :=
  Flt.ofInt (g.slider_rectangle.pos.x + g.slider_rectangle.dims.w.tdiv 2 - g.ball.x)

/-- The local `dist_from_center_normalized` of `check_collisions`:
`std::abs(clamp(...)) / slider_rectangle.dims.w / 2`. -/
def dist_from_center_normalized (g : Game K) : Flt K :=
  Flt.abs (clamp (ball_to_center_x g) (Flt.ofInt ((-g.slider_rectangle.dims.w).tdiv 2))
      (Flt.ofInt (g.slider_rectangle.dims.w.tdiv 2))) /
    Flt.ofInt g.slider_rectangle.dims.w / Flt.ofInt 2

/-- Lines 250-268 of `check_collisions`, the body of
`if (collision_info.side == CollisionSide::UP)` for the slider; the literal
`0.1f` is taken as one tenth. -/
def slider_up (g : Game K) : Game K :=
  if ball_to_center_x g * g.ball.vx > Flt.ofInt 0 ∧
      dist_from_center_normalized g > Flt.fin (1 / 10) then
    g.setVx (g.ball.vx * Flt.ofInt (-1))
  else
    g.setVx (g.ball.vx +
      (if g.ball.vx > Flt.ofInt 0 then dist_from_center_normalized g
       else -dist_from_center_normalized g))

/-- Lines 277-279 of `check_collisions`: division of the velocity by its norm. -/
def normalize_velocity (sqrtK : K → K) (g : Game K) : Game K :=
  let velocity_norm := Flt.sqrt sqrtK (g.ball.vx * g.ball.vx + g.ball.vy * g.ball.vy)
  let g1 := g.setVx (g.ball.vx / velocity_norm)
  g1.setVy (g1.ball.vy / velocity_norm)

/-- Lines 281-284 of `check_collisions`: a new random colour for
`rectangles[i]`. -/
def recolor (g : Game K) (i : Nat) : Game K :=
  let (r, g1) := g.rand
  let (gr, g2) := g1.rand
  let (b, g3) := g2.rand
  g3.store i { g3.rectangles i with color := ⟨r % 255, gr % 255, b % 255, 255⟩ }

/-- The body of the loop of `check_collisions` from line 239 on, run for the
first active rectangle `i` that collides. -/
def resolve (sqrtK : K → K) (g : Game K) (i : Nat) (collision_info : CollisionInfo K) :
    Except String (Game K) :=
  let g1 := reflect g collision_info.side
  if i ≠ RECT_COUNT_X * RECT_COUNT_Y then
    let g2 := g1.store i { g1.rectangles i with active := false }
    .ok (recolor (normalize_velocity sqrtK g2) i)
  else
    let g2 := if collision_info.side = .UP then slider_up g1 else g1
    if collision_info.side = .DOWN then .error "????!"
    else .ok (recolor (normalize_velocity sqrtK g2) i)

/-- The loop `for (int i = 0; i < RECT_COUNT_X * RECT_COUNT_Y + 1; i++)` of
`check_collisions`, with `n` iterations left from index `i` on.  Inactive
rectangles and rectangles that do not collide are skipped; the first other one
is resolved and the loop is left (`break`). -/
def scan (sqrtK : K → K) (g : Game K) : Nat → Nat → Except String (Game K)
  | 0, _ => .ok g
  | n + 1, i =>
    if (g.rectangles i).active = false then scan sqrtK g n (i + 1)
    else if (check_collision sqrtK g.ball (g.rectangles i)).collided = false then
      scan sqrtK g n (i + 1)
    else resolve sqrtK g i (check_collision sqrtK g.ball (g.rectangles i))

/-- Lines 287-295 of `check_collisions`: the three wall checks. -/
def walls (g : Game K) : Game K :=
  let g1 :=
    if Flt.ofInt g.ball.x - g.ball.radius < Flt.ofInt 0 ∧ g.ball.vx < Flt.ofInt 0 then
      g.setVx (g.ball.vx * Flt.ofInt (-1))
    else g
  let g2 :=
    if Flt.ofInt g1.ball.x + g1.ball.radius > Flt.ofInt SCREEN_WIDTH ∧
        g1.ball.vx > Flt.ofInt 0 then
      g1.setVx (g1.ball.vx * Flt.ofInt (-1))
    else g1
  if Flt.ofInt g2.ball.y - g2.ball.radius < Flt.ofInt 0 then
    g2.setVy (g2.ball.vy * Flt.ofInt (-1))
  else g2

/-- The function `check_collisions`. -/
def check_collisions (sqrtK : K → K) (g : Game K) : Except String (Game K) :=
  (scan sqrtK g RECT_SLOTS 0).map walls

/-- The value of `c + dt * v * speed` for the `int` `c`, as `move_ball`
computes it: `c` is converted to `float`, and every operation is done in
`float`, its result rounded by `fl`. -/
def displaced (fl : K → Flt K) (c : Int) (dt v speed : Flt K) : Flt K :=
  Flt.round fl (Flt.round fl (Flt.ofInt c) + Flt.round fl (Flt.round fl (dt * v) * speed))

/-- The function `move_ball`; the sums are computed in `float`, with the
rounding `fl`, and stored in the `int` members `ball.x` and `ball.y`. -/
def move_ball [FloorRing K] (fl : K → Flt K) (sqrtK : K → K) (dt : Flt K) (g : Game K) :
    Except String (Game K) :=
  (check_collisions sqrtK g).map fun g1 =>
    let g2 : Game K := { g1 with ball := { g1.ball with
      x := Flt.toInt (displaced fl g1.ball.x dt g1.ball.vx g1.ball.speed) } }
    { g2 with ball := { g2.ball with
      y := Flt.toInt (displaced fl g2.ball.y dt g2.ball.vy g2.ball.speed) } }

/-! ## The board (`fill_primitives`) -/

/-- The body of the inner loop of `fill_primitives` for the cell `(x, y)`. -/
def fill_cell (x : Nat) (g : Game K) (y : Nat) : Game K :=
  let (r, g1) := g.rand
  let (gr, g2) := g1.rand
  let (b, g3) := g2.rand
  g3.assign (x + RECT_COUNT_Y * y)
    { dims := ⟨RECT_WIDTH, RECT_HEIGHT⟩
      pos := ⟨RECT_EDGE_OFFSET + (RECT_WIDTH + RECT_PADDING) * x,
              RECT_EDGE_OFFSET + (RECT_HEIGHT + RECT_PADDING) * y⟩
      color := ⟨r % 255, gr % 255, b % 255, 255⟩ }

/-- The inner loop `for (int y = 0; y < RECT_COUNT_Y; y++)` of
`fill_primitives`. -/
def fill_column (g : Game K) (x : Nat) : Game K :=
  (List.range RECT_COUNT_Y).foldl (fill_cell x) g

/-- The function `fill_primitives`. -/
def fill_primitives (g : Game K) : Game K :=
  let (r, g1) := g.rand
  let (gr, g2) := g1.rand
  let (b, g3) := g2.rand
  let g4 : Game K := { g3 with ball := { g3.ball with
    r := Flt.ofInt (r % 255), g := Flt.ofInt (gr % 255), b := Flt.ofInt (b % 255),
    a := Flt.ofInt 255, radius := Flt.ofInt 10, speed := Flt.ofInt BALL_SPEED } }
  let g5 := (List.range RECT_COUNT_X).foldl fill_column g4
  g5.store (RECT_COUNT_X * RECT_COUNT_Y)
    { dims := ⟨100, 20⟩
      pos := ⟨(SCREEN_WIDTH : Int).tdiv 2 - 50, (SCREEN_HEIGHT : Int) - 20⟩
      color := ⟨255, 255, 255, 255⟩ }

/-! ## The main loop -/

/-- The events the loop of `main` reacts to. -/
inductive Event where
  | quit : Event
  | mouseMotion (x : Int) : Event
  | mouseButtonUp : Event
  | other : Event

/-- The state of `main`: the globals and the locals `quit` and
`ball_attached`. -/
structure App (K : Type) where
  game : Game K
  quit : Bool
  ball_attached : Bool

/-- Lines 326-329 of `main`: the slider follows the pointer.  `x` is the member
`event.motion.x`, a 32-bit integer; the two subtractions are done in `int`. -/
def pointer_motion (g : Game K) (x : Int) : Game K :=
  let s := g.slider_rectangle
  let x1 := wrap32 (x - s.dims.w.tdiv 2)
  let x2 := Max.max 0 x1
  let x3 := Min.min (wrap32 ((SCREEN_WIDTH : Int) - s.dims.w)) x2
  g.store (RECT_COUNT_X * RECT_COUNT_Y) { s with pos := { s.pos with x := x3 } }

/-- The body of the loop `while (SDL_PollEvent(&event))` of `main`. -/
def handle_event (a : App K) : Event → App K
  | .quit => { a with quit := true }
  | .mouseMotion x => { a with game := pointer_motion a.game x }
  | .mouseButtonUp =>
    if a.ball_attached then
      { a with ball_attached := false,
               game := (a.game.setVy (Flt.fin (-(3 / 4)))).setVx (Flt.fin (1 / 4)) }
    else a
  | .other => a

/-- The value of `c - radius` for the `int` `c`, as `main` computes it when it
puts the ball on the slider: `c` is converted to `float`, and the difference is
computed in `float`, its result rounded by `fl`. -/
def anchored (fl : K → Flt K) (c : Int) (radius : Flt K) : Flt K :=
  Flt.round fl (Flt.round fl (Flt.ofInt c) - radius)

/-- Lines 339-340 and 359-360 of `main`: the ball is put on the slider; the
difference `slider_rectangle.pos.y - ball.radius` is computed in `float`, with
the rounding `fl`, and stored in the `int` member `ball.y`. -/
def attach_ball [FloorRing K] (fl : K → Flt K) (g : Game K) : Game K :=
  let g1 : Game K := { g with ball := { g.ball with
    x := g.slider_rectangle.pos.x + g.slider_rectangle.dims.w.tdiv 2 } }
  { g1 with ball := { g1.ball with
    y := Flt.toInt (anchored fl g1.slider_rectangle.pos.y g1.ball.radius) } }

/-- A call of `draw_rect` or of `draw_ball`. -/
inductive DrawCall (K : Type) where
  | rect (r : Rectangle) : DrawCall K
  | ball (b : Ball K) : DrawCall K

/-- The loop of lines 346-350 of `main`: the draw calls for the bricks. -/
def draw_bricks (g : Game K) : List (DrawCall K) :=
  ((List.range (RECT_COUNT_X * RECT_COUNT_Y)).filter fun i => (g.rectangles i).active).map
    fun i => DrawCall.rect (g.rectangles i)

/-- Lines 345-354 of `main`: the draw calls of a frame, in order. -/
def render (g : Game K) : List (DrawCall K) :=
  draw_bricks g ++ [DrawCall.rect g.slider_rectangle, DrawCall.ball g.ball]

/-- Lines 317-343 of `main`: the events, then the ball. -/
def update [FloorRing K] (fl : K → Flt K) (sqrtK : K → K) (dt : Flt K) (events : List Event)
    (a : App K) : Except String (App K) :=
  let a1 := events.foldl handle_event a
  if a1.ball_attached then .ok { a1 with game := attach_ball fl a1.game }
  else (move_ball fl sqrtK dt a1.game).map fun g => { a1 with game := g }

/-- Lines 356-361 of `main`: the round is reset when the ball is below the
screen. -/
def end_of_tick [FloorRing K] (fl : K → Flt K) (a : App K) : App K :=
  if a.game.ball.y > (SCREEN_HEIGHT : Int) then
    { a with game := attach_ball fl (fill_primitives a.game), ball_attached := true }
  else a

/-- One iteration of the loop `while (!quit)` of `main`: the frame drawn and
the state at the end of the iteration. -/
def tick [FloorRing K] (fl : K → Flt K) (sqrtK : K → K) (dt : Flt K) (events : List Event)
    (a : App K) : Except String (List (DrawCall K) × App K) :=
  (update fl sqrtK dt events a).map fun a1 => (render a1.game, end_of_tick fl a1)

/-! ## Auxiliary definitions for the statements -/

/-- The integer `closest_x - ball.x` computes (all its operands are integers):
the centre of the extent plus the clamped distance, minus the ball's
coordinate.  `c` is the ball's coordinate, `p` the rectangle's position and `d`
its dimension on the axis. -/
def offset (c p d : Int) : Int :=
  d.tdiv 2 + p + Max.max ((-d).tdiv 2) (Min.min (d.tdiv 2) (c - (p + d.tdiv 2))) - c

/-- The integer `ball_to_closest_x² + ball_to_closest_y²`. -/
def sqdist (x y : Int) (rectangle : Rectangle) : Int :=
  offset x rectangle.pos.x rectangle.dims.w * offset x rectangle.pos.x rectangle.dims.w +
    offset y rectangle.pos.y rectangle.dims.h * offset y rectangle.pos.y rectangle.dims.h

/-- The clamp of the specification on integers: `v` clamped to `[lo, hi]`. -/
def clamp_spec (v lo hi : Int) : Int := Max.max lo (Min.min hi v)

/-- The squared Euclidean distance from `(x, y)` to the point obtained by
clamping it, per axis, to the extent `[pos.x, pos.x + w] x [pos.y, pos.y + h]`
of the rectangle, as the specification describes the closest point. -/
def sqdist_spec (x y : Int) (rectangle : Rectangle) : Int :=
  (clamp_spec x rectangle.pos.x (rectangle.pos.x + rectangle.dims.w) - x) ^ 2 +
    (clamp_spec y rectangle.pos.y (rectangle.pos.y + rectangle.dims.h) - y) ^ 2

/-- A ball of radius 10 and speed 300 at `(x, y)` with velocity `(vx, vy)`. -/
def ball_at (K : Type) [LinearOrderedField K] (x y : Int) (vx vy : K) : Ball K :=
  { x := x, y := y, radius := .fin 10, r := .fin 0, g := .fin 0, b := .fin 0, a := .fin 255,
    vx := .fin vx, vy := .fin vy, speed := .fin 300 }

/-- An active white rectangle of dimensions `w x h` at `(x, y)`. -/
def rect_at (x y w h : Int) : Rectangle :=
  { dims := ⟨w, h⟩, pos := ⟨x, y⟩, color := ⟨255, 255, 255, 255⟩ }

/-- The squared norm `vx² + vy²` of the velocity, as the program computes it. -/
def sqnorm (g : Game K) : Flt K := g.ball.vx * g.ball.vx + g.ball.vy * g.ball.vy

/-- Rectangle `i` is active and `check_collision` reports a collision with it. -/
def Hits (sqrtK : K → K) (g : Game K) (i : Nat) : Prop :=
  (g.rectangles i).active = true ∧
    (check_collision sqrtK g.ball (g.rectangles i)).collided = true

/-- Rectangle `i` is the first element of the array that is active and
collides with the ball: the one `check_collisions` resolves. -/
def FirstHit (sqrtK : K → K) (g : Game K) (i : Nat) : Prop :=
  i < RECT_SLOTS ∧ Hits sqrtK g i ∧ ∀ j, j < i → ¬ Hits sqrtK g j

/-- The integer `clamp(ball_to_center_x, -w/2, w/2)` of `check_collisions`. -/
def clamped_center_offset (g : Game K) : Int :=
  Max.max ((-g.slider_rectangle.dims.w).tdiv 2) (Min.min (g.slider_rectangle.dims.w.tdiv 2)
    (g.slider_rectangle.pos.x + g.slider_rectangle.dims.w.tdiv 2 - g.ball.x))

/-- The array once every brick is gone: all elements are inactive except the
slider, which is where `fill_primitives` puts it. -/
def cleared_board : Nat → Rectangle := fun i =>
  if i = RECT_COUNT_X * RECT_COUNT_Y then rect_at 270 460 100 20
  else { rect_at 0 0 0 0 with active := false }

/-- The array with the first brick of the grid and the slider, all other
elements inactive. -/
def one_brick_board : Nat → Rectangle := fun i =>
  if i = 0 then rect_at 10 10 80 20
  else if i = RECT_COUNT_X * RECT_COUNT_Y then rect_at 270 460 100 20
  else { rect_at 0 0 0 0 with active := false }

/-- The globals with the given ball and array; `rand()` returns 0, and a store
past the end of the array leaves `ball` alone. -/
def game_of (K : Type) [LinearOrderedField K] (ball : Ball K) (rectangles : Nat → Rectangle) :
    Game K :=
  { ball := ball, rectangles := rectangles, rng := fun _ => 0, stray := fun _ _ b => b }

/-- The globals with the position and the dimensions of rectangle `j`
replaced. -/
def Game.setGeometry (g : Game K) (j : Nat) (dims : Dims) (pos : Pos) : Game K :=
  { g with rectangles :=
      Function.update g.rectangles j { g.rectangles j with dims := dims, pos := pos } }

/-- The state of `main` with the given globals, `quit` false. -/
def app_of (K : Type) [LinearOrderedField K] (g : Game K) (ball_attached : Bool) : App K :=
  { game := g, quit := false, ball_attached := ball_attached }

/-- The array `rectangles` as the program starts: every element is
zero-initialised, with `active = true` from the default member initialiser. -/
def initial_board : Nat → Rectangle := fun _ =>
  { dims := ⟨0, 0⟩, pos := ⟨0, 0⟩, color := ⟨0, 0, 0, 0⟩, active := true }

/-- A state of play: the board as `fill_primitives` lays it out at the start of
`main`, the first brick already hit, the ball in the top left corner at
`(5, 5)` moving up and left. -/
def first_brick_gone (K : Type) [LinearOrderedField K] : Game K :=
  let g := fill_primitives (game_of K (ball_at K 5 5 (-1 / 4) (-3 / 4)) initial_board)
  g.store 0 { g.rectangles 0 with active := false }

/-- The globals with the ball moved to the height `y`. -/
def Game.setBallY (g : Game K) (y : Int) : Game K := { g with ball := { g.ball with y := y } }

/-! ## The loop of `main` -/

/-- The globals before `main` runs: `ball` is zero-initialised and every
element of `rectangles` is zero-initialised with `active = true`; `rng` is the
sequence `rand()` will return.  A store past the end of the array leaves `ball`
alone (see `Game.withStray` for the other builds). -/
def initial_globals (K : Type) [LinearOrderedField K] (rng : Nat → Nat) : Game K :=
  { ball := { x := 0, y := 0, radius := .fin 0, r := .fin 0, g := .fin 0, b := .fin 0,
              a := .fin 0, vx := .fin 0, vy := .fin 0, speed := .fin 0 }
    rectangles := fun _ =>
      { dims := ⟨0, 0⟩, pos := ⟨0, 0⟩, color := ⟨0, 0, 0, 0⟩, active := true }
    rng := rng
    stray := fun _ _ b => b }

/-- The globals with another effect of the stores past the end of
`rectangles`. -/
def Game.withStray (g : Game K) (stray : Nat → Rectangle → Ball K → Ball K) : Game K :=
  { g with stray := stray }

/-- Lines 305-315 of `main`: the state in which the loop is entered (`init`
is taken to succeed), in a build in which the stores past the end of
`rectangles` do `stray` to `ball`. -/
def main_start (K : Type) [LinearOrderedField K] (rng : Nat → Nat)
    (stray : Nat → Rectangle → Ball K → Ball K) : App K :=
  { game := fill_primitives ((initial_globals K rng).withStray stray), quit := false,
    ball_attached := true }

/-- The loop `while (!quit)` of `main` run on the given inputs, one pair of the
elapsed time and the pending events per iteration.  An exception leaves the
loop (nothing in `main` catches it). -/
def run [FloorRing K] (fl : K → Flt K) (sqrtK : K → K) :
    List (Flt K × List Event) → App K → Except String (App K)
  | [], a => .ok a
  | (dt, events) :: rest, a =>
    if a.quit then .ok a
    else
      match tick fl sqrtK dt events a with
      | .ok (_, a1) => run fl sqrtK rest a1
      | .error e => .error e

/-! ## Further auxiliary definitions for the statements -/

/-- The globals with element `k` of `rectangles` replaced by `r`. -/
def Game.setRect (g : Game K) (k : Nat) (r : Rectangle) : Game K :=
  { g with rectangles := Function.update g.rectangles k r }

/-- What the loop of `main` never changes once `fill_primitives` has run: the
dimensions `100 x 20` and the height `SCREEN_HEIGHT - 20` of the slider. -/
def GameInv (g : Game K) : Prop :=
  g.slider_rectangle.pos.y = (SCREEN_HEIGHT : Int) - 20 ∧ g.slider_rectangle.dims = ⟨100, 20⟩

/-- The rounding leaves the integers of magnitude at most `2^24` as they are:
they are values of `float`. -/
def ExactOnInts (fl : K → Flt K) : Prop :=
  ∀ n : Int, |n| ≤ 16777216 → fl (n : K) = Flt.fin (n : K)

/-- The radius of the ball is such that the ball put on the slider, at the
height `(int)(SCREEN_HEIGHT - 20 - radius)`, is not below the screen. -/
def AttachOk [FloorRing K] (fl : K → Flt K) (b : Ball K) : Prop :=
  Flt.toInt (anchored fl ((SCREEN_HEIGHT : Int) - 20) b.radius) ≤ (SCREEN_HEIGHT : Int)

/-- An assumption on what the stores of `fill_primitives` past the end of
`rectangles` do to `ball`: storing a rectangle as `fill_primitives` stores them
(alpha 255, on the screen) does not put the ball below the screen, now or when
it is next put on the slider. -/
def TameStray [FloorRing K] (fl : K → Flt K) (stray : Nat → Rectangle → Ball K → Ball K) :
    Prop :=
  ∀ i r b, r.color.a = 255 → r.pos.y ≤ (SCREEN_HEIGHT : Int) →
    (b.y ≤ (SCREEN_HEIGHT : Int) → (stray i r b).y ≤ (SCREEN_HEIGHT : Int)) ∧
    (AttachOk fl b → AttachOk fl (stray i r b))

/-- What holds of the state at the start of every iteration of the loop when
the stray stores are tame: `GameInv`, the ball is not below the screen, and it
is not when it is put on the slider. -/
def PlayInv [FloorRing K] (fl : K → Flt K) (a : App K) : Prop :=
  a.game.ball.y ≤ (SCREEN_HEIGHT : Int) ∧ GameInv a.game ∧ AttachOk fl a.game.ball ∧
    TameStray fl a.game.stray

/-- A stray store as an optimised build can do it: the element past the end of
the array lies over `ball`, its `pos` over the centre and its colour bytes
`(0, 0, 0, 255)` over `radius`, where they are the `float` `-2^127`. -/
def overlay_stray (K : Type) [LinearOrderedField K] : Nat → Rectangle → Ball K → Ball K :=
  fun i r b =>
    if i = RECT_SLOTS then
      { b with x := r.pos.x, y := r.pos.y,
               radius := .fin (((-170141183460469231731687303715884105728 : Int) : K)) }
    else b

/-- What the collision test asks of `std::sqrt`: on an integer `n < 2^24` its
value is at most the integer `r` exactly when `n ≤ r²`.  The exact square root
has this property, and so has the square root of `float`, which is the exact
one rounded to nearest (on these integers the conversions to `float` are
exact, the rounding is monotone and fixes `r`, and `√(r² + 1) - r` exceeds
half a unit in the last place of `r`). -/
def SqrtCompares (sqrtK : K → K) : Prop :=
  ∀ n r : Nat, n < 2 ^ 24 → (sqrtK (n : K) ≤ (r : K) ↔ n ≤ r * r)

/-- The array `rectangles` as `main` lays it out before the loop:
`fill_primitives` run on the zero-initialised globals. -/
def laid_out_board : Nat → Rectangle :=
  (fill_primitives (initial_globals ℚ fun _ => 0)).rectangles

/-- The bricks are where `fill_primitives` lays them out: each of the
`RECT_COUNT_X * RECT_COUNT_Y` brick slots has the dimensions and the position
it has in `laid_out_board` (the active flags and the colours are free). -/
def LaidOut (g : Game K) : Prop :=
  ∀ i, i < RECT_COUNT_X * RECT_COUNT_Y →
    (g.rectangles i).dims = (laid_out_board i).dims ∧
      (g.rectangles i).pos = (laid_out_board i).pos

/-- The globals right after the launch in the program's first round: `main`
has laid out the board (its stores past the end of the array leaving the ball
alone), one iteration has attached the ball to the slider (the difference
`460 - 10` is exact), and the handler of the button release has set the launch
velocity. -/
def launch_state (K : Type) [LinearOrderedField K] [FloorRing K] (rng : Nat → Nat) : Game K :=
  (handle_event
    { game := attach_ball Flt.fin (main_start K rng fun _ _ b => b).game, quit := false,
      ball_attached := true }
    .mouseButtonUp).game

/-- The normalized offset magnitude as the specification describes it: the
offset clamped to plus or minus half the width, divided by half the width. -/
def normalized_offset_spec (offset w : Int) : K :=
  |((clamp_spec offset (-(w / 2)) (w / 2) : Int) : K)| / ((w : K) / 2)

/-- The coordinates of the ball and of the rectangle, and the dimensions of the
rectangle, are at most 1024 in magnitude: a range (the screen is `640 x 480`)
in which every conversion, sum and product of `check_collision` up to the
square root is exact in `float`. -/
def SmallCoordinates (ball : Ball K) (rectangle : Rectangle) : Prop :=
  |ball.x| ≤ 1024 ∧ |ball.y| ≤ 1024 ∧ |rectangle.pos.x| ≤ 1024 ∧ |rectangle.pos.y| ≤ 1024 ∧
    rectangle.dims.w ≤ 1024 ∧ rectangle.dims.h ≤ 1024

set_option linter.unusedSectionVars false

/-! ## Arithmetic of finite values -/

namespace Flt

@[simp] theorem fin_add_fin (a b : K) : (fin a + fin b : Flt K) = fin (a + b) := rfl

@[simp] theorem fin_sub_fin (a b : K) : (fin a - fin b : Flt K) = fin (a - b) := by
  show add (fin a) (neg (fin b)) = fin (a - b)
  simp [add, neg, sub_eq_add_neg]

@[simp] theorem fin_mul_fin (a b : K) : (fin a * fin b : Flt K) = fin (a * b) := rfl

@[simp] theorem neg_fin (a : K) : (-(fin a) : Flt K) = fin (-a) := rfl

@[simp] theorem neg_nan : (-(nan) : Flt K) = nan := rfl

@[simp] theorem neg_pinf : (-(pinf) : Flt K) = ninf := rfl

@[simp] theorem neg_ninf : (-(ninf) : Flt K) = pinf := rfl

theorem fin_div_fin (a b : K) (hb : b ≠ 0) : (fin a / fin b : Flt K) = fin (a / b) := by
  show div (fin a) (fin b) = fin (a / b)
  simp [div, hb]

@[simp] theorem fin_zero_div_fin_zero : (fin 0 / fin 0 : Flt K) = nan := by
  show div (fin 0) (fin 0) = nan
  simp [div, infOfSign]

@[simp] theorem fin_lt_fin (a b : K) : (fin a < fin b) ↔ a < b := by
  show lt (fin a) (fin b) = true ↔ a < b
  simp [lt]

@[simp] theorem not_nan_lt (a : Flt K) : ¬ (nan < a) := by
  show ¬ (lt nan a = true)
  simp [lt]

@[simp] theorem not_lt_nan (a : Flt K) : ¬ (a < nan) := by
  show ¬ (lt a nan = true)
  cases a <;> simp [lt]

@[simp] theorem ofInt_eq (n : Int) : (ofInt n : Flt K) = fin (n : K) := rfl

theorem sqrt_fin (sqrtK : K → K) (v : K) (hv : 0 ≤ v) : sqrt sqrtK (fin v) = fin (sqrtK v) := by
  simp [sqrt, not_lt.mpr hv]

@[simp] theorem abs_fin (v : K) : abs (fin v) = fin |v| := rfl

/-- Multiplying by `-1` is negation, for every value. -/
theorem mul_neg_one (v : Flt K) : v * fin (-1) = -v := by
  cases v with
  | nan => rfl
  | ninf =>
    show mul ninf (fin (-1)) = pinf
    simp [mul, infOfSign]
  | fin a =>
    show fin (a * -1) = fin (-a)
    simp
  | pinf =>
    show mul pinf (fin (-1)) = ninf
    simp [mul, infOfSign]

@[simp] theorem neg_neg (v : Flt K) : -(-v) = v := by
  cases v with
  | nan => rfl
  | ninf => rfl
  | fin a => show fin (-(-a)) = fin a; simp
  | pinf => rfl

theorem min_fin (a b : K) : min (fin a) (fin b) = fin (Min.min a b) := by
  unfold min
  by_cases h : b < a
  · simp [lt, h, min_eq_right h.le]
  · simp [lt, h, min_eq_left (not_lt.mp h)]

theorem max_fin (a b : K) : max (fin a) (fin b) = fin (Max.max a b) := by
  unfold max
  by_cases h : a < b
  · simp [lt, h, max_eq_right h.le]
  · simp [lt, h, max_eq_left (not_lt.mp h)]

end Flt

theorem isSqrt_real : IsSqrt Real.sqrt :=
  fun x hx => ⟨Real.sqrt_nonneg x, Real.mul_self_sqrt hx⟩

theorem IsSqrt.le_iff {sqrtK : K → K} (hs : IsSqrt sqrtK) {x r : K} (hx : 0 ≤ x) (hr : 0 ≤ r) :
    sqrtK x ≤ r ↔ x ≤ r * r := by
  obtain ⟨h0, h1⟩ := hs x hx
  constructor
  · intro h
    calc x = sqrtK x * sqrtK x := h1.symm
      _ ≤ r * r := mul_le_mul h h h0 hr
  · intro h
    by_contra hlt
    have hlt := not_le.mp hlt
    have : r * r < sqrtK x * sqrtK x := mul_lt_mul'' hlt hlt hr hr
    rw [h1] at this
    exact absurd h (not_le.mpr this)

theorem IsSqrt.pos {sqrtK : K → K} (hs : IsSqrt sqrtK) {x : K} (hx : 0 < x) : 0 < sqrtK x := by
  obtain ⟨h0, h1⟩ := hs x hx.le
  rcases h0.lt_or_eq with h | h
  · exact h
  · rw [← h] at h1
    simp at h1
    exact absurd h1.symm (ne_of_gt hx)

theorem IsSqrt.zero {sqrtK : K → K} (hs : IsSqrt sqrtK) : sqrtK 0 = 0 := by
  obtain ⟨_, h1⟩ := hs 0 le_rfl
  exact mul_self_eq_zero.mp h1

/-! ## The closest point -/

theorem clamp_fin (v lo hi : K) :
    clamp (Flt.fin v) (Flt.fin lo) (Flt.fin hi) = Flt.fin (Max.max lo (Min.min hi v)) := by
  simp [clamp, Flt.min_fin, Flt.max_fin]

theorem clamp_ofInt (v lo hi : Int) :
    (clamp (Flt.ofInt v) (Flt.ofInt lo) (Flt.ofInt hi) : Flt K) =
      Flt.ofInt (Max.max lo (Min.min hi v)) := by
  simp [clamp_fin]

theorem ball_to_closest_x_eq (ball : Ball K) (rectangle : Rectangle) :
    ball_to_closest_x ball rectangle =
      Flt.fin ((offset ball.x rectangle.pos.x rectangle.dims.w : Int) : K) := by
  unfold ball_to_closest_x closest_x clamped_dist_x
  rw [clamp_ofInt]
  simp [offset]

theorem ball_to_closest_y_eq (ball : Ball K) (rectangle : Rectangle) :
    ball_to_closest_y ball rectangle =
      Flt.fin ((offset ball.y rectangle.pos.y rectangle.dims.h : Int) : K) := by
  unfold ball_to_closest_y closest_y clamped_dist_y
  rw [clamp_ofInt]
  simp [offset]

theorem sqdist_nonneg (x y : Int) (rectangle : Rectangle) : 0 ≤ sqdist x y rectangle := by
  unfold sqdist
  exact add_nonneg (mul_self_nonneg _) (mul_self_nonneg _)

theorem dist_to_closest_eq (sqrtK : K → K) (ball : Ball K) (rectangle : Rectangle) :
    dist_to_closest sqrtK ball rectangle = Flt.fin (sqrtK ((sqdist ball.x ball.y rectangle : Int) : K)) := by
  unfold dist_to_closest
  rw [ball_to_closest_x_eq, ball_to_closest_y_eq]
  simp only [Flt.fin_mul_fin, Flt.fin_add_fin]
  rw [Flt.sqrt_fin]
  · simp [sqdist]
  · have := sqdist_nonneg ball.x ball.y rectangle
    have h : (0 : K) ≤ ((sqdist ball.x ball.y rectangle : Int) : K) := by exact_mod_cast this
    simpa [sqdist] using h

theorem collided_iff_not_lt (sqrtK : K → K) (ball : Ball K) (rectangle : Rectangle) :
    (check_collision sqrtK ball rectangle).collided = true ↔
      ¬ (dist_to_closest sqrtK ball rectangle > ball.radius) := by
  unfold check_collision
  by_cases h : dist_to_closest sqrtK ball rectangle > ball.radius <;> simp [h]

/-- With an exact square root and a finite radius `r ≥ 0`, the test of
`check_collision` is `sqdist ≤ r²`. -/
theorem collided_iff_sqdist {sqrtK : K → K} (hs : IsSqrt sqrtK) (ball : Ball K)
    (rectangle : Rectangle) (r : K) (hr : ball.radius = Flt.fin r) (h0 : 0 ≤ r) :
    (check_collision sqrtK ball rectangle).collided = true ↔
      ((sqdist ball.x ball.y rectangle : Int) : K) ≤ r * r := by
  rw [collided_iff_not_lt, dist_to_closest_eq, hr]
  have hx : (0 : K) ≤ ((sqdist ball.x ball.y rectangle : Int) : K) := by
    exact_mod_cast sqdist_nonneg ball.x ball.y rectangle
  rw [← hs.le_iff hx h0]
  simp [GT.gt]

theorem offset_even (c p d : Int) (h0 : 0 ≤ d) (he : d % 2 = 0) :
    offset c p d = clamp_spec c p (p + d) - c := by
  unfold offset clamp_spec
  rw [Int.neg_tdiv, Int.tdiv_eq_ediv h0 (by decide)]
  omega

theorem sqdist_even (x y : Int) (rectangle : Rectangle)
    (hw : 0 ≤ rectangle.dims.w) (hh : 0 ≤ rectangle.dims.h)
    (hwe : rectangle.dims.w % 2 = 0) (hhe : rectangle.dims.h % 2 = 0) :
    sqdist x y rectangle = sqdist_spec x y rectangle := by
  unfold sqdist sqdist_spec
  rw [offset_even _ _ _ hw hwe, offset_even _ _ _ hh hhe]
  ring

/-! ## The side -/

theorem dist_to_closest_of_fin (sqrtK : K → K) (ball : Ball K) (rectangle : Rectangle)
    (dx dy : K) (hx : ball_to_closest_x ball rectangle = Flt.fin dx)
    (hy : ball_to_closest_y ball rectangle = Flt.fin dy) :
    dist_to_closest sqrtK ball rectangle = Flt.fin (sqrtK (dx * dx + dy * dy)) := by
  unfold dist_to_closest
  rw [hx, hy]
  simp only [Flt.fin_mul_fin, Flt.fin_add_fin]
  exact Flt.sqrt_fin sqrtK _ (add_nonneg (mul_self_nonneg _) (mul_self_nonneg _))

theorem side_of_collided (sqrtK : K → K) (ball : Ball K) (rectangle : Rectangle)
    (hc : (check_collision sqrtK ball rectangle).collided = true) :
    (check_collision sqrtK ball rectangle).side =
      CollisionSide.ofIdx (find_max_idx (dot_products (ball_to_closest_dir_x sqrtK ball rectangle)
        (ball_to_closest_dir_y sqrtK ball rectangle))) := by
  unfold check_collision at hc ⊢
  by_cases h : dist_to_closest sqrtK ball rectangle > ball.radius
  · simp [h] at hc
  · simp [h]

/-- Dividing both components by a positive number does not change `max_idx`. -/
theorem find_max_idx_div (dx dy s : K) (hs : 0 < s) :
    find_max_idx (dot_products (Flt.fin (dx / s)) (Flt.fin (dy / s))) =
      find_max_idx (dot_products (Flt.fin dx) (Flt.fin dy)) := by
  have hc : ∀ a b : K, a / s < b / s ↔ a < b := fun a b => div_lt_div_iff_of_pos_right hs
  simp only [find_max_idx, dot_products, List.foldl, GT.gt, Flt.neg_fin, Flt.fin_lt_fin,
    ← neg_div, hc]
  split_ifs <;> simp_all [dot_products, ← neg_div] <;> linarith

/-- The directions computed for a non-zero offset, with an exact square root. -/
theorem dirs_of_fin {sqrtK : K → K} (hs : IsSqrt sqrtK) (ball : Ball K) (rectangle : Rectangle)
    (dx dy : K) (hx : ball_to_closest_x ball rectangle = Flt.fin dx)
    (hy : ball_to_closest_y ball rectangle = Flt.fin dy) (hne : dx ≠ 0 ∨ dy ≠ 0) :
    0 < sqrtK (dx * dx + dy * dy) ∧
    ball_to_closest_dir_x sqrtK ball rectangle = Flt.fin (dx / sqrtK (dx * dx + dy * dy)) ∧
    ball_to_closest_dir_y sqrtK ball rectangle = Flt.fin (dy / sqrtK (dx * dx + dy * dy)) := by
  have hpos : 0 < dx * dx + dy * dy := by
    rcases hne with h | h
    · have := mul_self_pos.mpr h
      have := mul_self_nonneg dy
      linarith
    · have := mul_self_pos.mpr h
      have := mul_self_nonneg dx
      linarith
  have hsp := hs.pos hpos
  refine ⟨hsp, ?_, ?_⟩
  · unfold ball_to_closest_dir_x
    rw [dist_to_closest_of_fin sqrtK ball rectangle dx dy hx hy, hx,
      Flt.fin_div_fin _ _ (ne_of_gt hsp)]
  · unfold ball_to_closest_dir_y
    rw [dist_to_closest_of_fin sqrtK ball rectangle dx dy hx hy, hy,
      Flt.fin_div_fin _ _ (ne_of_gt hsp)]

/-- The side of a collision with non-zero offset `(dx, dy)` is decided by the
offset itself. -/
theorem side_of_offset {sqrtK : K → K} (hs : IsSqrt sqrtK) (ball : Ball K)
    (rectangle : Rectangle) (dx dy : K) (hx : ball_to_closest_x ball rectangle = Flt.fin dx)
    (hy : ball_to_closest_y ball rectangle = Flt.fin dy) (hne : dx ≠ 0 ∨ dy ≠ 0)
    (hc : (check_collision sqrtK ball rectangle).collided = true) :
    (check_collision sqrtK ball rectangle).side =
      CollisionSide.ofIdx (find_max_idx (dot_products (Flt.fin dx) (Flt.fin dy))) := by
  obtain ⟨hsp, h1, h2⟩ := dirs_of_fin hs ball rectangle dx dy hx hy hne
  rw [side_of_collided sqrtK ball rectangle hc, h1, h2, find_max_idx_div _ _ _ hsp]

theorem find_max_idx_right (dx : K) (h : 0 < dx) :
    find_max_idx (dot_products (Flt.fin dx) (Flt.fin 0)) = 1 := by
  have h1 : -dx < dx := by linarith
  have h2 : ¬ (dx < 0) := by linarith
  simp [find_max_idx, dot_products, h1, h2]

theorem find_max_idx_left (dx : K) (h : dx < 0) :
    find_max_idx (dot_products (Flt.fin dx) (Flt.fin 0)) = 0 := by
  have h1 : ¬ (-dx < dx) := by linarith
  have h3 : ¬ (-dx < 0) := by linarith
  simp [find_max_idx, dot_products, h1, h3]

theorem find_max_idx_up (dy : K) (h : 0 < dy) :
    find_max_idx (dot_products (Flt.fin 0) (Flt.fin dy)) = 2 := by
  have h1 : ¬ (dy < -dy) := by linarith
  simp [find_max_idx, dot_products, h, h1]

theorem find_max_idx_down (dy : K) (h : dy < 0) :
    find_max_idx (dot_products (Flt.fin 0) (Flt.fin dy)) = 3 := by
  have h1 : ¬ (0 < dy) := by linarith
  have h2 : (0 : K) < -dy := by linarith
  simp [find_max_idx, dot_products, h, h1, h2]

/-- The table of sides for axis-parallel offsets. -/
theorem side_table {sqrtK : K → K} (hs : IsSqrt sqrtK) (ball : Ball K)
    (rectangle : Rectangle) (dx dy : K) (hx : ball_to_closest_x ball rectangle = Flt.fin dx)
    (hy : ball_to_closest_y ball rectangle = Flt.fin dy)
    (hc : (check_collision sqrtK ball rectangle).collided = true) :
    (0 < dx ∧ dy = 0 → (check_collision sqrtK ball rectangle).side = .RIGHT) ∧
    (dx < 0 ∧ dy = 0 → (check_collision sqrtK ball rectangle).side = .LEFT) ∧
    (dx = 0 ∧ 0 < dy → (check_collision sqrtK ball rectangle).side = .UP) ∧
    (dx = 0 ∧ dy < 0 → (check_collision sqrtK ball rectangle).side = .DOWN) := by
  refine ⟨?_, ?_, ?_, ?_⟩
  · rintro ⟨h1, h2⟩
    rw [side_of_offset hs ball rectangle dx dy hx hy (Or.inl (ne_of_gt h1)) hc, h2,
      find_max_idx_right dx h1]
    rfl
  · rintro ⟨h1, h2⟩
    rw [side_of_offset hs ball rectangle dx dy hx hy (Or.inl (ne_of_lt h1)) hc, h2,
      find_max_idx_left dx h1]
    rfl
  · rintro ⟨h1, h2⟩
    rw [side_of_offset hs ball rectangle dx dy hx hy (Or.inr (ne_of_gt h2)) hc, h1,
      find_max_idx_up dy h2]
    rfl
  · rintro ⟨h1, h2⟩
    rw [side_of_offset hs ball rectangle dx dy hx hy (Or.inr (ne_of_lt h2)) hc, h1,
      find_max_idx_down dy h2]
    rfl

/-! ## State updates -/

@[simp] theorem Game.store_ball (g : Game K) (i : Nat) (r : Rectangle) :
    (g.store i r).ball = g.ball := by
  unfold Game.store
  split <;> rfl

@[simp] theorem Game.store_rng (g : Game K) (i : Nat) (r : Rectangle) :
    (g.store i r).rng = g.rng := by
  unfold Game.store
  split <;> rfl

theorem Game.store_rectangles (g : Game K) (i : Nat) (r : Rectangle) (j : Nat) :
    (g.store i r).rectangles j = if i < RECT_SLOTS ∧ j = i then r else g.rectangles j := by
  unfold Game.store
  by_cases h : i < RECT_SLOTS
  · by_cases hj : j = i
    · subst hj
      simp [h]
    · simp [h, hj, Function.update_noteq hj]
  · simp [h]

@[simp] theorem Game.rand_ball (g : Game K) : g.rand.2.ball = g.ball := rfl

@[simp] theorem Game.rand_rectangles (g : Game K) : g.rand.2.rectangles = g.rectangles := rfl

@[simp] theorem Game.setVx_vx (g : Game K) (v : Flt K) : (g.setVx v).ball.vx = v := rfl

@[simp] theorem Game.setVx_vy (g : Game K) (v : Flt K) : (g.setVx v).ball.vy = g.ball.vy := rfl

@[simp] theorem Game.setVy_vx (g : Game K) (v : Flt K) : (g.setVy v).ball.vx = g.ball.vx := rfl

@[simp] theorem Game.setVy_vy (g : Game K) (v : Flt K) : (g.setVy v).ball.vy = v := rfl

@[simp] theorem Game.setVx_rectangles (g : Game K) (v : Flt K) :
    (g.setVx v).rectangles = g.rectangles := rfl

@[simp] theorem Game.setVy_rectangles (g : Game K) (v : Flt K) :
    (g.setVy v).rectangles = g.rectangles := rfl

@[simp] theorem Game.setVx_x (g : Game K) (v : Flt K) : (g.setVx v).ball.x = g.ball.x := rfl

@[simp] theorem Game.setVy_x (g : Game K) (v : Flt K) : (g.setVy v).ball.x = g.ball.x := rfl

@[simp] theorem Game.setVx_y (g : Game K) (v : Flt K) : (g.setVx v).ball.y = g.ball.y := rfl

@[simp] theorem Game.setVy_y (g : Game K) (v : Flt K) : (g.setVy v).ball.y = g.ball.y := rfl

@[simp] theorem Game.setVx_radius (g : Game K) (v : Flt K) :
    (g.setVx v).ball.radius = g.ball.radius := rfl

@[simp] theorem Game.setVy_radius (g : Game K) (v : Flt K) :
    (g.setVy v).ball.radius = g.ball.radius := rfl

@[simp] theorem Game.setVx_slider (g : Game K) (v : Flt K) :
    (g.setVx v).slider_rectangle = g.slider_rectangle := rfl

@[simp] theorem Game.setVy_slider (g : Game K) (v : Flt K) :
    (g.setVy v).slider_rectangle = g.slider_rectangle := rfl

@[simp] theorem recolor_ball (g : Game K) (i : Nat) : (recolor g i).ball = g.ball := by
  simp [recolor]

theorem recolor_rectangles (g : Game K) (i j : Nat) :
    (recolor g i).rectangles j =
      if i < RECT_SLOTS ∧ j = i then
        { g.rectangles i with color := ⟨g.rng 0 % 255, g.rng 1 % 255, g.rng 2 % 255, 255⟩ }
      else g.rectangles j := by
  simp [recolor, Game.store_rectangles, Game.rand]

theorem recolor_active (g : Game K) (i j : Nat) :
    ((recolor g i).rectangles j).active = (g.rectangles j).active := by
  rw [recolor_rectangles]
  split
  · next h => rw [h.2]
  · rfl

@[simp] theorem normalize_velocity_rectangles (sqrtK : K → K) (g : Game K) :
    (normalize_velocity sqrtK g).rectangles = g.rectangles := rfl

@[simp] theorem reflect_rectangles (g : Game K) (side : CollisionSide) :
    (reflect g side).rectangles = g.rectangles := by
  unfold reflect
  split <;> rfl

@[simp] theorem slider_up_rectangles (g : Game K) : (slider_up g).rectangles = g.rectangles := by
  unfold slider_up
  split <;> rfl

/-! ## The velocity -/

theorem Flt.neg_mul_neg (v : Flt K) : (-v) * (-v) = v * v := by
  cases v with
  | nan => rfl
  | ninf => rfl
  | fin a => simp
  | pinf => rfl

theorem sqrt_sq_sum_pos {sqrtK : K → K} (hs : IsSqrt sqrtK) (a b : K) (hne : a ≠ 0 ∨ b ≠ 0) :
    0 < sqrtK (a * a + b * b) := by
  apply hs.pos
  rcases hne with h | h
  · have := mul_self_pos.mpr h
    have := mul_self_nonneg b
    linarith
  · have := mul_self_pos.mpr h
    have := mul_self_nonneg a
    linarith

/-- The velocity after `normalize_velocity`, for a finite non-zero velocity. -/
theorem normalize_velocity_fin {sqrtK : K → K} (hs : IsSqrt sqrtK) (g : Game K) (a b : K)
    (hvx : g.ball.vx = Flt.fin a) (hvy : g.ball.vy = Flt.fin b) (hne : a ≠ 0 ∨ b ≠ 0) :
    (normalize_velocity sqrtK g).ball.vx = Flt.fin (a / sqrtK (a * a + b * b)) ∧
    (normalize_velocity sqrtK g).ball.vy = Flt.fin (b / sqrtK (a * a + b * b)) := by
  have hpos := sqrt_sq_sum_pos hs a b hne
  have hn : Flt.sqrt sqrtK (g.ball.vx * g.ball.vx + g.ball.vy * g.ball.vy) =
      Flt.fin (sqrtK (a * a + b * b)) := by
    rw [hvx, hvy]
    simp only [Flt.fin_mul_fin, Flt.fin_add_fin]
    exact Flt.sqrt_fin sqrtK _ (add_nonneg (mul_self_nonneg _) (mul_self_nonneg _))
  constructor
  · show g.ball.vx / Flt.sqrt sqrtK (g.ball.vx * g.ball.vx + g.ball.vy * g.ball.vy) = _
    rw [hn, hvx, Flt.fin_div_fin _ _ (ne_of_gt hpos)]
  · show g.ball.vy / Flt.sqrt sqrtK (g.ball.vx * g.ball.vx + g.ball.vy * g.ball.vy) = _
    rw [hn, hvy, Flt.fin_div_fin _ _ (ne_of_gt hpos)]

/-- After `normalize_velocity` the velocity has norm 1. -/
theorem normalize_velocity_unit {sqrtK : K → K} (hs : IsSqrt sqrtK) (g : Game K) (a b : K)
    (hvx : g.ball.vx = Flt.fin a) (hvy : g.ball.vy = Flt.fin b) (hne : a ≠ 0 ∨ b ≠ 0) :
    sqnorm (normalize_velocity sqrtK g) = Flt.fin 1 := by
  obtain ⟨h1, h2⟩ := normalize_velocity_fin hs g a b hvx hvy hne
  have hpos := sqrt_sq_sum_pos hs a b hne
  have hsq : sqrtK (a * a + b * b) * sqrtK (a * a + b * b) = a * a + b * b :=
    (hs _ (add_nonneg (mul_self_nonneg _) (mul_self_nonneg _))).2
  unfold sqnorm
  rw [h1, h2]
  simp only [Flt.fin_mul_fin, Flt.fin_add_fin]
  congr 1
  have hne' : sqrtK (a * a + b * b) ≠ 0 := ne_of_gt hpos
  field_simp
  rw [hsq]

/-- The wall checks do not change the norm of the velocity. -/
theorem walls_sqnorm (g : Game K) : sqnorm (walls g) = sqnorm g := by
  unfold walls sqnorm
  simp only [Flt.ofInt_eq, Int.cast_neg, Int.cast_one, Flt.mul_neg_one]
  split_ifs <;> simp [Flt.neg_mul_neg]

/-! ## The scan -/

theorem scan_skip (sqrtK : K → K) (g : Game K) (n i : Nat) (h : ¬ Hits sqrtK g i) :
    scan sqrtK g (n + 1) i = scan sqrtK g n (i + 1) := by
  unfold Hits at h
  rw [scan]
  by_cases ha : (g.rectangles i).active = false
  · simp [ha]
  · have ha' : (g.rectangles i).active = true := by simpa using ha
    have hc : (check_collision sqrtK g.ball (g.rectangles i)).collided = false := by
      simpa [ha'] using h
    simp [ha', hc]

theorem scan_hit (sqrtK : K → K) (g : Game K) (n i : Nat) (h : Hits sqrtK g i) :
    scan sqrtK g (n + 1) i =
      resolve sqrtK g i (check_collision sqrtK g.ball (g.rectangles i)) := by
  rw [scan]
  simp [h.1, h.2]

theorem scan_first (sqrtK : K → K) (g : Game K) :
    ∀ (k n i : Nat), (∀ j, i ≤ j → j < i + k → ¬ Hits sqrtK g j) → Hits sqrtK g (i + k) →
      k < n →
      scan sqrtK g n i =
        resolve sqrtK g (i + k) (check_collision sqrtK g.ball (g.rectangles (i + k))) := by
  intro k
  induction k with
  | zero =>
    intro n i _ hh hn
    obtain ⟨m, rfl⟩ : ∃ m, n = m + 1 := ⟨n - 1, by omega⟩
    exact scan_hit sqrtK g m i hh
  | succ k ih =>
    intro n i hno hh hn
    obtain ⟨m, rfl⟩ : ∃ m, n = m + 1 := ⟨n - 1, by omega⟩
    rw [scan_skip sqrtK g m i (hno i le_rfl (by omega))]
    have e : i + (k + 1) = (i + 1) + k := by omega
    rw [e] at hh ⊢
    exact ih m (i + 1) (fun j h1 h2 => hno j (by omega) (by omega)) hh (by omega)

theorem scan_none (sqrtK : K → K) (g : Game K) :
    ∀ (n i : Nat), (∀ j, i ≤ j → j < i + n → ¬ Hits sqrtK g j) → scan sqrtK g n i = .ok g := by
  intro n
  induction n with
  | zero => intro i _; rfl
  | succ n ih =>
    intro i hno
    rw [scan_skip sqrtK g n i (hno i le_rfl (by omega))]
    exact ih (i + 1) (fun j h1 h2 => hno j (by omega) (by omega))

theorem scan_of_firstHit (sqrtK : K → K) (g : Game K) (i : Nat) (h : FirstHit sqrtK g i) :
    scan sqrtK g RECT_SLOTS 0 =
      resolve sqrtK g i (check_collision sqrtK g.ball (g.rectangles i)) := by
  have := scan_first sqrtK g i RECT_SLOTS 0 (fun j _ h2 => h.2.2 j (by omega))
    (by simpa using h.2.1) h.1
  simpa using this

/-! ## The resolution -/

theorem resolve_brick (sqrtK : K → K) (g : Game K) (i : Nat) (info : CollisionInfo K)
    (hi : i ≠ RECT_COUNT_X * RECT_COUNT_Y) :
    resolve sqrtK g i info =
      .ok (recolor (normalize_velocity sqrtK
        ((reflect g info.side).store i
          { (reflect g info.side).rectangles i with active := false })) i) := by
  simp [resolve, hi]

theorem resolve_slider_down (sqrtK : K → K) (g : Game K) (info : CollisionInfo K)
    (hd : info.side = .DOWN) :
    resolve sqrtK g (RECT_COUNT_X * RECT_COUNT_Y) info = .error "????!" := by
  simp [resolve, hd]

theorem resolve_slider (sqrtK : K → K) (g : Game K) (info : CollisionInfo K)
    (hd : info.side ≠ .DOWN) :
    resolve sqrtK g (RECT_COUNT_X * RECT_COUNT_Y) info =
      .ok (recolor (normalize_velocity sqrtK
        (if info.side = .UP then slider_up (reflect g info.side) else reflect g info.side))
        (RECT_COUNT_X * RECT_COUNT_Y)) := by
  simp [resolve, hd]

/-- The velocity after `reflect`. -/
theorem reflect_velocity (g : Game K) (side : CollisionSide) (a b : K)
    (hvx : g.ball.vx = Flt.fin a) (hvy : g.ball.vy = Flt.fin b) :
    ((side = .UP ∨ side = .DOWN) →
      (reflect g side).ball.vx = Flt.fin a ∧ (reflect g side).ball.vy = Flt.fin (-b)) ∧
    (¬ (side = .UP ∨ side = .DOWN) →
      (reflect g side).ball.vx = Flt.fin (-a) ∧ (reflect g side).ball.vy = Flt.fin b) := by
  unfold reflect
  constructor
  · intro h
    simp [h, hvx, hvy]
  · intro h
    simp [h, hvx, hvy]

theorem ball_to_center_x_eq (g : Game K) :
    ball_to_center_x g = Flt.fin
      ((g.slider_rectangle.pos.x + g.slider_rectangle.dims.w.tdiv 2 - g.ball.x : Int) : K) := rfl

theorem dist_from_center_normalized_eq (g : Game K) (hw : g.slider_rectangle.dims.w ≠ 0) :
    dist_from_center_normalized g =
      Flt.fin (|((clamped_center_offset g : Int) : K)| / (g.slider_rectangle.dims.w : K) / 2) := by
  unfold dist_from_center_normalized
  rw [ball_to_center_x_eq]
  have hc := clamp_ofInt (K := K)
    (g.slider_rectangle.pos.x + g.slider_rectangle.dims.w.tdiv 2 - g.ball.x)
    ((-g.slider_rectangle.dims.w).tdiv 2) (g.slider_rectangle.dims.w.tdiv 2)
  simp only [Flt.ofInt_eq] at hc ⊢
  rw [hc]
  have hwK : ((g.slider_rectangle.dims.w : Int) : K) ≠ 0 := by exact_mod_cast hw
  rw [Flt.abs_fin, Flt.fin_div_fin _ _ hwK, Flt.fin_div_fin _ _ (by norm_num)]
  simp [clamped_center_offset]

/-- The velocity after `slider_up`: `vy` is kept, `vx` stays finite, and a
non-zero `vx` stays non-zero. -/
theorem slider_up_velocity (g : Game K) (a b : K) (hvx : g.ball.vx = Flt.fin a)
    (hvy : g.ball.vy = Flt.fin b) (hw : 0 < g.slider_rectangle.dims.w) :
    ∃ a' : K, (slider_up g).ball.vx = Flt.fin a' ∧ (slider_up g).ball.vy = Flt.fin b ∧
      (a ≠ 0 → a' ≠ 0) := by
  have hd := dist_from_center_normalized_eq g (ne_of_gt hw)
  have hwK : (0 : K) < ((g.slider_rectangle.dims.w : Int) : K) := by exact_mod_cast hw
  have hd0 : (0 : K) ≤ |((clamped_center_offset g : Int) : K)| /
      (g.slider_rectangle.dims.w : K) / 2 := by positivity
  unfold slider_up
  split
  · refine ⟨a * -1, ?_, ?_, ?_⟩
    · simp [hvx]
    · simp [hvy]
    · intro h
      simpa using h
  · by_cases ha : 0 < a
    · refine ⟨a + |((clamped_center_offset g : Int) : K)| /
        (g.slider_rectangle.dims.w : K) / 2, ?_, ?_, ?_⟩
      · simp [hvx, hd, ha]
      · simp [hvy]
      · intro _
        exact ne_of_gt (by linarith)
    · refine ⟨a + -(|((clamped_center_offset g : Int) : K)| /
        (g.slider_rectangle.dims.w : K) / 2), ?_, ?_, ?_⟩
      · simp [hvx, hd, ha]
      · simp [hvy]
      · intro h
        have : a < 0 := lt_of_le_of_ne (not_lt.mp ha) h
        exact ne_of_lt (by linarith)

/-- Every resolution that does not throw leaves a velocity of norm 1. -/
theorem resolve_unit {sqrtK : K → K} (hs : IsSqrt sqrtK) (g : Game K) (i : Nat)
    (info : CollisionInfo K) (a b : K) (hvx : g.ball.vx = Flt.fin a)
    (hvy : g.ball.vy = Flt.fin b) (hne : a ≠ 0 ∨ b ≠ 0)
    (hw : 0 < g.slider_rectangle.dims.w) (g1 : Game K)
    (hr : resolve sqrtK g i info = .ok g1) : sqnorm g1 = Flt.fin 1 := by
  obtain ⟨hr1, hr2⟩ := reflect_velocity g info.side a b hvx hvy
  -- the velocity after `reflect` is finite and non-zero
  have hrefl : ∃ a1 b1 : K, (reflect g info.side).ball.vx = Flt.fin a1 ∧
      (reflect g info.side).ball.vy = Flt.fin b1 ∧ (a1 ≠ 0 ∨ b1 ≠ 0) := by
    by_cases h : info.side = .UP ∨ info.side = .DOWN
    · exact ⟨a, -b, (hr1 h).1, (hr1 h).2, by simpa using hne⟩
    · exact ⟨-a, b, (hr2 h).1, (hr2 h).2, by simpa using hne⟩
  obtain ⟨a1, b1, h1, h2, hne1⟩ := hrefl
  by_cases hi : i ≠ RECT_COUNT_X * RECT_COUNT_Y
  · rw [resolve_brick sqrtK g i info hi] at hr
    injection hr with hr
    subst hr
    unfold sqnorm
    rw [recolor_ball]
    exact normalize_velocity_unit hs _ a1 b1 (by simpa using h1) (by simpa using h2) hne1
  · have hi' : i = RECT_COUNT_X * RECT_COUNT_Y := not_not.mp hi
    subst hi'
    by_cases hd : info.side = .DOWN
    · rw [resolve_slider_down sqrtK g info hd] at hr
      cases hr
    · rw [resolve_slider sqrtK g info hd] at hr
      injection hr with hr
      subst hr
      unfold sqnorm
      rw [recolor_ball]
      by_cases hu : info.side = .UP
      · have hw' : 0 < (reflect g info.side).slider_rectangle.dims.w := by
          unfold reflect
          split <;> simpa using hw
        obtain ⟨a2, e1, e2, e3⟩ := slider_up_velocity (reflect g info.side) a1 b1 h1 h2 hw'
        simp only [hu, if_true]
        rw [hu] at e1 e2
        refine normalize_velocity_unit hs _ a2 b1 e1 e2 ?_
        rcases hne1 with h | h
        · exact Or.inl (e3 h)
        · exact Or.inr h
      · simp only [hu, if_false]
        exact normalize_velocity_unit hs _ a1 b1 h1 h2 hne1

/-! ## Concrete states -/

theorem cleared_board_slider :
    cleared_board (RECT_COUNT_X * RECT_COUNT_Y) = rect_at 270 460 100 20 := by
  simp [cleared_board]

theorem cleared_board_inactive (j : Nat) (h : j ≠ RECT_COUNT_X * RECT_COUNT_Y) :
    (cleared_board j).active = false := by
  simp [cleared_board, h]

theorem one_brick_board_zero : one_brick_board 0 = rect_at 10 10 80 20 := by
  simp [one_brick_board]

/-- A ball of radius 10 collides with a rectangle when the integer squared
distance is at most 100. -/
theorem collided_ball_at (x y : Int) (vx vy : ℝ) (rectangle : Rectangle)
    (h : sqdist x y rectangle ≤ 100) :
    (check_collision Real.sqrt (ball_at ℝ x y vx vy) rectangle).collided = true := by
  rw [collided_iff_sqdist isSqrt_real _ _ 10 rfl (by norm_num)]
  have : ((sqdist x y rectangle : Int) : ℝ) ≤ ((100 : Int) : ℝ) := by exact_mod_cast h
  simpa [ball_at] using this.trans (by norm_num)

theorem not_collided_ball_at (x y : Int) (vx vy : ℝ) (rectangle : Rectangle)
    (h : 100 < sqdist x y rectangle) :
    ¬ (check_collision Real.sqrt (ball_at ℝ x y vx vy) rectangle).collided = true := by
  rw [collided_iff_sqdist isSqrt_real _ _ 10 rfl (by norm_num)]
  have : ((100 : Int) : ℝ) < ((sqdist x y rectangle : Int) : ℝ) := by exact_mod_cast h
  have h2 : (10 : ℝ) * 10 = ((100 : Int) : ℝ) := by norm_num
  simp only [ball_at]
  rw [h2]
  exact not_le.mpr this

theorem firstHit_cleared_board (x y : Int) (vx vy : ℝ)
    (h : sqdist x y (rect_at 270 460 100 20) ≤ 100) :
    FirstHit Real.sqrt (game_of ℝ (ball_at ℝ x y vx vy) cleared_board)
      (RECT_COUNT_X * RECT_COUNT_Y) := by
  refine ⟨by decide, ⟨?_, ?_⟩, ?_⟩
  · show (cleared_board (RECT_COUNT_X * RECT_COUNT_Y)).active = true
    rw [cleared_board_slider]
    rfl
  · show (check_collision Real.sqrt (ball_at ℝ x y vx vy)
      (cleared_board (RECT_COUNT_X * RECT_COUNT_Y))).collided = true
    rw [cleared_board_slider]
    exact collided_ball_at x y vx vy _ h
  · intro j hj hh
    have := cleared_board_inactive j (ne_of_lt hj)
    have h1 : (cleared_board j).active = true := hh.1
    rw [this] at h1
    cases h1

theorem firstHit_one_brick_board (x y : Int) (vx vy : ℝ)
    (h : sqdist x y (rect_at 10 10 80 20) ≤ 100) :
    FirstHit Real.sqrt (game_of ℝ (ball_at ℝ x y vx vy) one_brick_board) 0 := by
  refine ⟨by decide, ⟨?_, ?_⟩, ?_⟩
  · show (one_brick_board 0).active = true
    rw [one_brick_board_zero]
    rfl
  · show (check_collision Real.sqrt (ball_at ℝ x y vx vy) (one_brick_board 0)).collided = true
    rw [one_brick_board_zero]
    exact collided_ball_at x y vx vy _ h
  · intro j hj
    omega

theorem ball_to_closest_ball_at (x y : Int) (vx vy : ℝ) (rectangle : Rectangle) :
    ball_to_closest_x (ball_at ℝ x y vx vy) rectangle =
        Flt.fin ((offset x rectangle.pos.x rectangle.dims.w : Int) : ℝ) ∧
      ball_to_closest_y (ball_at ℝ x y vx vy) rectangle =
        Flt.fin ((offset y rectangle.pos.y rectangle.dims.h : Int) : ℝ) :=
  ⟨ball_to_closest_x_eq _ _, ball_to_closest_y_eq _ _⟩

/-! ## Active flags -/

theorem walls_rectangles (g : Game K) : (walls g).rectangles = g.rectangles := by
  unfold walls
  simp only []
  split_ifs <;> rfl

theorem resolve_inactive (sqrtK : K → K) (g g1 : Game K) (i : Nat) (info : CollisionInfo K)
    (hr : resolve sqrtK g i info = .ok g1) (j : Nat)
    (hj : (g.rectangles j).active = false) : (g1.rectangles j).active = false := by
  by_cases hi : i ≠ RECT_COUNT_X * RECT_COUNT_Y
  · rw [resolve_brick sqrtK g i info hi] at hr
    injection hr with hr
    subst hr
    rw [recolor_active, normalize_velocity_rectangles, Game.store_rectangles]
    split
    · rfl
    · simpa using hj
  · have hi' : i = RECT_COUNT_X * RECT_COUNT_Y := not_not.mp hi
    subst hi'
    by_cases hd : info.side = .DOWN
    · rw [resolve_slider_down sqrtK g info hd] at hr
      cases hr
    · rw [resolve_slider sqrtK g info hd] at hr
      injection hr with hr
      subst hr
      rw [recolor_active, normalize_velocity_rectangles]
      split <;> simpa using hj

theorem scan_inactive (sqrtK : K → K) (g g1 : Game K) :
    ∀ (n i : Nat), scan sqrtK g n i = .ok g1 → ∀ j, (g.rectangles j).active = false →
      (g1.rectangles j).active = false := by
  intro n
  induction n with
  | zero =>
    intro i h j hj
    injection h with h
    subst h
    exact hj
  | succ n ih =>
    intro i h j hj
    by_cases hh : Hits sqrtK g i
    · rw [scan_hit sqrtK g n i hh] at h
      exact resolve_inactive sqrtK g g1 i _ h j hj
    · rw [scan_skip sqrtK g n i hh] at h
      exact ih (i + 1) h j hj

theorem check_collisions_ok (sqrtK : K → K) (g g' : Game K)
    (h : check_collisions sqrtK g = .ok g') :
    ∃ g1, scan sqrtK g RECT_SLOTS 0 = .ok g1 ∧ g' = walls g1 := by
  unfold check_collisions at h
  cases hs : scan sqrtK g RECT_SLOTS 0 with
  | error e =>
    rw [hs] at h
    cases h
  | ok g1 =>
    rw [hs] at h
    injection h with h
    exact ⟨g1, rfl, h.symm⟩

theorem check_collisions_inactive (sqrtK : K → K) (g g' : Game K)
    (h : check_collisions sqrtK g = .ok g') (j : Nat)
    (hj : (g.rectangles j).active = false) : (g'.rectangles j).active = false := by
  obtain ⟨g1, h1, rfl⟩ := check_collisions_ok sqrtK g g' h
  rw [walls_rectangles]
  exact scan_inactive sqrtK g g1 RECT_SLOTS 0 h1 j hj

theorem check_collisions_brick_inactive (sqrtK : K → K) (g : Game K) (i : Nat)
    (hi : FirstHit sqrtK g i) (hb : i ≠ RECT_COUNT_X * RECT_COUNT_Y) :
    ∃ g', check_collisions sqrtK g = .ok g' ∧ (g'.rectangles i).active = false := by
  have hscan := scan_of_firstHit sqrtK g i hi
  rw [resolve_brick sqrtK g i _ hb] at hscan
  refine ⟨_, by unfold check_collisions; rw [hscan]; rfl, ?_⟩
  rw [walls_rectangles, recolor_active, normalize_velocity_rectangles, Game.store_rectangles]
  simp [hi.1]

/-! ## Independence of the geometry of inactive rectangles -/

theorem Game.setGeometry_rectangles_ne (g : Game K) (j : Nat) (d : Dims) (p : Pos) (i : Nat)
    (h : i ≠ j) : (g.setGeometry j d p).rectangles i = g.rectangles i := by
  simp [Game.setGeometry, Function.update_noteq h]

theorem Game.setGeometry_active (g : Game K) (j : Nat) (d : Dims) (p : Pos) (i : Nat) :
    ((g.setGeometry j d p).rectangles i).active = (g.rectangles i).active := by
  by_cases h : i = j
  · subst h
    simp [Game.setGeometry]
  · rw [Game.setGeometry_rectangles_ne g j d p i h]

theorem Game.store_setGeometry (g : Game K) (j : Nat) (d : Dims) (p : Pos) (i : Nat)
    (r : Rectangle) (h : i ≠ j) :
    (g.setGeometry j d p).store i r = (g.store i r).setGeometry j d p := by
  unfold Game.store
  split
  · simp [Game.setGeometry, Function.update_comm h, Function.update_noteq (Ne.symm h)]
  · rfl

theorem reflect_setGeometry (g : Game K) (j : Nat) (d : Dims) (p : Pos) (side : CollisionSide) :
    reflect (g.setGeometry j d p) side = (reflect g side).setGeometry j d p := by
  unfold reflect
  split <;> rfl

theorem normalize_velocity_setGeometry (sqrtK : K → K) (g : Game K) (j : Nat) (d : Dims)
    (p : Pos) :
    normalize_velocity sqrtK (g.setGeometry j d p) =
      (normalize_velocity sqrtK g).setGeometry j d p := rfl

theorem recolor_setGeometry (g : Game K) (j : Nat) (d : Dims) (p : Pos) (i : Nat) (h : i ≠ j) :
    recolor (g.setGeometry j d p) i = (recolor g i).setGeometry j d p := by
  unfold recolor
  simp only [Game.rand]
  have e : ∀ g0 : Game K, ({ g0.setGeometry j d p with rng := fun n => g0.rng (n + 1) } : Game K) =
      ({ g0 with rng := fun n => g0.rng (n + 1) } : Game K).setGeometry j d p := fun _ => rfl
  show Game.store _ i _ = _
  rw [← Game.store_setGeometry _ j d p i _ h]
  congr 1
  simp [Game.setGeometry, Function.update_noteq h]

theorem slider_up_setGeometry (g : Game K) (j : Nat) (d : Dims) (p : Pos)
    (h : RECT_COUNT_X * RECT_COUNT_Y ≠ j) :
    slider_up (g.setGeometry j d p) = (slider_up g).setGeometry j d p := by
  have hs : (g.setGeometry j d p).slider_rectangle = g.slider_rectangle :=
    Game.setGeometry_rectangles_ne g j d p _ h
  have h1 : ball_to_center_x (g.setGeometry j d p) = ball_to_center_x g := by
    unfold ball_to_center_x
    rw [hs]
    rfl
  have h2 : dist_from_center_normalized (g.setGeometry j d p) =
      dist_from_center_normalized g := by
    unfold dist_from_center_normalized
    rw [hs, h1]
  unfold slider_up
  rw [h1, h2]
  have hb : (g.setGeometry j d p).ball = g.ball := rfl
  rw [hb]
  split <;> rfl

theorem walls_setGeometry (g : Game K) (j : Nat) (d : Dims) (p : Pos) :
    walls (g.setGeometry j d p) = (walls g).setGeometry j d p := by
  cases g with
  | mk b r n st =>
    simp only [walls, Game.setGeometry, Game.setVx, Game.setVy]
    split_ifs <;> rfl

theorem resolve_setGeometry (sqrtK : K → K) (g : Game K) (j : Nat) (d : Dims) (p : Pos)
    (i : Nat) (info : CollisionInfo K) (h : i ≠ j) :
    resolve sqrtK (g.setGeometry j d p) i info =
      (resolve sqrtK g i info).map fun g1 => g1.setGeometry j d p := by
  by_cases hi : i ≠ RECT_COUNT_X * RECT_COUNT_Y
  · rw [resolve_brick sqrtK _ i info hi, resolve_brick sqrtK _ i info hi]
    show _ = Except.ok _
    rw [reflect_setGeometry, Game.setGeometry_rectangles_ne _ j d p i h,
      Game.store_setGeometry _ j d p i _ h, normalize_velocity_setGeometry,
      recolor_setGeometry _ j d p i h]
  · have hi' : i = RECT_COUNT_X * RECT_COUNT_Y := not_not.mp hi
    subst hi'
    by_cases hd : info.side = .DOWN
    · rw [resolve_slider_down sqrtK _ info hd, resolve_slider_down sqrtK _ info hd]
      rfl
    · rw [resolve_slider sqrtK _ info hd, resolve_slider sqrtK _ info hd]
      show _ = Except.ok _
      rw [reflect_setGeometry]
      split
      · rw [slider_up_setGeometry _ j d p h, normalize_velocity_setGeometry,
          recolor_setGeometry _ j d p _ h]
      · rw [normalize_velocity_setGeometry, recolor_setGeometry _ j d p _ h]

theorem scan_setGeometry (sqrtK : K → K) (g : Game K) (j : Nat) (d : Dims) (p : Pos)
    (hj : (g.rectangles j).active = false) :
    ∀ (n i : Nat), scan sqrtK (g.setGeometry j d p) n i =
      (scan sqrtK g n i).map fun g1 => g1.setGeometry j d p := by
  intro n
  induction n with
  | zero => intro i; rfl
  | succ n ih =>
    intro i
    by_cases hij : i = j
    · subst hij
      have h1 : ¬ Hits sqrtK g i := fun h => by
        have := h.1
        rw [hj] at this
        cases this
      have h2 : ¬ Hits sqrtK (g.setGeometry i d p) i := fun h => by
        have := h.1
        rw [Game.setGeometry_active, hj] at this
        cases this
      rw [scan_skip sqrtK _ n i h1, scan_skip sqrtK _ n i h2]
      exact ih (i + 1)
    · have hr : (g.setGeometry j d p).rectangles i = g.rectangles i :=
        Game.setGeometry_rectangles_ne g j d p i hij
      by_cases hh : Hits sqrtK g i
      · have hh' : Hits sqrtK (g.setGeometry j d p) i := by
          unfold Hits
          rw [hr]
          exact hh
        rw [scan_hit sqrtK _ n i hh, scan_hit sqrtK _ n i hh', hr]
        exact resolve_setGeometry sqrtK g j d p i _ hij
      · have hh' : ¬ Hits sqrtK (g.setGeometry j d p) i := by
          unfold Hits
          rw [hr]
          exact hh
        rw [scan_skip sqrtK _ n i hh, scan_skip sqrtK _ n i hh']
        exact ih (i + 1)

/-- The geometry of an inactive rectangle has no influence on
`check_collisions`: the call on the changed state is the call on the original
state, with the same change made to its result. -/
theorem check_collisions_setGeometry (sqrtK : K → K) (g : Game K) (j : Nat) (d : Dims)
    (p : Pos) (hj : (g.rectangles j).active = false) :
    check_collisions sqrtK (g.setGeometry j d p) =
      (check_collisions sqrtK g).map fun g1 => g1.setGeometry j d p := by
  unfold check_collisions
  rw [scan_setGeometry sqrtK g j d p hj]
  cases scan sqrtK g RECT_SLOTS 0 with
  | error e => rfl
  | ok g1 =>
    show Except.ok (walls (g1.setGeometry j d p)) = Except.ok ((walls g1).setGeometry j d p)
    rw [walls_setGeometry]

/-! ## The render pass -/

theorem mem_draw_bricks (g : Game K) (c : DrawCall K) :
    c ∈ draw_bricks g ↔
      ∃ i, i < RECT_COUNT_X * RECT_COUNT_Y ∧ (g.rectangles i).active = true ∧
        c = DrawCall.rect (g.rectangles i) := by
  unfold draw_bricks
  simp only [List.mem_map, List.mem_filter, List.mem_range]
  constructor
  · rintro ⟨i, ⟨h1, h2⟩, rfl⟩
    exact ⟨i, h1, h2, rfl⟩
  · rintro ⟨i, h1, h2, rfl⟩
    exact ⟨i, ⟨h1, h2⟩, rfl⟩

/-! ## The board after `fill_primitives` -/

theorem Flt.trunc_intCast [FloorRing K] (n : Int) : Flt.trunc (n : K) = n := by
  unfold Flt.trunc
  split_ifs <;> simp

theorem Flt.toInt_fin [FloorRing K] (v : K) :
    Flt.toInt (Flt.fin v) =
      if -2147483648 ≤ Flt.trunc v ∧ Flt.trunc v ≤ 2147483647 then Flt.trunc v
      else -2147483648 := rfl

theorem Flt.toInt_intCast [FloorRing K] (n : Int) (h0 : -2147483648 ≤ n)
    (h1 : n ≤ 2147483647) : Flt.toInt (Flt.fin (n : K)) = n := by
  rw [Flt.toInt_fin, Flt.trunc_intCast, if_pos ⟨h0, h1⟩]

@[simp] theorem Game.store_stray (g : Game K) (i : Nat) (r : Rectangle) :
    (g.store i r).stray = g.stray := by
  unfold Game.store
  split_ifs <;> rfl

@[simp] theorem Game.assign_stray (g : Game K) (i : Nat) (r : Rectangle) :
    (g.assign i r).stray = g.stray := by
  unfold Game.assign
  split_ifs
  · exact Game.store_stray g i r
  · rfl

theorem Game.assign_rectangles (g : Game K) (i : Nat) (r : Rectangle) (j : Nat) :
    (g.assign i r).rectangles j = if i < RECT_SLOTS ∧ j = i then r else g.rectangles j := by
  unfold Game.assign
  by_cases h : i < RECT_SLOTS
  · rw [if_pos h, Game.store_rectangles]
  · rw [if_neg h]
    simp [h]

/-- A property of the ball that the stray stores keep is kept by an
assignment. -/
theorem Game.assign_ball_inv (P : Ball K → Prop) (g : Game K) (i : Nat) (r : Rectangle)
    (hP : P g.ball → P (g.stray i r g.ball)) (h : P g.ball) : P (g.assign i r).ball := by
  unfold Game.assign
  split_ifs
  · rw [Game.store_ball]
    exact h
  · exact hP h

theorem fill_cell_stray (x : Nat) (g : Game K) (y : Nat) : (fill_cell x g y).stray = g.stray := by
  simp [fill_cell, Game.rand]

/-- A property of the ball that the stray stores of bricks keep is kept by the
body of the inner loop of `fill_primitives`. -/
theorem fill_cell_ball_inv (P : Ball K → Prop) (x : Nat) (g : Game K) (y : Nat)
    (hy : y < RECT_COUNT_Y)
    (hP : ∀ i r b, r.color.a = 255 → r.pos.y ≤ (SCREEN_HEIGHT : Int) → P b →
      P (g.stray i r b))
    (h : P g.ball) : P (fill_cell x g y).ball := by
  unfold fill_cell
  simp only [Game.rand]
  apply Game.assign_ball_inv P
  · intro hb
    refine hP _ _ _ rfl ?_ hb
    show ((RECT_EDGE_OFFSET + (RECT_HEIGHT + RECT_PADDING) * y : Nat) : Int) ≤
      (SCREEN_HEIGHT : Int)
    have e1 : RECT_COUNT_Y = 8 := rfl
    have e2 : RECT_EDGE_OFFSET = 10 := rfl
    have e3 : RECT_HEIGHT = 20 := rfl
    have e4 : RECT_PADDING = 10 := rfl
    have e5 : SCREEN_HEIGHT = 480 := rfl
    rw [e1] at hy
    rw [e2, e3, e4, e5]
    omega
  · exact h

theorem fill_cell_rectangles (x : Nat) (g : Game K) (y k : Nat)
    (h : k ≠ x + RECT_COUNT_Y * y) : (fill_cell x g y).rectangles k = g.rectangles k := by
  simp [fill_cell, Game.assign_rectangles, h]

theorem foldl_fill_cell (x : Nat) (k : Nat) :
    ∀ (l : List Nat) (g : Game K), (∀ y ∈ l, k ≠ x + RECT_COUNT_Y * y) →
      (l.foldl (fill_cell x) g).rectangles k = g.rectangles k := by
  intro l
  induction l with
  | nil => intro g _; rfl
  | cons y l ih =>
    intro g h
    have h1 := ih (fill_cell x g y) (fun z hz => h z (List.mem_cons_of_mem _ hz))
    rw [List.foldl_cons]
    exact h1.trans (fill_cell_rectangles x g y k (h y (List.mem_cons_self _ _)))

theorem foldl_fill_column (k : Nat) :
    ∀ (l : List Nat) (g : Game K),
      (∀ x ∈ l, ∀ y, y < RECT_COUNT_Y → k ≠ x + RECT_COUNT_Y * y) →
      (l.foldl fill_column g).rectangles k = g.rectangles k := by
  intro l
  induction l with
  | nil => intro g _; rfl
  | cons x l ih =>
    intro g h
    have h1 := ih (fill_column g x) (fun z hz => h z (List.mem_cons_of_mem _ hz))
    have h2 := foldl_fill_cell x k (List.range RECT_COUNT_Y) g
      (fun y hy => h x (List.mem_cons_self _ _) y (List.mem_range.mp hy))
    rw [List.foldl_cons]
    exact h1.trans h2

theorem foldl_fill_cell_ball (P : Ball K → Prop) (s : Nat → Rectangle → Ball K → Ball K)
    (hP : ∀ i r b, r.color.a = 255 → r.pos.y ≤ (SCREEN_HEIGHT : Int) → P b → P (s i r b))
    (x : Nat) :
    ∀ (l : List Nat) (g : Game K), (∀ y ∈ l, y < RECT_COUNT_Y) → g.stray = s → P g.ball →
      P (l.foldl (fill_cell x) g).ball ∧ (l.foldl (fill_cell x) g).stray = s := by
  intro l
  induction l with
  | nil => intro g _ hs h; exact ⟨h, hs⟩
  | cons y l ih =>
    intro g hl hs h
    rw [List.foldl_cons]
    exact ih (fill_cell x g y) (fun z hz => hl z (List.mem_cons_of_mem _ hz))
      ((fill_cell_stray x g y).trans hs)
      (fill_cell_ball_inv P x g y (hl y (List.mem_cons_self _ _)) (by rw [hs]; exact hP) h)

theorem foldl_fill_column_ball (P : Ball K → Prop) (s : Nat → Rectangle → Ball K → Ball K)
    (hP : ∀ i r b, r.color.a = 255 → r.pos.y ≤ (SCREEN_HEIGHT : Int) → P b → P (s i r b)) :
    ∀ (l : List Nat) (g : Game K), g.stray = s → P g.ball →
      P (l.foldl fill_column g).ball ∧ (l.foldl fill_column g).stray = s := by
  intro l
  induction l with
  | nil => intro g hs h; exact ⟨h, hs⟩
  | cons x l ih =>
    intro g hs h
    rw [List.foldl_cons]
    have h2 := foldl_fill_cell_ball P s hP x (List.range RECT_COUNT_Y) g
      (fun y hy => List.mem_range.mp hy) hs h
    exact ih (fill_column g x) h2.2 h2.1

theorem foldl_fill_column_stray (l : List Nat) (g : Game K) :
    (l.foldl fill_column g).stray = g.stray :=
  (foldl_fill_column_ball (fun _ => True) g.stray (fun _ _ _ _ _ _ => trivial) l g rfl
    trivial).2

theorem initial_globals_withStray (rng : Nat → Nat) :
    (initial_globals K rng).withStray (fun _ _ b => b) = initial_globals K rng := rfl

theorem fill_primitives_stray (g : Game K) : (fill_primitives g).stray = g.stray := by
  unfold fill_primitives
  simp only [Game.rand, Game.store_stray, foldl_fill_column_stray]

/-- A property of the ball that holds once `fill_primitives` has set the colour,
the radius 10 and the speed, and that the stray stores of bricks keep, holds
after `fill_primitives`. -/
theorem fill_primitives_ball_inv (P : Ball K → Prop) (g : Game K)
    (hP : ∀ i r b, r.color.a = 255 → r.pos.y ≤ (SCREEN_HEIGHT : Int) → P b →
      P (g.stray i r b))
    (h0 : ∀ c1 c2 c3 : Flt K, P
      { g.ball with
        r := c1, g := c2, b := c3, a := Flt.ofInt 255, radius := Flt.ofInt 10,
        speed := Flt.ofInt BALL_SPEED }) :
    P (fill_primitives g).ball := by
  unfold fill_primitives
  simp only [Game.rand, Game.store_ball]
  refine (foldl_fill_column_ball P g.stray hP (List.range RECT_COUNT_X) _ ?_ ?_).1
  · rfl
  · exact h0 _ _ _

/-- The ball after `fill_primitives` when the stray stores leave the ball
alone: radius 10, the position and the velocity as before. -/
theorem fill_primitives_ball (g : Game K) (hst : ∀ i r b, g.stray i r b = b) :
    (fill_primitives g).ball.radius = Flt.ofInt 10 ∧ (fill_primitives g).ball.x = g.ball.x ∧
      (fill_primitives g).ball.y = g.ball.y ∧ (fill_primitives g).ball.vx = g.ball.vx ∧
      (fill_primitives g).ball.vy = g.ball.vy :=
  fill_primitives_ball_inv
    (fun b => b.radius = Flt.ofInt 10 ∧ b.x = g.ball.x ∧ b.y = g.ball.y ∧ b.vx = g.ball.vx ∧
      b.vy = g.ball.vy) g
    (fun i r b _ _ h => by rw [hst]; exact h) (fun _ _ _ => ⟨rfl, rfl, rfl, rfl, rfl⟩)

/-- The slider after `fill_primitives`. -/
theorem fill_primitives_slider (g : Game K) :
    (fill_primitives g).slider_rectangle =
      { dims := ⟨100, 20⟩, pos := ⟨270, 460⟩, color := ⟨255, 255, 255, 255⟩, active := true } := by
  unfold Game.slider_rectangle fill_primitives
  simp only [Game.rand]
  rw [Game.store_rectangles]
  have : RECT_COUNT_X * RECT_COUNT_Y < RECT_SLOTS := by decide
  simp only [this, true_and, if_true]
  decide

/-- The elements of the array that `fill_primitives` does not assign keep
their value. -/
theorem fill_primitives_rectangles_of_not_written (g : Game K) (k : Nat)
    (hk : k ≠ RECT_COUNT_X * RECT_COUNT_Y)
    (h : ∀ x, x < RECT_COUNT_X → ∀ y, y < RECT_COUNT_Y → k ≠ x + RECT_COUNT_Y * y) :
    (fill_primitives g).rectangles k = g.rectangles k := by
  unfold fill_primitives
  simp only [Game.rand]
  rw [Game.store_rectangles]
  simp only [hk, and_false, if_false]
  exact foldl_fill_column k (List.range RECT_COUNT_X) _
    (fun x hx y hy => h x (List.mem_range.mp hx) y hy)

/-- The difference `main` computes when the rounding leaves the converted
height and the difference as they are. -/
theorem anchored_exact (fl : K → Flt K) (c : Int) (r : K)
    (h1 : fl (c : K) = Flt.fin (c : K)) (h2 : fl ((c : K) - r) = Flt.fin ((c : K) - r)) :
    anchored fl c (Flt.fin r) = Flt.fin ((c : K) - r) := by
  unfold anchored
  simp only [Flt.ofInt_eq, Flt.round, h1, Flt.fin_sub_fin, h2]

/-- The difference `main` computes for an integer radius, both integers and
their difference being values of `float`. -/
theorem anchored_int (fl : K → Flt K) (hfl : ExactOnInts fl) (c r : Int)
    (hc : |c| ≤ 16777216) (hd : |c - r| ≤ 16777216) :
    anchored fl c (Flt.ofInt r) = Flt.fin (((c - r : Int) : K)) := by
  rw [Flt.ofInt_eq, anchored_exact fl c (r : K) (hfl c hc)
    (by rw [← Int.cast_sub]; exact hfl _ hd), Int.cast_sub]

theorem exactOnInts_fin : ExactOnInts (Flt.fin : K → Flt K) := fun _ _ => rfl

theorem attach_ball_eq [FloorRing K] (fl : K → Flt K) (hfl : ExactOnInts fl) (g : Game K)
    (r : Int) (hr : g.ball.radius = Flt.ofInt r)
    (hc : |g.slider_rectangle.pos.y| ≤ 16777216)
    (hd : |g.slider_rectangle.pos.y - r| ≤ 16777216) :
    (attach_ball fl g).ball.x = g.slider_rectangle.pos.x + g.slider_rectangle.dims.w.tdiv 2 ∧
      (attach_ball fl g).ball.y = g.slider_rectangle.pos.y - r ∧
      (attach_ball fl g).rectangles = g.rectangles := by
  refine ⟨rfl, ?_, rfl⟩
  show Flt.toInt (anchored fl g.slider_rectangle.pos.y g.ball.radius) = _
  rw [hr, anchored_int fl hfl _ _ hc hd]
  have h := abs_le.mp hd
  exact Flt.toInt_intCast _ (by omega) (by omega)

theorem attach_ball_stray [FloorRing K] (fl : K → Flt K) (g : Game K) :
    (attach_ball fl g).stray = g.stray := rfl

theorem attach_ball_rectangles [FloorRing K] (fl : K → Flt K) (g : Game K) :
    (attach_ball fl g).rectangles = g.rectangles := rfl

theorem attach_ball_slider [FloorRing K] (fl : K → Flt K) (g : Game K) :
    (attach_ball fl g).slider_rectangle = g.slider_rectangle := rfl

theorem attach_ball_radius [FloorRing K] (fl : K → Flt K) (g : Game K) :
    (attach_ball fl g).ball.radius = g.ball.radius := rfl

theorem attach_ball_x [FloorRing K] (fl : K → Flt K) (g : Game K) :
    (attach_ball fl g).ball.x = g.slider_rectangle.pos.x + g.slider_rectangle.dims.w.tdiv 2 :=
  rfl

theorem attach_ball_y_eq [FloorRing K] (fl : K → Flt K) (g : Game K) :
    (attach_ball fl g).ball.y =
      Flt.toInt (anchored fl g.slider_rectangle.pos.y g.ball.radius) :=
  rfl

/-- What the reset of lines 356-361 leaves: the slider is back at
`(270, 460)`, the ball is attached and on the slider, at `x = 320` and at the
height `(int)(460 - radius)` for the radius `fill_primitives` leaves. -/
theorem end_of_tick_reset [FloorRing K] (fl : K → Flt K) (a : App K)
    (h : a.game.ball.y > (SCREEN_HEIGHT : Int)) :
    (end_of_tick fl a).ball_attached = true ∧
      (end_of_tick fl a).game.slider_rectangle =
        { dims := ⟨100, 20⟩, pos := ⟨270, 460⟩, color := ⟨255, 255, 255, 255⟩, active := true } ∧
      (end_of_tick fl a).game.ball.x = 320 ∧
      (end_of_tick fl a).game.ball.y =
        Flt.toInt (anchored fl 460 (fill_primitives a.game).ball.radius) ∧
      (end_of_tick fl a).game.ball.radius = (fill_primitives a.game).ball.radius ∧
      (end_of_tick fl a).game.stray = a.game.stray := by
  have e : end_of_tick fl a =
      { a with game := attach_ball fl (fill_primitives a.game), ball_attached := true } := by
    unfold end_of_tick
    rw [if_pos h]
  have eg : (end_of_tick fl a).game = attach_ball fl (fill_primitives a.game) := by rw [e]
  have ea : (end_of_tick fl a).ball_attached = true := by rw [e]
  rw [eg]
  refine ⟨ea, ?_, ?_, ?_, attach_ball_radius _ _, ?_⟩
  · rw [attach_ball_slider, fill_primitives_slider]
  · rw [attach_ball_x, fill_primitives_slider]
    decide
  · rw [attach_ball_y_eq, fill_primitives_slider]
  · rw [attach_ball_stray, fill_primitives_stray]

/-- The radius the reset leaves when the stray stores do not change the radius
is 10, and then the height of the ball is 450 (the integers 460 and 450 being
values of `float`). -/
theorem end_of_tick_reset_y [FloorRing K] (fl : K → Flt K) (a : App K)
    (h : a.game.ball.y > (SCREEN_HEIGHT : Int))
    (hst : ∀ i r b, (a.game.stray i r b).radius = b.radius) :
    (end_of_tick fl a).game.ball.radius = Flt.fin 10 ∧
      (ExactOnInts fl → (end_of_tick fl a).game.ball.y = 450) := by
  obtain ⟨_, _, _, h4, h5, _⟩ := end_of_tick_reset fl a h
  have hr : (fill_primitives a.game).ball.radius = Flt.ofInt 10 :=
    fill_primitives_ball_inv (fun b => b.radius = Flt.ofInt 10) a.game
      (fun i r b _ _ hb => by
        show (a.game.stray i r b).radius = Flt.ofInt 10
        rw [hst]
        exact hb) (fun _ _ _ => rfl)
  rw [h4, h5, hr]
  refine ⟨by simp, fun hfl => ?_⟩
  rw [anchored_int fl hfl 460 10 (by decide) (by decide),
    Flt.toInt_intCast _ (by decide) (by decide)]
  rfl

theorem end_of_tick_no_reset [FloorRing K] (fl : K → Flt K) (a : App K)
    (h : ¬ a.game.ball.y > (SCREEN_HEIGHT : Int)) : end_of_tick fl a = a := by
  unfold end_of_tick
  rw [if_neg h]

/-! ## The pointer -/

theorem pointer_motion_slider (g : Game K) (x : Int) :
    (pointer_motion g x).slider_rectangle =
      { g.slider_rectangle with
        pos := { g.slider_rectangle.pos with
          x := Min.min (wrap32 ((SCREEN_WIDTH : Int) - g.slider_rectangle.dims.w))
            (Max.max 0 (wrap32 (x - g.slider_rectangle.dims.w.tdiv 2))) } } := by
  unfold pointer_motion Game.slider_rectangle
  simp only []
  rw [Game.store_rectangles]
  have : RECT_COUNT_X * RECT_COUNT_Y < RECT_SLOTS := by decide
  simp [this]

theorem first_brick_gone_ball (K : Type) [LinearOrderedField K] :
    (first_brick_gone K).ball.radius = Flt.fin 10 ∧ (first_brick_gone K).ball.x = 5 ∧
      (first_brick_gone K).ball.y = 5 := by
  unfold first_brick_gone
  simp only [Game.store_ball]
  obtain ⟨h1, h2, h3, _⟩ :=
    fill_primitives_ball (game_of K (ball_at K 5 5 (-1 / 4) (-3 / 4)) initial_board)
      (fun _ _ _ => rfl)
  refine ⟨?_, h2, h3⟩
  rw [h1]
  simp

/-! ## Zero distance -/

theorem find_max_idx_nan : find_max_idx (dot_products (Flt.nan : Flt K) Flt.nan) = 0 := by
  simp [find_max_idx, dot_products]

/-- The wall checks for a ball of radius 10, with the conditions on the
position read on the integer centre. -/
theorem walls_radius_ten (g : Game K) (hr : g.ball.radius = Flt.fin 10) :
    walls g =
      (g.setVx (if (g.ball.x - 10 < 0 ∧ g.ball.vx < Flt.fin 0) ∨
            (g.ball.x + 10 > (SCREEN_WIDTH : Int) ∧ g.ball.vx > Flt.fin 0)
          then -g.ball.vx else g.ball.vx)).setVy
        (if g.ball.y - 10 < 0 then -g.ball.vy else g.ball.vy) := by
  have c1 : (Flt.fin (g.ball.x : K) - g.ball.radius < Flt.fin 0) ↔ g.ball.x - 10 < 0 := by
    rw [hr, Flt.fin_sub_fin, Flt.fin_lt_fin,
      show (g.ball.x : K) - 10 = ((g.ball.x - 10 : Int) : K) by push_cast; rfl]
    exact Int.cast_lt_zero
  have c2 : (Flt.fin (((SCREEN_WIDTH : Nat) : Int) : K) < Flt.fin (g.ball.x : K) + g.ball.radius) ↔
      g.ball.x + 10 > (SCREEN_WIDTH : Int) := by
    rw [hr, Flt.fin_add_fin, Flt.fin_lt_fin,
      show (g.ball.x : K) + 10 = ((g.ball.x + 10 : Int) : K) by push_cast; rfl]
    exact Int.cast_lt
  have c3 : (Flt.fin (g.ball.y : K) - g.ball.radius < Flt.fin 0) ↔ g.ball.y - 10 < 0 := by
    rw [hr, Flt.fin_sub_fin, Flt.fin_lt_fin,
      show (g.ball.y : K) - 10 = ((g.ball.y - 10 : Int) : K) by push_cast; rfl]
    exact Int.cast_lt_zero
  unfold walls
  simp only [Flt.ofInt_eq, Int.cast_zero, Int.cast_neg, Int.cast_one, Flt.mul_neg_one, GT.gt]
  by_cases h1 : g.ball.x - 10 < 0
  · have h2 : ¬ (g.ball.x + 10 > (SCREEN_WIDTH : Int)) := by
      have : (SCREEN_WIDTH : Int) = 640 := rfl
      omega
    by_cases h3 : g.ball.vx < Flt.fin 0 <;> by_cases h4 : g.ball.y - 10 < 0 <;>
      simp only [c1, c2, c3, h1, h2, h3, h4, Game.setVx_x, Game.setVx_y, Game.setVx_radius,
        Game.setVx_vx, Game.setVx_vy, and_self, and_true, true_and, false_and, and_false,
        or_false, false_or, if_true, if_false, GT.gt] <;> rfl
  · by_cases h2 : g.ball.x + 10 > (SCREEN_WIDTH : Int) <;>
      by_cases h3 : Flt.fin 0 < g.ball.vx <;> by_cases h4 : g.ball.y - 10 < 0 <;>
      simp only [c1, c2, c3, h1, h2, h3, h4, Game.setVx_x, Game.setVx_y, Game.setVx_radius,
        Game.setVx_vx, Game.setVx_vy, and_self, and_true, true_and, false_and, and_false,
        or_false, false_or, if_true, if_false, GT.gt] <;> rfl

/-! ## A tick in flight -/

theorem no_hit_cleared_board (x y : Int) (vx vy : ℝ)
    (h : 100 < sqdist x y (rect_at 270 460 100 20)) :
    ∀ i, i < RECT_SLOTS →
      ¬ Hits Real.sqrt (game_of ℝ (ball_at ℝ x y vx vy) cleared_board) i := by
  intro i _ hh
  by_cases hi : i = RECT_COUNT_X * RECT_COUNT_Y
  · subst hi
    have h2 : (check_collision Real.sqrt (ball_at ℝ x y vx vy)
        (cleared_board (RECT_COUNT_X * RECT_COUNT_Y))).collided = true := hh.2
    rw [cleared_board_slider] at h2
    exact not_collided_ball_at x y _ _ _ h h2
  · have h1 : (cleared_board i).active = true := hh.1
    rw [cleared_board_inactive i hi] at h1
    cases h1

theorem Flt.toInt_natCast [FloorRing K] (n : Nat) (h : n ≤ 2147483647) :
    Flt.toInt (Flt.fin (n : K)) = n := by
  have := Flt.toInt_intCast (K := K) (n : Int) (by omega) (by omega)
  simpa using this

/-- The sum `move_ball` computes when the rounding leaves the converted centre,
the two products and the sum as they are. -/
theorem displaced_exact (fl : K → Flt K) (c : Int) (d v s : K)
    (h1 : fl (c : K) = Flt.fin (c : K)) (h2 : fl (d * v) = Flt.fin (d * v))
    (h3 : fl (d * v * s) = Flt.fin (d * v * s))
    (h4 : fl ((c : K) + d * v * s) = Flt.fin ((c : K) + d * v * s)) :
    displaced fl c (Flt.fin d) (Flt.fin v) (Flt.fin s) = Flt.fin ((c : K) + d * v * s) := by
  unfold displaced
  simp only [Flt.ofInt_eq, Flt.fin_mul_fin, Flt.round, h1, h2, h3, Flt.fin_add_fin, h4]

/-- The sum `move_ball` computes with the exact rounding. -/
theorem displaced_fin (c : Int) (d v s : K) :
    displaced Flt.fin c (Flt.fin d) (Flt.fin v) (Flt.fin s) = Flt.fin ((c : K) + d * v * s) :=
  displaced_exact Flt.fin c d v s rfl rfl rfl rfl

/-- The update of a tick of 1/16 s with the ball in flight at `(100, 470)`,
moving straight down: the sum is `488.75`, the ball ends at `y = 488`. -/
theorem update_falling_ball :
    ∃ a1, update Flt.fin Real.sqrt (Flt.fin (1 / 16)) []
        (app_of ℝ (game_of ℝ (ball_at ℝ 100 470 0 1) cleared_board) false) = .ok a1 ∧
      a1.game.ball.y = 488 ∧ a1.game.stray = fun _ _ b => b := by
  have hscan : scan Real.sqrt (game_of ℝ (ball_at ℝ 100 470 0 1) cleared_board) RECT_SLOTS 0 =
      .ok (game_of ℝ (ball_at ℝ 100 470 0 1) cleared_board) :=
    scan_none _ _ _ _ (fun j _ h => no_hit_cleared_board 100 470 0 1 (by decide) j (by omega))
  have hw : walls (game_of ℝ (ball_at ℝ 100 470 0 1) cleared_board) =
      game_of ℝ (ball_at ℝ 100 470 0 1) cleared_board := by
    rw [walls_radius_ten _ rfl]
    have e1 : (game_of ℝ (ball_at ℝ 100 470 0 1) cleared_board).ball.x = 100 := rfl
    have e2 : (game_of ℝ (ball_at ℝ 100 470 0 1) cleared_board).ball.y = 470 := rfl
    have e3 : (SCREEN_WIDTH : Int) = 640 := rfl
    simp only [e1, e2, e3]
    norm_num
    rfl
  have hcc : check_collisions Real.sqrt (game_of ℝ (ball_at ℝ 100 470 0 1) cleared_board) =
      .ok (game_of ℝ (ball_at ℝ 100 470 0 1) cleared_board) := by
    unfold check_collisions
    rw [hscan]
    show Except.ok (walls _) = _
    rw [hw]
  have hmove : ∃ g1, move_ball Flt.fin Real.sqrt (Flt.fin (1 / 16))
      (game_of ℝ (ball_at ℝ 100 470 0 1) cleared_board) = .ok g1 ∧ g1.ball.y = 488 ∧
      g1.stray = fun _ _ b => b := by
    unfold move_ball
    rw [hcc]
    refine ⟨_, rfl, ?_, rfl⟩
    show Flt.toInt (displaced Flt.fin 470 (Flt.fin (1 / 16)) (Flt.fin 1) (Flt.fin 300)) = 488
    rw [displaced_fin, Flt.toInt_fin]
    have e : Flt.trunc (((470 : Int) : ℝ) + 1 / 16 * 1 * 300) = 488 := by
      unfold Flt.trunc
      rw [if_pos (by norm_num), Int.floor_eq_iff]
      constructor <;> norm_num
    rw [e]
    decide
  obtain ⟨g1, hg1, hy, hst⟩ := hmove
  refine ⟨{ game := g1, quit := false, ball_attached := false }, ?_, hy, hst⟩
  unfold update
  rw [List.foldl_nil, if_neg (by decide)]
  show Except.map _ (move_ball Flt.fin Real.sqrt (Flt.fin (1 / 16))
    (game_of ℝ (ball_at ℝ 100 470 0 1) cleared_board)) = _
  rw [hg1]
  rfl

/-! ## The first maximal score -/

/-- The index found by the loop over `dot_products` is the first index of a
maximal entry. -/
theorem find_max_idx_first_max (dot : Nat → Flt K) (a b c d : K) (h0 : dot 0 = Flt.fin a)
    (h1 : dot 1 = Flt.fin b) (h2 : dot 2 = Flt.fin c) (h3 : dot 3 = Flt.fin d) :
    (find_max_idx dot = 0 ∧ b ≤ a ∧ c ≤ a ∧ d ≤ a) ∨
    (find_max_idx dot = 1 ∧ a < b ∧ c ≤ b ∧ d ≤ b) ∨
    (find_max_idx dot = 2 ∧ a < c ∧ b < c ∧ d ≤ c) ∨
    (find_max_idx dot = 3 ∧ a < d ∧ b < d ∧ c < d) := by
  by_cases hab : a < b
  · by_cases hbc : b < c
    · by_cases hcd : c < d
      · have e : find_max_idx dot = 3 := by
          unfold find_max_idx
          simp only [List.foldl, GT.gt, h0, h1, h2, h3, Flt.fin_lt_fin, hab, hbc, hcd, if_true]
        rw [e]
        exact Or.inr (Or.inr (Or.inr ⟨rfl, by linarith, by linarith, hcd⟩))
      · have e : find_max_idx dot = 2 := by
          unfold find_max_idx
          simp only [List.foldl, GT.gt, h0, h1, h2, h3, Flt.fin_lt_fin, hab, hbc, hcd, if_true, if_false]
        rw [e]
        exact Or.inr (Or.inr (Or.inl ⟨rfl, by linarith, hbc, not_lt.mp hcd⟩))
    · by_cases hbd : b < d
      · have e : find_max_idx dot = 3 := by
          unfold find_max_idx
          simp only [List.foldl, GT.gt, h0, h1, h2, h3, Flt.fin_lt_fin, hab, hbc, hbd, if_true, if_false]
        rw [e]
        exact Or.inr (Or.inr (Or.inr ⟨rfl, by linarith, hbd, by linarith⟩))
      · have e : find_max_idx dot = 1 := by
          unfold find_max_idx
          simp only [List.foldl, GT.gt, h0, h1, h2, h3, Flt.fin_lt_fin, hab, hbc, hbd, if_true, if_false]
        rw [e]
        exact Or.inr (Or.inl ⟨rfl, hab, not_lt.mp hbc, not_lt.mp hbd⟩)
  · by_cases hac : a < c
    · by_cases hcd : c < d
      · have e : find_max_idx dot = 3 := by
          unfold find_max_idx
          simp only [List.foldl, GT.gt, h0, h1, h2, h3, Flt.fin_lt_fin, hab, hac, hcd, if_true, if_false]
        rw [e]
        exact Or.inr (Or.inr (Or.inr ⟨rfl, by linarith, by linarith, hcd⟩))
      · have e : find_max_idx dot = 2 := by
          unfold find_max_idx
          simp only [List.foldl, GT.gt, h0, h1, h2, h3, Flt.fin_lt_fin, hab, hac, hcd, if_true, if_false]
        rw [e]
        exact Or.inr (Or.inr (Or.inl ⟨rfl, hac, by linarith, not_lt.mp hcd⟩))
    · by_cases had : a < d
      · have e : find_max_idx dot = 3 := by
          unfold find_max_idx
          simp only [List.foldl, GT.gt, h0, h1, h2, h3, Flt.fin_lt_fin, hab, hac, had, if_true, if_false]
        rw [e]
        exact Or.inr (Or.inr (Or.inr ⟨rfl, had, by linarith, by linarith⟩))
      · have e : find_max_idx dot = 0 := by
          unfold find_max_idx
          simp only [List.foldl, GT.gt, h0, h1, h2, h3, Flt.fin_lt_fin, hab, hac, had, if_true, if_false]
        rw [e]
        exact Or.inl ⟨rfl, not_lt.mp hab, not_lt.mp hac, not_lt.mp had⟩

theorem hits_none_or_first (sqrtK : K → K) (g : Game K) :
    (∀ i, i < RECT_SLOTS → ¬ Hits sqrtK g i) ∨ ∃ i, FirstHit sqrtK g i := by
  classical
  by_cases h : ∃ i, i < RECT_SLOTS ∧ Hits sqrtK g i
  · right
    refine ⟨Nat.find h, (Nat.find_spec h).1, (Nat.find_spec h).2, ?_⟩
    intro j hj hh
    exact Nat.find_min h hj ⟨lt_trans hj (Nat.find_spec h).1, hh⟩
  · left
    intro i hi hh
    exact h ⟨i, hi, hh⟩

theorem firstHit_unique (sqrtK : K → K) (g : Game K) (i j : Nat) (hi : FirstHit sqrtK g i)
    (hj : FirstHit sqrtK g j) : i = j := by
  rcases Nat.lt_trichotomy i j with h | h | h
  · exact absurd hi.2.1 (hj.2.2 i h)
  · exact h
  · exact absurd hj.2.1 (hi.2.2 j h)

theorem check_collisions_of_firstHit (sqrtK : K → K) (g : Game K) (i : Nat)
    (hi : FirstHit sqrtK g i) :
    check_collisions sqrtK g =
      (resolve sqrtK g i (check_collision sqrtK g.ball (g.rectangles i))).map walls := by
  unfold check_collisions
  rw [scan_of_firstHit sqrtK g i hi]

theorem check_collisions_of_no_hit (sqrtK : K → K) (g : Game K)
    (h : ∀ i, i < RECT_SLOTS → ¬ Hits sqrtK g i) : check_collisions sqrtK g = .ok (walls g) := by
  unfold check_collisions
  rw [scan_none sqrtK g RECT_SLOTS 0 (fun j _ hj => h j (by omega))]
  rfl

/-- A resolution changes no other element of the array than the one
resolved. -/
theorem resolve_frame (sqrtK : K → K) (g g1 : Game K) (i : Nat) (info : CollisionInfo K)
    (hr : resolve sqrtK g i info = .ok g1) (k : Nat) (hk : k ≠ i) :
    g1.rectangles k = g.rectangles k := by
  by_cases hi : i ≠ RECT_COUNT_X * RECT_COUNT_Y
  · rw [resolve_brick sqrtK g i info hi] at hr
    injection hr with hr
    subst hr
    rw [recolor_rectangles, if_neg (fun h => hk h.2), normalize_velocity_rectangles,
      Game.store_rectangles, if_neg (fun h => hk h.2), reflect_rectangles]
  · have hi' : i = RECT_COUNT_X * RECT_COUNT_Y := not_not.mp hi
    subst hi'
    by_cases hd : info.side = .DOWN
    · rw [resolve_slider_down sqrtK g info hd] at hr
      cases hr
    · rw [resolve_slider sqrtK g info hd] at hr
      injection hr with hr
      subst hr
      rw [recolor_rectangles, if_neg (fun h => hk h.2), normalize_velocity_rectangles]
      split
      · rw [slider_up_rectangles, reflect_rectangles]
      · rw [reflect_rectangles]

theorem check_collisions_frame (sqrtK : K → K) (g g' : Game K) (i : Nat)
    (hi : FirstHit sqrtK g i) (h : check_collisions sqrtK g = .ok g') (k : Nat) (hk : k ≠ i) :
    g'.rectangles k = g.rectangles k := by
  obtain ⟨g1, h1, rfl⟩ := check_collisions_ok sqrtK g g' h
  rw [scan_of_firstHit sqrtK g i hi] at h1
  rw [walls_rectangles]
  exact resolve_frame sqrtK g g1 i _ h1 k hk

theorem check_collisions_one_flag (sqrtK : K → K) (g g' : Game K)
    (h : check_collisions sqrtK g = .ok g') (k1 k2 : Nat)
    (h1 : (g'.rectangles k1).active ≠ (g.rectangles k1).active)
    (h2 : (g'.rectangles k2).active ≠ (g.rectangles k2).active) : k1 = k2 := by
  rcases hits_none_or_first sqrtK g with hn | ⟨i, hi⟩
  · rw [check_collisions_of_no_hit sqrtK g hn] at h
    injection h with h
    subst h
    rw [walls_rectangles] at h1
    exact absurd rfl h1
  · have e1 : k1 = i := by
      by_contra hne
      exact h1 (by rw [check_collisions_frame sqrtK g g' i hi h k1 hne])
    have e2 : k2 = i := by
      by_contra hne
      exact h2 (by rw [check_collisions_frame sqrtK g g' i hi h k2 hne])
    rw [e1, e2]

/-! ## Independence of the later colliders -/

theorem Game.setRect_rectangles_ne (g : Game K) (k : Nat) (r : Rectangle) (i : Nat)
    (h : i ≠ k) : (g.setRect k r).rectangles i = g.rectangles i := by
  simp [Game.setRect, Function.update_noteq h]

theorem Game.store_setRect (g : Game K) (k : Nat) (r : Rectangle) (i : Nat) (r1 : Rectangle)
    (h : i ≠ k) : (g.setRect k r).store i r1 = (g.store i r1).setRect k r := by
  unfold Game.store
  split
  · simp [Game.setRect, Function.update_comm h]
  · rfl

theorem reflect_setRect (g : Game K) (k : Nat) (r : Rectangle) (side : CollisionSide) :
    reflect (g.setRect k r) side = (reflect g side).setRect k r := by
  unfold reflect
  split <;> rfl

theorem normalize_velocity_setRect (sqrtK : K → K) (g : Game K) (k : Nat) (r : Rectangle) :
    normalize_velocity sqrtK (g.setRect k r) = (normalize_velocity sqrtK g).setRect k r := rfl

theorem recolor_setRect (g : Game K) (k : Nat) (r : Rectangle) (i : Nat) (h : i ≠ k) :
    recolor (g.setRect k r) i = (recolor g i).setRect k r := by
  unfold recolor
  simp only [Game.rand]
  show Game.store _ i _ = _
  rw [← Game.store_setRect _ k r i _ h]
  congr 1
  simp [Game.setRect, Function.update_noteq h]

theorem slider_up_setRect (g : Game K) (k : Nat) (r : Rectangle)
    (h : RECT_COUNT_X * RECT_COUNT_Y ≠ k) :
    slider_up (g.setRect k r) = (slider_up g).setRect k r := by
  have hs : (g.setRect k r).slider_rectangle = g.slider_rectangle :=
    Game.setRect_rectangles_ne g k r _ h
  have h1 : ball_to_center_x (g.setRect k r) = ball_to_center_x g := by
    unfold ball_to_center_x
    rw [hs]
    rfl
  have h2 : dist_from_center_normalized (g.setRect k r) = dist_from_center_normalized g := by
    unfold dist_from_center_normalized
    rw [hs, h1]
  unfold slider_up
  rw [h1, h2]
  have hb : (g.setRect k r).ball = g.ball := rfl
  rw [hb]
  split <;> rfl

theorem walls_setRect (g : Game K) (k : Nat) (r : Rectangle) :
    walls (g.setRect k r) = (walls g).setRect k r := by
  cases g with
  | mk b rs n st =>
    simp only [walls, Game.setRect, Game.setVx, Game.setVy]
    split_ifs <;> rfl

theorem resolve_setRect (sqrtK : K → K) (g : Game K) (k : Nat) (r : Rectangle) (i : Nat)
    (info : CollisionInfo K) (h : i ≠ k) :
    resolve sqrtK (g.setRect k r) i info =
      (resolve sqrtK g i info).map fun g1 => g1.setRect k r := by
  by_cases hi : i ≠ RECT_COUNT_X * RECT_COUNT_Y
  · rw [resolve_brick sqrtK _ i info hi, resolve_brick sqrtK _ i info hi]
    show _ = Except.ok _
    rw [reflect_setRect, Game.setRect_rectangles_ne _ k r i h, Game.store_setRect _ k r i _ h,
      normalize_velocity_setRect, recolor_setRect _ k r i h]
  · have hi' : i = RECT_COUNT_X * RECT_COUNT_Y := not_not.mp hi
    subst hi'
    by_cases hd : info.side = .DOWN
    · rw [resolve_slider_down sqrtK _ info hd, resolve_slider_down sqrtK _ info hd]
      rfl
    · rw [resolve_slider sqrtK _ info hd, resolve_slider sqrtK _ info hd]
      show _ = Except.ok _
      rw [reflect_setRect]
      split
      · rw [slider_up_setRect _ k r h, normalize_velocity_setRect, recolor_setRect _ k r _ h]
      · rw [normalize_velocity_setRect, recolor_setRect _ k r _ h]

theorem firstHit_setRect (sqrtK : K → K) (g : Game K) (i k : Nat) (r : Rectangle)
    (hi : FirstHit sqrtK g i) (hk : i < k) : FirstHit sqrtK (g.setRect k r) i := by
  have e : ∀ j, j ≤ i → (g.setRect k r).rectangles j = g.rectangles j :=
    fun j hj => Game.setRect_rectangles_ne g k r j (by omega)
  refine ⟨hi.1, ?_, ?_⟩
  · unfold Hits
    rw [e i le_rfl]
    exact hi.2.1
  · intro j hj hh
    unfold Hits at hh
    rw [e j (by omega)] at hh
    exact hi.2.2 j hj hh

/-- Replacing a rectangle after the first one that is hit does not change the
call, apart from the replaced element itself. -/
theorem check_collisions_setRect (sqrtK : K → K) (g : Game K) (i k : Nat) (r : Rectangle)
    (hi : FirstHit sqrtK g i) (hk : i < k) :
    check_collisions sqrtK (g.setRect k r) =
      (check_collisions sqrtK g).map fun g1 => g1.setRect k r := by
  rw [check_collisions_of_firstHit sqrtK _ i (firstHit_setRect sqrtK g i k r hi hk),
    check_collisions_of_firstHit sqrtK g i hi,
    Game.setRect_rectangles_ne g k r i (by omega)]
  show Except.map walls (resolve sqrtK (g.setRect k r) i
    (check_collision sqrtK g.ball (g.rectangles i))) = _
  rw [resolve_setRect sqrtK g k r i _ (by omega)]
  cases resolve sqrtK g i (check_collision sqrtK g.ball (g.rectangles i)) with
  | error e => rfl
  | ok g1 =>
    show Except.ok (walls (g1.setRect k r)) = Except.ok ((walls g1).setRect k r)
    rw [walls_setRect]

/-! ## The exception -/

/-- The call throws exactly when the first rectangle hit is the slider and the
side is DOWN. -/
theorem check_collisions_error_iff (sqrtK : K → K) (g : Game K) (e : String) :
    check_collisions sqrtK g = .error e ↔
      (e = "????!" ∧ FirstHit sqrtK g (RECT_COUNT_X * RECT_COUNT_Y) ∧
        (check_collision sqrtK g.ball (g.rectangles (RECT_COUNT_X * RECT_COUNT_Y))).side =
          .DOWN) := by
  constructor
  · intro h
    rcases hits_none_or_first sqrtK g with hn | ⟨i, hi⟩
    · rw [check_collisions_of_no_hit sqrtK g hn] at h
      cases h
    · rw [check_collisions_of_firstHit sqrtK g i hi] at h
      by_cases hb : i ≠ RECT_COUNT_X * RECT_COUNT_Y
      · rw [resolve_brick sqrtK g i _ hb] at h
        cases h
      · have hb' : i = RECT_COUNT_X * RECT_COUNT_Y := not_not.mp hb
        subst hb'
        by_cases hd : (check_collision sqrtK g.ball
            (g.rectangles (RECT_COUNT_X * RECT_COUNT_Y))).side = .DOWN
        · rw [resolve_slider_down sqrtK g _ hd] at h
          injection h with h
          exact ⟨h.symm, hi, hd⟩
        · rw [resolve_slider sqrtK g _ hd] at h
          cases h
  · rintro ⟨rfl, hi, hd⟩
    rw [check_collisions_of_firstHit sqrtK g _ hi, resolve_slider_down sqrtK g _ hd]
    rfl

theorem check_collisions_ok_of_not_down (sqrtK : K → K) (g : Game K)
    (h : ¬ (FirstHit sqrtK g (RECT_COUNT_X * RECT_COUNT_Y) ∧
      (check_collision sqrtK g.ball (g.rectangles (RECT_COUNT_X * RECT_COUNT_Y))).side =
        .DOWN)) :
    ∃ g', check_collisions sqrtK g = .ok g' := by
  cases hc : check_collisions sqrtK g with
  | ok g' => exact ⟨g', rfl⟩
  | error e =>
    have := (check_collisions_error_iff sqrtK g e).mp hc
    exact absurd ⟨this.2.1, this.2.2⟩ h

theorem move_ball_error [FloorRing K] (fl : K → Flt K) (sqrtK : K → K) (dt : Flt K)
    (g : Game K) (e : String) (h : check_collisions sqrtK g = .error e) :
    move_ball fl sqrtK dt g = .error e := by
  unfold move_ball
  rw [h]
  rfl

theorem tick_error [FloorRing K] (fl : K → Flt K) (sqrtK : K → K) (dt : Flt K) (g : Game K)
    (e : String) (h : check_collisions sqrtK g = .error e) :
    tick fl sqrtK dt [] { game := g, quit := false, ball_attached := false } = .error e := by
  unfold tick update
  rw [List.foldl_nil, if_neg (by simp)]
  show Except.map _ (Except.map _ (move_ball fl sqrtK dt g)) = _
  rw [move_ball_error fl sqrtK dt g e h]
  rfl

theorem run_error [FloorRing K] (fl : K → Flt K) (sqrtK : K → K) (dt : Flt K) (g : Game K)
    (e : String) (rest : List (Flt K × List Event)) (h : check_collisions sqrtK g = .error e) :
    run fl sqrtK ((dt, []) :: rest) { game := g, quit := false, ball_attached := false } =
      .error e := by
  rw [run, if_neg (by simp), tick_error fl sqrtK dt g e h]

/-! ## The side DOWN needs the ball under the rectangle -/

theorem offset_nonneg (c p d : Int) (hd : 0 ≤ d) (h : c ≤ p + 2 * d.tdiv 2) :
    0 ≤ offset c p d := by
  unfold offset
  rw [Int.neg_tdiv]
  have h3 : 0 ≤ d.tdiv 2 := by
    rw [Int.tdiv_eq_ediv hd (by decide)]
    omega
  omega

theorem ofIdx_ne_down (m : Nat) (h : m ≠ 3) (hm : m < 4) : CollisionSide.ofIdx m ≠ .DOWN := by
  interval_cases m <;> simp [CollisionSide.ofIdx] at h ⊢

/-- A collision whose closest point is not above the centre of the ball (the
vertical offset is non-negative) is not on the side DOWN. -/
theorem side_ne_down {sqrtK : K → K} (hs : IsSqrt sqrtK) (ball : Ball K)
    (rectangle : Rectangle)
    (hy : 0 ≤ offset ball.y rectangle.pos.y rectangle.dims.h)
    (hc : (check_collision sqrtK ball rectangle).collided = true) :
    (check_collision sqrtK ball rectangle).side ≠ .DOWN := by
  have hbx := ball_to_closest_x_eq (K := K) ball rectangle
  have hby := ball_to_closest_y_eq (K := K) ball rectangle
  have hy' : (0 : K) ≤ ((offset ball.y rectangle.pos.y rectangle.dims.h : Int) : K) := by
    exact_mod_cast hy
  by_cases hz : ((offset ball.x rectangle.pos.x rectangle.dims.w : Int) : K) ≠ 0 ∨
      ((offset ball.y rectangle.pos.y rectangle.dims.h : Int) : K) ≠ 0
  · rw [side_of_offset hs ball rectangle _ _ hbx hby hz hc]
    rcases find_max_idx_first_max
      (dot_products (Flt.fin ((offset ball.x rectangle.pos.x rectangle.dims.w : Int) : K))
        (Flt.fin ((offset ball.y rectangle.pos.y rectangle.dims.h : Int) : K)))
      _ _ _ _ rfl rfl rfl rfl with h | h | h | h
    · rw [h.1]
      exact ofIdx_ne_down 0 (by decide) (by decide)
    · rw [h.1]
      exact ofIdx_ne_down 1 (by decide) (by decide)
    · rw [h.1]
      exact ofIdx_ne_down 2 (by decide) (by decide)
    · exfalso
      obtain ⟨_, h1, h2, _⟩ := h
      linarith
  · have hz' := not_or.mp hz
    have hx0 : ((offset ball.x rectangle.pos.x rectangle.dims.w : Int) : K) = 0 :=
      not_not.mp hz'.1
    have hy0 : ((offset ball.y rectangle.pos.y rectangle.dims.h : Int) : K) = 0 :=
      not_not.mp hz'.2
    rw [hx0] at hbx
    rw [hy0] at hby
    have hd : dist_to_closest sqrtK ball rectangle = Flt.fin 0 := by
      rw [dist_to_closest_of_fin sqrtK ball rectangle 0 0 hbx hby]
      simp [hs.zero]
    rw [side_of_collided sqrtK ball rectangle hc]
    unfold ball_to_closest_dir_x ball_to_closest_dir_y
    rw [hbx, hby, hd, Flt.fin_zero_div_fin_zero, find_max_idx_nan]
    decide

/-! ## What `check_collisions` keeps -/

theorem reflect_ball_keeps (g : Game K) (side : CollisionSide) :
    (reflect g side).ball.x = g.ball.x ∧ (reflect g side).ball.y = g.ball.y ∧
      (reflect g side).ball.radius = g.ball.radius ∧
      (reflect g side).ball.speed = g.ball.speed := by
  unfold reflect
  split <;> exact ⟨rfl, rfl, rfl, rfl⟩

theorem slider_up_ball_keeps (g : Game K) :
    (slider_up g).ball.x = g.ball.x ∧ (slider_up g).ball.y = g.ball.y ∧
      (slider_up g).ball.radius = g.ball.radius ∧ (slider_up g).ball.speed = g.ball.speed := by
  unfold slider_up
  split <;> exact ⟨rfl, rfl, rfl, rfl⟩

theorem walls_ball_keeps (g : Game K) :
    (walls g).ball.x = g.ball.x ∧ (walls g).ball.y = g.ball.y ∧
      (walls g).ball.radius = g.ball.radius ∧ (walls g).ball.speed = g.ball.speed := by
  cases g with
  | mk b rs n st =>
    simp only [walls, Game.setVx, Game.setVy]
    split_ifs <;> exact ⟨rfl, rfl, rfl, rfl⟩

theorem normalize_velocity_ball_keeps (sqrtK : K → K) (g : Game K) :
    (normalize_velocity sqrtK g).ball.x = g.ball.x ∧
      (normalize_velocity sqrtK g).ball.y = g.ball.y ∧
      (normalize_velocity sqrtK g).ball.radius = g.ball.radius ∧
      (normalize_velocity sqrtK g).ball.speed = g.ball.speed :=
  ⟨rfl, rfl, rfl, rfl⟩

theorem resolve_ball_keeps (sqrtK : K → K) (g g1 : Game K) (i : Nat) (info : CollisionInfo K)
    (hr : resolve sqrtK g i info = .ok g1) :
    g1.ball.x = g.ball.x ∧ g1.ball.y = g.ball.y ∧ g1.ball.radius = g.ball.radius ∧
      g1.ball.speed = g.ball.speed := by
  have hrf := reflect_ball_keeps g info.side
  by_cases hi : i ≠ RECT_COUNT_X * RECT_COUNT_Y
  · rw [resolve_brick sqrtK g i info hi] at hr
    injection hr with hr
    subst hr
    rw [recolor_ball]
    have hn := normalize_velocity_ball_keeps sqrtK
      ((reflect g info.side).store i { (reflect g info.side).rectangles i with active := false })
    rw [Game.store_ball] at hn
    exact ⟨hn.1.trans hrf.1, hn.2.1.trans hrf.2.1, hn.2.2.1.trans hrf.2.2.1,
      hn.2.2.2.trans hrf.2.2.2⟩
  · have hi' : i = RECT_COUNT_X * RECT_COUNT_Y := not_not.mp hi
    subst hi'
    by_cases hd : info.side = .DOWN
    · rw [resolve_slider_down sqrtK g info hd] at hr
      cases hr
    · rw [resolve_slider sqrtK g info hd] at hr
      injection hr with hr
      subst hr
      rw [recolor_ball]
      split
      · have hsu := slider_up_ball_keeps (reflect g info.side)
        have hn := normalize_velocity_ball_keeps sqrtK (slider_up (reflect g info.side))
        exact ⟨hn.1.trans (hsu.1.trans hrf.1), hn.2.1.trans (hsu.2.1.trans hrf.2.1),
          hn.2.2.1.trans (hsu.2.2.1.trans hrf.2.2.1), hn.2.2.2.trans (hsu.2.2.2.trans hrf.2.2.2)⟩
      · have hn := normalize_velocity_ball_keeps sqrtK (reflect g info.side)
        exact ⟨hn.1.trans hrf.1, hn.2.1.trans hrf.2.1, hn.2.2.1.trans hrf.2.2.1,
          hn.2.2.2.trans hrf.2.2.2⟩

/-- The call changes neither the centre of the ball, nor its radius, nor its
speed. -/
theorem check_collisions_ball_keeps (sqrtK : K → K) (g g' : Game K)
    (h : check_collisions sqrtK g = .ok g') :
    g'.ball.x = g.ball.x ∧ g'.ball.y = g.ball.y ∧ g'.ball.radius = g.ball.radius ∧
      g'.ball.speed = g.ball.speed := by
  have hw := walls_ball_keeps (K := K)
  rcases hits_none_or_first sqrtK g with hn | ⟨i, hi⟩
  · rw [check_collisions_of_no_hit sqrtK g hn] at h
    injection h with h
    subst h
    exact hw g
  · obtain ⟨g1, h1, rfl⟩ := check_collisions_ok sqrtK g g' h
    rw [scan_of_firstHit sqrtK g i hi] at h1
    have hr := resolve_ball_keeps sqrtK g g1 i _ h1
    have hw1 := hw g1
    exact ⟨hw1.1.trans hr.1, hw1.2.1.trans hr.2.1, hw1.2.2.1.trans hr.2.2.1,
      hw1.2.2.2.trans hr.2.2.2⟩

theorem resolve_geometry (sqrtK : K → K) (g g1 : Game K) (i : Nat) (info : CollisionInfo K)
    (hr : resolve sqrtK g i info = .ok g1) (k : Nat) :
    (g1.rectangles k).dims = (g.rectangles k).dims ∧
      (g1.rectangles k).pos = (g.rectangles k).pos := by
  by_cases hk : k = i
  · subst hk
    by_cases hi : k ≠ RECT_COUNT_X * RECT_COUNT_Y
    · rw [resolve_brick sqrtK g k info hi] at hr
      injection hr with hr
      subst hr
      rw [recolor_rectangles, normalize_velocity_rectangles, Game.store_rectangles,
        reflect_rectangles]
      split_ifs <;> exact ⟨rfl, rfl⟩
    · have hi' : k = RECT_COUNT_X * RECT_COUNT_Y := not_not.mp hi
      subst hi'
      by_cases hd : info.side = .DOWN
      · rw [resolve_slider_down sqrtK g info hd] at hr
        cases hr
      · rw [resolve_slider sqrtK g info hd] at hr
        injection hr with hr
        subst hr
        rw [recolor_rectangles, normalize_velocity_rectangles]
        have e : (if info.side = .UP then slider_up (reflect g info.side)
            else reflect g info.side).rectangles = g.rectangles := by
          split
          · rw [slider_up_rectangles, reflect_rectangles]
          · rw [reflect_rectangles]
        rw [e]
        split_ifs <;> exact ⟨rfl, rfl⟩
  · rw [resolve_frame sqrtK g g1 i info hr k hk]
    exact ⟨rfl, rfl⟩

/-- The call changes neither the dimensions nor the position of any
rectangle. -/
theorem check_collisions_geometry (sqrtK : K → K) (g g' : Game K)
    (h : check_collisions sqrtK g = .ok g') (k : Nat) :
    (g'.rectangles k).dims = (g.rectangles k).dims ∧
      (g'.rectangles k).pos = (g.rectangles k).pos := by
  rcases hits_none_or_first sqrtK g with hn | ⟨i, hi⟩
  · rw [check_collisions_of_no_hit sqrtK g hn] at h
    injection h with h
    subst h
    rw [walls_rectangles]
    exact ⟨rfl, rfl⟩
  · obtain ⟨g1, h1, rfl⟩ := check_collisions_ok sqrtK g g' h
    rw [scan_of_firstHit sqrtK g i hi] at h1
    rw [walls_rectangles]
    exact resolve_geometry sqrtK g g1 i _ h1 k

/-! ## What the stray stores do is never changed -/

theorem reflect_stray (g : Game K) (side : CollisionSide) : (reflect g side).stray = g.stray := by
  unfold reflect
  split <;> rfl

theorem slider_up_stray (g : Game K) : (slider_up g).stray = g.stray := by
  unfold slider_up
  split <;> rfl

theorem walls_stray (g : Game K) : (walls g).stray = g.stray := by
  cases g with
  | mk b rs n st =>
    simp only [walls, Game.setVx, Game.setVy]
    split_ifs <;> rfl

theorem recolor_stray (g : Game K) (i : Nat) : (recolor g i).stray = g.stray := by
  unfold recolor
  simp only [Game.rand, Game.store_stray]

theorem resolve_stray (sqrtK : K → K) (g g1 : Game K) (i : Nat) (info : CollisionInfo K)
    (hr : resolve sqrtK g i info = .ok g1) : g1.stray = g.stray := by
  by_cases hi : i ≠ RECT_COUNT_X * RECT_COUNT_Y
  · rw [resolve_brick sqrtK g i info hi] at hr
    injection hr with hr
    subst hr
    rw [recolor_stray]
    show (Game.store _ _ _).stray = _
    rw [Game.store_stray, reflect_stray]
  · have hi' : i = RECT_COUNT_X * RECT_COUNT_Y := not_not.mp hi
    subst hi'
    by_cases hd : info.side = .DOWN
    · rw [resolve_slider_down sqrtK g info hd] at hr
      cases hr
    · rw [resolve_slider sqrtK g info hd] at hr
      injection hr with hr
      subst hr
      rw [recolor_stray]
      show (if info.side = .UP then slider_up (reflect g info.side)
        else reflect g info.side).stray = _
      split
      · rw [slider_up_stray, reflect_stray]
      · rw [reflect_stray]

theorem check_collisions_stray (sqrtK : K → K) (g g' : Game K)
    (h : check_collisions sqrtK g = .ok g') : g'.stray = g.stray := by
  rcases hits_none_or_first sqrtK g with hn | ⟨i, hi⟩
  · rw [check_collisions_of_no_hit sqrtK g hn] at h
    injection h with h
    subst h
    exact walls_stray g
  · obtain ⟨g1, h1, rfl⟩ := check_collisions_ok sqrtK g g' h
    rw [scan_of_firstHit sqrtK g i hi] at h1
    rw [walls_stray]
    exact resolve_stray sqrtK g g1 i _ h1

/-! ## The loop never throws -/

/-- An event changes neither the height and the dimensions of the slider, nor
the height and the radius of the ball, nor what the stray stores do. -/
theorem gameInv_handle_event (a : App K) (e : Event) (h : GameInv a.game) :
    GameInv (handle_event a e).game ∧ (handle_event a e).game.ball.y = a.game.ball.y ∧
      (handle_event a e).game.ball.radius = a.game.ball.radius ∧
      (handle_event a e).game.stray = a.game.stray := by
  cases e with
  | quit => exact ⟨h, rfl, rfl, rfl⟩
  | mouseMotion x =>
    refine ⟨⟨?_, ?_⟩, ?_, ?_, ?_⟩
    · show (pointer_motion a.game x).slider_rectangle.pos.y = _
      rw [pointer_motion_slider]
      exact h.1
    · show (pointer_motion a.game x).slider_rectangle.dims = _
      rw [pointer_motion_slider]
      exact h.2
    · show (pointer_motion a.game x).ball.y = _
      unfold pointer_motion
      rw [Game.store_ball]
    · show (pointer_motion a.game x).ball.radius = _
      unfold pointer_motion
      rw [Game.store_ball]
    · show (pointer_motion a.game x).stray = _
      unfold pointer_motion
      rw [Game.store_stray]
  | mouseButtonUp =>
    show GameInv (if a.ball_attached = true then _ else a).game ∧
      (if a.ball_attached = true then _ else a).game.ball.y = _ ∧
      (if a.ball_attached = true then _ else a).game.ball.radius = _ ∧
      (if a.ball_attached = true then _ else a).game.stray = _
    split
    · exact ⟨h, rfl, rfl, rfl⟩
    · exact ⟨h, rfl, rfl, rfl⟩
  | other => exact ⟨h, rfl, rfl, rfl⟩

theorem gameInv_events (events : List Event) :
    ∀ a : App K, GameInv a.game →
      GameInv (events.foldl handle_event a).game ∧
      (events.foldl handle_event a).game.ball.y = a.game.ball.y ∧
      (events.foldl handle_event a).game.ball.radius = a.game.ball.radius ∧
      (events.foldl handle_event a).game.stray = a.game.stray := by
  induction events with
  | nil => intro a h; exact ⟨h, rfl, rfl, rfl⟩
  | cons e es ih =>
    intro a h
    rw [List.foldl_cons]
    have h1 := gameInv_handle_event a e h
    have h2 := ih _ h1.1
    exact ⟨h2.1, h2.2.1.trans h1.2.1, h2.2.2.1.trans h1.2.2.1, h2.2.2.2.trans h1.2.2.2⟩

theorem playInv_events [FloorRing K] (fl : K → Flt K) (events : List Event) (a : App K)
    (h : PlayInv fl a) : PlayInv fl (events.foldl handle_event a) := by
  obtain ⟨h1, h2, h3, h4⟩ := gameInv_events events a h.2.1
  refine ⟨by rw [h2]; exact h.1, h1, ?_, by rw [h4]; exact h.2.2.2⟩
  unfold AttachOk
  rw [h3]
  exact h.2.2.1

/-- With the ball not below the screen, a collision with the slider is not on
the side DOWN and the call returns. -/
theorem check_collisions_ok_of_inv {sqrtK : K → K} (hs : IsSqrt sqrtK) (g : Game K)
    (hy : g.ball.y ≤ (SCREEN_HEIGHT : Int))
    (hp : g.slider_rectangle.pos.y = (SCREEN_HEIGHT : Int) - 20)
    (hd : g.slider_rectangle.dims = ⟨100, 20⟩) :
    ((check_collision sqrtK g.ball g.slider_rectangle).collided = true →
      (check_collision sqrtK g.ball g.slider_rectangle).side ≠ .DOWN) ∧
    ∃ g', check_collisions sqrtK g = .ok g' := by
  have hside : (check_collision sqrtK g.ball g.slider_rectangle).collided = true →
      (check_collision sqrtK g.ball g.slider_rectangle).side ≠ .DOWN := by
    intro hc
    refine side_ne_down hs g.ball g.slider_rectangle ?_ hc
    apply offset_nonneg
    · rw [hd]
      decide
    · rw [hp, hd]
      have e : (SCREEN_HEIGHT : Int) = 480 := rfl
      have e2 : (20 : Int).tdiv 2 = 10 := by decide
      rw [e] at hy ⊢
      simp only [e2]
      omega
  refine ⟨hside, check_collisions_ok_of_not_down sqrtK g ?_⟩
  rintro ⟨hf, hdn⟩
  exact hside hf.2.1.2 hdn

theorem gameInv_of_check_collisions (sqrtK : K → K) (g g' : Game K)
    (h : check_collisions sqrtK g = .ok g') (hg : GameInv g) : GameInv g' := by
  have hr := check_collisions_geometry sqrtK g g' h (RECT_COUNT_X * RECT_COUNT_Y)
  refine ⟨?_, ?_⟩
  · show (g'.rectangles (RECT_COUNT_X * RECT_COUNT_Y)).pos.y = _
    rw [hr.2]
    exact hg.1
  · show (g'.rectangles (RECT_COUNT_X * RECT_COUNT_Y)).dims = _
    rw [hr.1]
    exact hg.2

theorem gameInv_attach_ball [FloorRing K] (fl : K → Flt K) (g : Game K) (hg : GameInv g) :
    GameInv (attach_ball fl g) :=
  hg

theorem attach_ball_y [FloorRing K] (fl : K → Flt K) (g : Game K) (hg : GameInv g)
    (ha : AttachOk fl g.ball) : (attach_ball fl g).ball.y ≤ (SCREEN_HEIGHT : Int) := by
  show Flt.toInt (anchored fl g.slider_rectangle.pos.y g.ball.radius) ≤ _
  rw [hg.1]
  exact ha

theorem gameInv_fill_primitives (g : Game K) : GameInv (fill_primitives g) := by
  unfold GameInv
  rw [fill_primitives_slider]
  exact ⟨by decide, rfl⟩

theorem attachOk_ten [FloorRing K] (fl : K → Flt K) (hfl : ExactOnInts fl) (b : Ball K)
    (h : b.radius = Flt.ofInt 10) : AttachOk fl b := by
  unfold AttachOk
  rw [h, anchored_int fl hfl _ 10 (by decide) (by decide),
    Flt.toInt_intCast _ (by decide) (by decide)]
  decide

theorem attachOk_fill_primitives [FloorRing K] (fl : K → Flt K) (hfl : ExactOnInts fl)
    (g : Game K) (h : TameStray fl g.stray) : AttachOk fl (fill_primitives g).ball :=
  fill_primitives_ball_inv (AttachOk fl) g (fun i r b h1 h2 hb => (h i r b h1 h2).2 hb)
    (fun _ _ _ => attachOk_ten fl hfl _ rfl)

/-- The update of an iteration: when it starts with the slider at its height
and the ball not below the screen, it returns, and it changes neither the
geometry of the slider, nor the radius, nor what the stray stores do. -/
theorem update_ok_of_inv [FloorRing K] {sqrtK : K → K} (hs : IsSqrt sqrtK) (fl : K → Flt K)
    (dt : Flt K) (events : List Event) (a : App K) (hg : GameInv a.game)
    (hy : a.game.ball.y ≤ (SCREEN_HEIGHT : Int)) :
    ∃ a1, update fl sqrtK dt events a = .ok a1 ∧ GameInv a1.game ∧
      a1.game.ball.radius = a.game.ball.radius ∧ a1.game.stray = a.game.stray := by
  obtain ⟨h1, h2, h3, h4⟩ := gameInv_events events a hg
  unfold update
  simp only []
  split
  · exact ⟨_, rfl, h1, h3, h4⟩
  · obtain ⟨g', hg'⟩ := (check_collisions_ok_of_inv hs _ (by rw [h2]; exact hy) h1.1 h1.2).2
    have hinv := gameInv_of_check_collisions sqrtK _ g' hg' h1
    have hb := check_collisions_ball_keeps sqrtK _ g' hg'
    have hst := check_collisions_stray sqrtK _ g' hg'
    unfold move_ball
    rw [hg']
    exact ⟨_, rfl, hinv, hb.2.2.1.trans h3, hst.trans h4⟩

/-- The reset check leaves the ball attached or not below the screen. -/
theorem end_of_tick_attached_or_above [FloorRing K] (fl : K → Flt K) (a : App K) :
    (a.game.ball.y > (SCREEN_HEIGHT : Int) → (end_of_tick fl a).ball_attached = true) ∧
    ((end_of_tick fl a).ball_attached = true ∨
      (end_of_tick fl a).game.ball.y ≤ (SCREEN_HEIGHT : Int)) := by
  by_cases hb : a.game.ball.y > (SCREEN_HEIGHT : Int)
  · exact ⟨fun _ => (end_of_tick_reset fl a hb).1, Or.inl (end_of_tick_reset fl a hb).1⟩
  · rw [end_of_tick_no_reset fl a hb]
    exact ⟨fun h => absurd h hb, Or.inr (not_lt.mp hb)⟩

theorem gameInv_end_of_tick [FloorRing K] (fl : K → Flt K) (a : App K) (h : GameInv a.game) :
    GameInv (end_of_tick fl a).game := by
  by_cases hb : a.game.ball.y > (SCREEN_HEIGHT : Int)
  · unfold GameInv
    rw [(end_of_tick_reset fl a hb).2.1]
    exact ⟨by decide, rfl⟩
  · rw [end_of_tick_no_reset fl a hb]
    exact h

/-- An iteration that starts with the slider at its height and the ball not
below the screen returns; it leaves the slider at its height, and the ball
not below the screen unless it is attached. -/
theorem tick_ok_of_above [FloorRing K] {sqrtK : K → K} (hs : IsSqrt sqrtK) (fl : K → Flt K)
    (dt : Flt K) (events : List Event) (a : App K) (hg : GameInv a.game)
    (hy : a.game.ball.y ≤ (SCREEN_HEIGHT : Int)) :
    ∃ frame a1, tick fl sqrtK dt events a = .ok (frame, a1) ∧ GameInv a1.game ∧
      (a1.ball_attached = false → a1.game.ball.y ≤ (SCREEN_HEIGHT : Int)) := by
  obtain ⟨a1, h1, h2, _⟩ := update_ok_of_inv hs fl dt events a hg hy
  refine ⟨render a1.game, end_of_tick fl a1, ?_, gameInv_end_of_tick fl a1 h2, ?_⟩
  · unfold tick
    rw [h1]
    rfl
  · intro hna
    rcases (end_of_tick_attached_or_above fl a1).2 with h | h
    · rw [hna] at h
      cases h
    · exact h

theorem playInv_end_of_tick [FloorRing K] (fl : K → Flt K) (hfl : ExactOnInts fl) (a : App K)
    (hg : GameInv a.game) (ha : AttachOk fl a.game.ball) (ht : TameStray fl a.game.stray) :
    PlayInv fl (end_of_tick fl a) := by
  by_cases hb : a.game.ball.y > (SCREEN_HEIGHT : Int)
  · obtain ⟨_, h2, _, h4, h5, h6⟩ := end_of_tick_reset fl a hb
    have hok := attachOk_fill_primitives fl hfl a.game ht
    refine ⟨?_, gameInv_end_of_tick fl a hg, ?_, by rw [h6]; exact ht⟩
    · rw [h4]
      exact hok
    · unfold AttachOk
      rw [h5]
      exact hok
  · rw [end_of_tick_no_reset fl a hb]
    exact ⟨not_lt.mp hb, hg, ha, ht⟩

theorem tick_ok_of_inv [FloorRing K] {sqrtK : K → K} (hs : IsSqrt sqrtK) (fl : K → Flt K)
    (hfl : ExactOnInts fl) (dt : Flt K) (events : List Event) (a : App K) (h : PlayInv fl a) :
    ∃ frame a1, tick fl sqrtK dt events a = .ok (frame, a1) ∧ PlayInv fl a1 := by
  obtain ⟨a1, h1, h2, h3, h4⟩ := update_ok_of_inv hs fl dt events a h.2.1 h.1
  have ha : AttachOk fl a1.game.ball := by
    unfold AttachOk
    rw [h3]
    exact h.2.2.1
  refine ⟨render a1.game, end_of_tick fl a1, ?_,
    playInv_end_of_tick fl hfl a1 h2 ha (by rw [h4]; exact h.2.2.2)⟩
  unfold tick
  rw [h1]
  rfl

theorem run_ok_of_inv [FloorRing K] {sqrtK : K → K} (hs : IsSqrt sqrtK) (fl : K → Flt K)
    (hfl : ExactOnInts fl) :
    ∀ (inputs : List (Flt K × List Event)) (a : App K), PlayInv fl a →
      ∃ a', run fl sqrtK inputs a = .ok a' ∧ PlayInv fl a' := by
  intro inputs
  induction inputs with
  | nil => intro a h; exact ⟨a, rfl, h⟩
  | cons p rest ih =>
    intro a h
    obtain ⟨dt, events⟩ := p
    rw [run]
    split
    · exact ⟨a, rfl, h⟩
    · obtain ⟨frame, a1, h1, h2⟩ := tick_ok_of_inv hs fl hfl dt events a h
      rw [h1]
      exact ih a1 h2

theorem playInv_main_start [FloorRing K] (fl : K → Flt K) (hfl : ExactOnInts fl)
    (rng : Nat → Nat) (stray : Nat → Rectangle → Ball K → Ball K) (ht : TameStray fl stray) :
    PlayInv fl (main_start K rng stray) := by
  refine ⟨?_, gameInv_fill_primitives _, attachOk_fill_primitives fl hfl _ ht, ?_⟩
  · exact fill_primitives_ball_inv (fun b => b.y ≤ (SCREEN_HEIGHT : Int))
      ((initial_globals K rng).withStray stray)
      (fun i r b h1 h2 hb => (ht i r b h1 h2).1 hb)
      (fun _ _ _ => by
        show (0 : Int) ≤ (SCREEN_HEIGHT : Int)
        decide)
  · have : (main_start K rng stray).game.stray = stray :=
      fill_primitives_stray ((initial_globals K rng).withStray stray)
    rw [this]
    exact ht

/-! ## The slider's effect on `vx` -/

theorem IsSqrt.mul_self {sqrtK : K → K} (hs : IsSqrt sqrtK) {r : K} (hr : 0 ≤ r) :
    sqrtK (r * r) = r := by
  obtain ⟨h0, h1⟩ := hs (r * r) (mul_self_nonneg r)
  rcases (mul_self_eq_mul_self_iff.mp h1) with h | h
  · exact h
  · have : sqrtK (r * r) = 0 := by linarith
    have : r = 0 := by linarith
    linarith

/-- The horizontal velocity after lines 250-268, for a finite `vx = a` and a
slider of non-zero width `w`: with `c` the clamped offset of the centre of the
slider from the ball and `m = |c| / w / 2`, it is `-a` when
`(centre - ball.x) * a > 0` and `m > 0.1`, and otherwise `a + m` for `a > 0` and
`a - m` for `a <= 0`. -/
theorem slider_up_vx (g : Game K) (a : K) (hvx : g.ball.vx = Flt.fin a)
    (hw : g.slider_rectangle.dims.w ≠ 0) :
    (slider_up g).ball.vx =
      (if 0 < ((g.slider_rectangle.pos.x + g.slider_rectangle.dims.w.tdiv 2 - g.ball.x : Int) : K)
            * a ∧
          1 / 10 < |((clamped_center_offset g : Int) : K)| / (g.slider_rectangle.dims.w : K) / 2
        then Flt.fin (-a)
        else Flt.fin (a + (if 0 < a
          then |((clamped_center_offset g : Int) : K)| / (g.slider_rectangle.dims.w : K) / 2
          else -(|((clamped_center_offset g : Int) : K)| / (g.slider_rectangle.dims.w : K) / 2)))) ∧
    (slider_up g).ball.vy = g.ball.vy := by
  have hd := dist_from_center_normalized_eq g hw
  have hb := ball_to_center_x_eq g
  constructor
  · unfold slider_up
    rw [hd, hb, hvx]
    simp only [Flt.fin_mul_fin, GT.gt, Flt.ofInt_eq, Int.cast_zero, Flt.fin_lt_fin, Int.cast_neg,
      Int.cast_one, Flt.neg_fin]
    split
    · simp
    · by_cases ha : 0 < a
      · simp [ha]
      · simp [ha]
  · unfold slider_up
    split <;> rfl

theorem clamped_center_offset_reflect (g : Game K) (side : CollisionSide) :
    clamped_center_offset (reflect g side) = clamped_center_offset g ∧
      (reflect g side).slider_rectangle = g.slider_rectangle ∧
      (reflect g side).ball.x = g.ball.x := by
  unfold reflect
  split <;> exact ⟨rfl, rfl, rfl⟩

/-- The loop of `check_collisions` when the first hit is the slider on the side
UP. -/
theorem scan_slider_up (sqrtK : K → K) (g : Game K)
    (hf : FirstHit sqrtK g (RECT_COUNT_X * RECT_COUNT_Y))
    (hu : (check_collision sqrtK g.ball (g.rectangles (RECT_COUNT_X * RECT_COUNT_Y))).side =
      .UP) :
    scan sqrtK g RECT_SLOTS 0 =
      .ok (recolor (normalize_velocity sqrtK (slider_up (reflect g .UP)))
        (RECT_COUNT_X * RECT_COUNT_Y)) := by
  rw [scan_of_firstHit sqrtK g _ hf, resolve_slider sqrtK g _ (by rw [hu]; decide), hu]
  rfl

theorem offset_le (c p d : Int) (hd : 0 ≤ d) : offset c p d ≤ p + d - c := by
  unfold offset
  rw [Int.neg_tdiv]
  have h3 : 0 ≤ d.tdiv 2 ∧ 2 * d.tdiv 2 ≤ d := by
    rw [Int.tdiv_eq_ediv hd (by decide)]
    omega
  omega

set_option maxRecDepth 100000 in
theorem laid_out_bound : ∀ i, i < RECT_COUNT_X * RECT_COUNT_Y →
    0 ≤ (laid_out_board i).dims.h ∧
      (laid_out_board i).pos.y + (laid_out_board i).dims.h ≤ 240 := by
  decide

/-- A ball of radius 10 at the height 450 collides with none of the bricks as
laid out. -/
theorem no_brick_hit_at_450 {sqrtK : K → K} (hs : IsSqrt sqrtK) (g : Game K)
    (hr : g.ball.radius = Flt.fin 10) (hy : g.ball.y = 450) (hl : LaidOut g) (i : Nat)
    (hi : i < RECT_COUNT_X * RECT_COUNT_Y) : ¬ Hits sqrtK g i := by
  intro hh
  have hc := (collided_iff_sqdist hs g.ball (g.rectangles i) 10 hr (by norm_num)).mp hh.2
  obtain ⟨h1, h2⟩ := laid_out_bound i hi
  obtain ⟨e1, e2⟩ := hl i hi
  have ho := offset_le g.ball.y (g.rectangles i).pos.y (g.rectangles i).dims.h
    (by rw [e1]; exact h1)
  rw [e1, e2, hy] at ho
  have hneg : offset g.ball.y (g.rectangles i).pos.y (g.rectangles i).dims.h ≤ -210 := by
    rw [e1, e2, hy]
    omega
  have hsq : (100 : Int) < sqdist g.ball.x g.ball.y (g.rectangles i) := by
    unfold sqdist
    nlinarith [mul_self_nonneg (offset g.ball.x (g.rectangles i).pos.x (g.rectangles i).dims.w)]
  have : ((100 : Int) : K) < ((sqdist g.ball.x g.ball.y (g.rectangles i) : Int) : K) := by
    exact_mod_cast hsq
  have e : (10 : K) * 10 = ((100 : Int) : K) := by norm_num
  rw [e] at hc
  exact absurd hc (not_le.mpr this)

/-! ## The first tick after the launch -/

/-- The first call of `check_collisions` after a launch from the attached
position. -/
theorem launch_tick {sqrtK : K → K} (hs : IsSqrt sqrtK) (g : Game K) (px : Int)
    (hpos : g.slider_rectangle.pos = ⟨px, (SCREEN_HEIGHT : Int) - 20⟩)
    (hdims : g.slider_rectangle.dims = ⟨100, 20⟩) (hact : g.slider_rectangle.active = true)
    (hpx0 : 0 ≤ px) (hpx1 : px ≤ (SCREEN_WIDTH : Int) - 100)
    (hbx : g.ball.x = px + 50) (hby : g.ball.y = 450) (hr : g.ball.radius = Flt.fin 10)
    (hvx : g.ball.vx = Flt.fin (1 / 4)) (hvy : g.ball.vy = Flt.fin (-3 / 4)) (hl : LaidOut g) :
    dist_to_closest sqrtK g.ball g.slider_rectangle = Flt.fin 10 ∧
    FirstHit sqrtK g (RECT_COUNT_X * RECT_COUNT_Y) ∧
    (check_collision sqrtK g.ball g.slider_rectangle).side = .UP ∧
    ∃ g', check_collisions sqrtK g = .ok g' ∧
      g'.ball.vx = Flt.fin (1 / 4 / sqrtK (1 / 4 * (1 / 4) + 3 / 4 * (3 / 4))) ∧
      g'.ball.vy = Flt.fin (3 / 4 / sqrtK (1 / 4 * (1 / 4) + 3 / 4 * (3 / 4))) := by
  have e100 : (100 : Int).tdiv 2 = 50 := by decide
  have eH : (SCREEN_HEIGHT : Int) = 480 := rfl
  have eW : (SCREEN_WIDTH : Int) = 640 := rfl
  have hposx : g.slider_rectangle.pos.x = px := by rw [hpos]
  have hposy : g.slider_rectangle.pos.y = 460 := by rw [hpos, eH]; rfl
  have hw : g.slider_rectangle.dims.w = 100 := by rw [hdims]
  have hh : g.slider_rectangle.dims.h = 20 := by rw [hdims]
  -- the offset is (0, 10)
  have hox : offset g.ball.x g.slider_rectangle.pos.x g.slider_rectangle.dims.w = 0 := by
    rw [hbx, hposx, hw]
    unfold offset
    rw [Int.neg_tdiv, e100]
    omega
  have hoy : offset g.ball.y g.slider_rectangle.pos.y g.slider_rectangle.dims.h = 10 := by
    rw [hby, hposy, hh]
    decide
  have hcx : ball_to_closest_x g.ball g.slider_rectangle = Flt.fin 0 := by
    rw [ball_to_closest_x_eq, hox]
    simp
  have hcy : ball_to_closest_y g.ball g.slider_rectangle = Flt.fin 10 := by
    rw [ball_to_closest_y_eq, hoy]
    simp
  have hdist : dist_to_closest sqrtK g.ball g.slider_rectangle = Flt.fin 10 := by
    rw [dist_to_closest_of_fin sqrtK _ _ 0 10 hcx hcy]
    have : (0 : K) * 0 + 10 * 10 = 10 * 10 := by ring
    rw [this, hs.mul_self (by norm_num)]
  have hcol : (check_collision sqrtK g.ball g.slider_rectangle).collided = true := by
    rw [collided_iff_not_lt, hdist, hr]
    simp [GT.gt]
  have hside : (check_collision sqrtK g.ball g.slider_rectangle).side = .UP :=
    (side_table hs _ _ 0 10 hcx hcy hcol).2.2.1 ⟨rfl, by norm_num⟩
  have hfirst : FirstHit sqrtK g (RECT_COUNT_X * RECT_COUNT_Y) :=
    ⟨by decide, ⟨hact, hcol⟩, fun j hj => no_brick_hit_at_450 hs g hr hby hl j hj⟩
  refine ⟨hdist, hfirst, hside, ?_⟩
  have hscan := scan_slider_up sqrtK g hfirst hside
  obtain ⟨hrv, _⟩ := reflect_velocity g .UP (1 / 4) (-3 / 4) hvx hvy
  obtain ⟨hr1, hr2⟩ := hrv (Or.inl rfl)
  obtain ⟨hc1, hc2, hc3⟩ := clamped_center_offset_reflect g .UP
  have hcco : clamped_center_offset (reflect g .UP) = 0 := by
    rw [hc1]
    unfold clamped_center_offset
    rw [hposx, hw, hbx, Int.neg_tdiv, e100]
    omega
  obtain ⟨hs1, hs2⟩ := slider_up_vx (reflect g .UP) (1 / 4) hr1 (by rw [hc2, hw]; decide)
  rw [hcco, hc2, hc3, hposx, hw, hbx] at hs1
  have hs1' : (slider_up (reflect g .UP)).ball.vx = Flt.fin (1 / 4) := by
    rw [hs1]
    have : ((px + (100 : Int).tdiv 2 - (px + 50) : Int) : K) = 0 := by
      rw [e100]
      simp
    rw [this]
    norm_num
  have hs2' : (slider_up (reflect g .UP)).ball.vy = Flt.fin (3 / 4) := by
    rw [hs2, hr2]
    norm_num
  obtain ⟨hn1, hn2⟩ := normalize_velocity_fin hs (slider_up (reflect g .UP)) (1 / 4) (3 / 4)
    hs1' hs2' (Or.inl (by norm_num))
  have hkeep1 := reflect_ball_keeps g .UP
  have hkeep2 := slider_up_ball_keeps (reflect g .UP)
  have hkeep3 := normalize_velocity_ball_keeps sqrtK (slider_up (reflect g .UP))
  refine ⟨walls (recolor (normalize_velocity sqrtK (slider_up (reflect g .UP)))
    (RECT_COUNT_X * RECT_COUNT_Y)), ?_, ?_, ?_⟩
  · unfold check_collisions
    rw [hscan]
    rfl
  · rw [walls_radius_ten _ (by
      rw [recolor_ball, hkeep3.2.2.1, hkeep2.2.2.1, hkeep1.2.2.1]
      exact hr)]
    simp only [Game.setVy_vx, Game.setVx_vx, recolor_ball, hkeep3.1, hkeep2.1, hkeep1.1, hbx, eW,
      hn1]
    rw [if_neg]
    rintro (⟨h1, _⟩ | ⟨h1, _⟩) <;> omega
  · rw [walls_radius_ten _ (by
      rw [recolor_ball, hkeep3.2.2.1, hkeep2.2.2.1, hkeep1.2.2.1]
      exact hr)]
    simp only [Game.setVy_vy, recolor_ball, hkeep3.2.1, hkeep2.2.1, hkeep1.2.1, hby, hn2]
    rw [if_neg (by omega)]

set_option maxRecDepth 100000 in
theorem laid_out_main_start :
    ∀ i, i < RECT_COUNT_X * RECT_COUNT_Y →
      ((fill_primitives (initial_globals ℝ fun _ => 0)).rectangles i).dims =
          (laid_out_board i).dims ∧
        ((fill_primitives (initial_globals ℝ fun _ => 0)).rectangles i).pos =
          (laid_out_board i).pos := by
  decide

/-- The state after the launch in the first round is the attached position
with the launch velocity, on the board as laid out. -/
theorem launch_state_eq :
    (launch_state ℝ fun _ => 0).slider_rectangle.pos = ⟨270, (SCREEN_HEIGHT : Int) - 20⟩ ∧
    (launch_state ℝ fun _ => 0).slider_rectangle.dims = ⟨100, 20⟩ ∧
    (launch_state ℝ fun _ => 0).slider_rectangle.active = true ∧
    (launch_state ℝ fun _ => 0).ball.x = 270 + 50 ∧
    (launch_state ℝ fun _ => 0).ball.y = 450 ∧
    (launch_state ℝ fun _ => 0).ball.radius = Flt.fin 10 ∧
    (launch_state ℝ fun _ => 0).ball.vx = Flt.fin (1 / 4) ∧
    (launch_state ℝ fun _ => 0).ball.vy = Flt.fin (-3 / 4) ∧
    LaidOut (launch_state ℝ fun _ => 0) := by
  have e : launch_state ℝ (fun _ => 0) =
      ((attach_ball Flt.fin (fill_primitives (initial_globals ℝ fun _ => 0))).setVy
        (Flt.fin (-(3 / 4)))).setVx (Flt.fin (1 / 4)) := by
    unfold launch_state main_start
    rw [initial_globals_withStray]
    rfl
  have hb := fill_primitives_ball (initial_globals ℝ fun _ => 0) (fun _ _ _ => rfl)
  have hrad : (fill_primitives (initial_globals ℝ fun _ => 0)).ball.radius = Flt.ofInt 10 := hb.1
  have hs := fill_primitives_slider (initial_globals ℝ fun _ => 0)
  obtain ⟨h1, h2, h3⟩ := attach_ball_eq Flt.fin exactOnInts_fin
    (fill_primitives (initial_globals ℝ fun _ => 0)) 10 hrad
    (by rw [hs]; decide) (by rw [hs]; decide)
  rw [e]
  simp only [Game.setVx_slider, Game.setVy_slider, Game.setVx_x, Game.setVy_x, Game.setVx_y,
    Game.setVy_y, Game.setVx_radius, Game.setVy_radius, Game.setVx_vx, Game.setVx_vy,
    Game.setVy_vy, attach_ball_slider, attach_ball_radius, h1, h2, hs, hrad]
  refine ⟨rfl, trivial, trivial, by decide, by decide, by simp, trivial, ?_, ?_⟩
  · norm_num
  · intro i hi
    simp only [Game.setVx_rectangles, Game.setVy_rectangles, h3]
    exact laid_out_main_start i hi

/-! ## The move of the ball -/

theorem Flt.trunc_sub_lt [FloorRing K] (q : K) : |((Flt.trunc q : Int) : K) - q| < 1 := by
  unfold Flt.trunc
  split
  · rw [abs_lt]
    constructor
    · have := Int.lt_floor_add_one q
      linarith
    · have := Int.floor_le q
      linarith
  · rw [abs_lt]
    constructor
    · have := Int.le_ceil q
      linarith
    · have := Int.ceil_lt_add_one q
      linarith

theorem Flt.trunc_of_nonneg [FloorRing K] (q : K) (h : 0 ≤ q) : Flt.trunc q = ⌊q⌋ := by
  unfold Flt.trunc
  rw [if_pos h]

/-- The conversion to `int` of a finite value in the range of `int`: it is the
integer part, less than 1 away from the value and not farther from 0. -/
theorem Flt.toInt_fin_in_range [FloorRing K] (q : K) (h0 : -2147483649 < q)
    (h1 : q < 2147483648) :
    Flt.toInt (Flt.fin q) = Flt.trunc q ∧ |((Flt.toInt (Flt.fin q) : Int) : K) - q| < 1 ∧
      |((Flt.toInt (Flt.fin q) : Int) : K)| ≤ |q| := by
  have ht : Flt.toInt (Flt.fin q) = Flt.trunc q := by
    rw [Flt.toInt_fin, if_pos]
    unfold Flt.trunc
    split
    · rename_i hq
      constructor
      · have : (0 : Int) ≤ ⌊q⌋ := Int.floor_nonneg.mpr hq
        omega
      · have : ⌊q⌋ < 2147483648 := Int.floor_lt.mpr (by exact_mod_cast h1)
        omega
    · rename_i hq
      constructor
      · have : (-2147483649 : Int) < ⌈q⌉ := Int.lt_ceil.mpr (by exact_mod_cast h0)
        omega
      · have : ⌈q⌉ ≤ 0 := Int.ceil_le.mpr (by exact_mod_cast (le_of_lt (not_le.mp hq)))
        omega
  refine ⟨ht, by rw [ht]; exact Flt.trunc_sub_lt q, ?_⟩
  rw [ht]
  unfold Flt.trunc
  split
  · rename_i hq
    rw [abs_of_nonneg hq, abs_of_nonneg (by exact_mod_cast Int.floor_nonneg.mpr hq)]
    exact Int.floor_le q
  · rename_i hq
    have hq' : q ≤ 0 := le_of_lt (not_le.mp hq)
    have : ((⌈q⌉ : Int) : K) ≤ 0 := by exact_mod_cast Int.ceil_le.mpr (by exact_mod_cast hq')
    rw [abs_of_nonpos hq', abs_of_nonpos this]
    have := Int.le_ceil q
    linarith

/-- The centre `move_ball` leaves: the sums as the code computes them,
converted to `int`. -/
theorem move_ball_eq [FloorRing K] (fl : K → Flt K) (sqrtK : K → K) (dt : Flt K)
    (g g1 : Game K) (h : check_collisions sqrtK g = .ok g1) :
    ∃ g2, move_ball fl sqrtK dt g = .ok g2 ∧
      g2.ball.x = Flt.toInt (displaced fl g.ball.x dt g1.ball.vx g.ball.speed) ∧
      g2.ball.y = Flt.toInt (displaced fl g.ball.y dt g1.ball.vy g.ball.speed) ∧
      g2.ball.vx = g1.ball.vx ∧ g2.ball.vy = g1.ball.vy ∧ g2.rectangles = g1.rectangles := by
  obtain ⟨k1, k2, _, k4⟩ := check_collisions_ball_keeps sqrtK g g1 h
  unfold move_ball
  rw [h]
  refine ⟨_, rfl, ?_, ?_, rfl, rfl, rfl⟩
  · show Flt.toInt (displaced fl g1.ball.x dt g1.ball.vx g1.ball.speed) = _
    rw [k4, k1]
  · show Flt.toInt (displaced fl g1.ball.y dt g1.ball.vy g1.ball.speed) = _
    rw [k4, k2]

/-- The call of `check_collisions` with the ball of radius 10 inside the
screen, away from the walls and from the slider, and no brick left: nothing
changes. -/
theorem check_collisions_cleared_board (x y : Int) (vx vy : ℝ)
    (h : 100 < sqdist x y (rect_at 270 460 100 20)) (hx0 : 10 ≤ x) (hx1 : x ≤ 630)
    (hy0 : 10 ≤ y) :
    check_collisions Real.sqrt (game_of ℝ (ball_at ℝ x y vx vy) cleared_board) =
      .ok (game_of ℝ (ball_at ℝ x y vx vy) cleared_board) := by
  rw [check_collisions_of_no_hit Real.sqrt _ (no_hit_cleared_board x y vx vy h),
    walls_radius_ten _ rfl]
  have e1 : (game_of ℝ (ball_at ℝ x y vx vy) cleared_board).ball.x = x := rfl
  have e2 : (game_of ℝ (ball_at ℝ x y vx vy) cleared_board).ball.y = y := rfl
  have e3 : (SCREEN_WIDTH : Int) = 640 := rfl
  simp only [e1, e2, e3]
  rw [if_neg (by rintro (⟨h1, _⟩ | ⟨h1, _⟩) <;> omega), if_neg (by omega)]
  rfl

/-! ## The slider hit on concrete states -/

theorem side_up_cleared_board (x : Int) (vx vy : ℝ) (h0 : 270 ≤ x) (h1 : x ≤ 370) :
    FirstHit Real.sqrt (game_of ℝ (ball_at ℝ x 450 vx vy) cleared_board)
        (RECT_COUNT_X * RECT_COUNT_Y) ∧
      (check_collision Real.sqrt (game_of ℝ (ball_at ℝ x 450 vx vy) cleared_board).ball
        ((game_of ℝ (ball_at ℝ x 450 vx vy) cleared_board).rectangles
          (RECT_COUNT_X * RECT_COUNT_Y))).side = .UP := by
  have e100 : (100 : Int).tdiv 2 = 50 := by decide
  have ox : offset x (rect_at 270 460 100 20).pos.x (rect_at 270 460 100 20).dims.w = 0 := by
    show offset x 270 100 = 0
    unfold offset
    rw [Int.neg_tdiv, e100]
    omega
  have oy : offset 450 (rect_at 270 460 100 20).pos.y (rect_at 270 460 100 20).dims.h = 10 := by
    decide
  have hsq : sqdist x 450 (rect_at 270 460 100 20) ≤ 100 := by
    unfold sqdist
    rw [ox, oy]
    decide
  have hf := firstHit_cleared_board x 450 vx vy hsq
  refine ⟨hf, ?_⟩
  show (check_collision Real.sqrt (ball_at ℝ x 450 vx vy)
    (cleared_board (RECT_COUNT_X * RECT_COUNT_Y))).side = .UP
  rw [cleared_board_slider]
  have hx : ball_to_closest_x (ball_at ℝ x 450 vx vy) (rect_at 270 460 100 20) = Flt.fin 0 := by
    rw [(ball_to_closest_ball_at x 450 _ _ _).1, ox]
    simp
  have hy : ball_to_closest_y (ball_at ℝ x 450 vx vy) (rect_at 270 460 100 20) =
      Flt.fin 10 := by
    rw [(ball_to_closest_ball_at x 450 _ _ _).2, oy]
    simp
  exact (side_table isSqrt_real _ _ 0 10 hx hy
    (collided_ball_at x 450 _ _ _ hsq)).2.2.1 ⟨rfl, by norm_num⟩

/-- The clamped offset and the slider of the states used as examples. -/
theorem cleared_board_offset (x : Int) (vx vy : ℝ) (side : CollisionSide) :
    clamped_center_offset (reflect (game_of ℝ (ball_at ℝ x 450 vx vy) cleared_board) side) =
        Max.max (-50) (Min.min 50 (320 - x)) ∧
      (reflect (game_of ℝ (ball_at ℝ x 450 vx vy) cleared_board) side).slider_rectangle =
        rect_at 270 460 100 20 ∧
      (reflect (game_of ℝ (ball_at ℝ x 450 vx vy) cleared_board) side).ball.x = x := by
  obtain ⟨h1, h2, h3⟩ :=
    clamped_center_offset_reflect (game_of ℝ (ball_at ℝ x 450 vx vy) cleared_board) side
  have hs : (game_of ℝ (ball_at ℝ x 450 vx vy) cleared_board).slider_rectangle =
      rect_at 270 460 100 20 := cleared_board_slider
  refine ⟨?_, by rw [h2, hs], by rw [h3]; rfl⟩
  rw [h1]
  unfold clamped_center_offset
  rw [hs]
  show Max.max ((-100 : Int).tdiv 2) (Min.min ((100 : Int).tdiv 2)
    (270 + (100 : Int).tdiv 2 - x)) = _
  have e1 : (100 : Int).tdiv 2 = 50 := by decide
  have e2 : (-100 : Int).tdiv 2 = -50 := by decide
  rw [e1, e2, show (270 : Int) + 50 - x = 320 - x by omega]

theorem dist_from_center_normalized_reflect (g : Game K) (side : CollisionSide) :
    dist_from_center_normalized (reflect g side) = dist_from_center_normalized g := by
  obtain ⟨_, h2, h3⟩ := clamped_center_offset_reflect g side
  unfold dist_from_center_normalized ball_to_center_x
  rw [h2, h3]

theorem clamped_center_offset_hundred (g : Game K) (hw : g.slider_rectangle.dims.w = 100) :
    clamped_center_offset g =
      clamp_spec (g.slider_rectangle.pos.x + 50 - g.ball.x) (-50) 50 := by
  unfold clamped_center_offset clamp_spec
  rw [hw]
  have e1 : (100 : Int).tdiv 2 = 50 := by decide
  have e2 : (-100 : Int).tdiv 2 = -50 := by decide
  rw [e1, e2]

/-! ## The collision test with a rounded square root -/

theorem sqrtCompares_of_isSqrt {sqrtK : K → K} (hs : IsSqrt sqrtK) : SqrtCompares sqrtK := by
  intro n r _
  rw [hs.le_iff (Nat.cast_nonneg n) (Nat.cast_nonneg r)]
  constructor
  · intro h
    exact_mod_cast h
  · intro h
    exact_mod_cast h

theorem offset_bound (c p d : Int) (hd : 0 ≤ d) (hc : |c| ≤ 1024) (hp : |p| ≤ 1024) :
    -2048 ≤ offset c p d ∧ offset c p d ≤ 2048 := by
  rw [abs_le] at hc hp
  unfold offset
  rw [Int.neg_tdiv, Int.tdiv_eq_ediv hd (by decide)]
  omega

/-- With all coordinates at most 1024 in magnitude, the squared distance is
below `2^24`: the `float` computation of it is exact. -/
theorem sqdist_lt (x y : Int) (rectangle : Rectangle) (hw : 0 ≤ rectangle.dims.w)
    (hh : 0 ≤ rectangle.dims.h) (hx : |x| ≤ 1024) (hy : |y| ≤ 1024)
    (hpx : |rectangle.pos.x| ≤ 1024) (hpy : |rectangle.pos.y| ≤ 1024) :
    sqdist x y rectangle < 16777216 := by
  obtain ⟨a1, a2⟩ := offset_bound x rectangle.pos.x rectangle.dims.w hw hx hpx
  obtain ⟨b1, b2⟩ := offset_bound y rectangle.pos.y rectangle.dims.h hh hy hpy
  unfold sqdist
  nlinarith [mul_nonneg (sub_nonneg.mpr a2) (sub_nonneg.mpr
      (show -2048 ≤ offset x rectangle.pos.x rectangle.dims.w from a1)),
    mul_nonneg (sub_nonneg.mpr b2) (sub_nonneg.mpr
      (show -2048 ≤ offset y rectangle.pos.y rectangle.dims.h from b1))]

/-- The test of `check_collision` for an integer radius and a squared distance
below `2^24`. -/
theorem collided_iff_of_compares {sqrtK : K → K} (hs : SqrtCompares sqrtK) (ball : Ball K)
    (rectangle : Rectangle) (r : Nat) (hr : ball.radius = Flt.fin (r : K))
    (hb : sqdist ball.x ball.y rectangle < 16777216) :
    ((check_collision sqrtK ball rectangle).collided = true ↔
      sqrtK ((sqdist ball.x ball.y rectangle : Int) : K) ≤ (r : K)) ∧
    ((check_collision sqrtK ball rectangle).collided = true ↔
      sqdist ball.x ball.y rectangle ≤ (r : Int) * r) := by
  have h1 : (check_collision sqrtK ball rectangle).collided = true ↔
      sqrtK ((sqdist ball.x ball.y rectangle : Int) : K) ≤ (r : K) := by
    rw [collided_iff_not_lt, dist_to_closest_eq, hr]
    simp [GT.gt]
  refine ⟨h1, h1.trans ?_⟩
  obtain ⟨n, hn⟩ := Int.eq_ofNat_of_zero_le (sqdist_nonneg ball.x ball.y rectangle)
  rw [hn] at hb ⊢
  have hn' : n < 2 ^ 24 := by
    norm_num
    exact_mod_cast hb
  rw [Int.cast_natCast, hs n r hn']
  constructor
  · intro h
    exact_mod_cast h
  · intro h
    exact_mod_cast h

/-! ## The velocity a resolution leaves -/

/-- No rational number has the square `5/8`. -/
theorem rat_mul_self_ne (q : ℚ) : q * q ≠ 5 / 8 := by
  intro h
  have h10 : IsSquare ((10 : ℕ) : ℚ) := ⟨4 * q, by push_cast; linarith⟩
  rw [Rat.isSquare_natCast_iff] at h10
  obtain ⟨r, hr⟩ := h10
  have h1 : r < 4 := by nlinarith
  interval_cases r <;> omega

/-! ## The pointer at the ends of the range of `int` -/

theorem wrap32_of_range (n : Int) (h0 : -2147483648 ≤ n) (h1 : n ≤ 2147483647) :
    wrap32 n = n := by
  unfold wrap32
  omega

theorem wrap32_of_below (n : Int) (h0 : -4294967296 ≤ n) (h1 : n < -2147483648) :
    wrap32 n = n + 4294967296 := by
  unfold wrap32
  omega

/-! ## A rounded square root -/

/-- The stray store `overlay_stray` is tame for every rounding that leaves the
height 460 as it is and rounds `460 + 2^127` to a value outside the range of
`int`, as the rounding of `float` does. -/
theorem tame_overlay_stray [FloorRing K] (fl : K → Flt K)
    (h1 : fl (((460 : Int) : K)) = Flt.fin (((460 : Int) : K)))
    (h2 : Flt.toInt (fl (((460 : Int) : K) -
      ((-170141183460469231731687303715884105728 : Int) : K))) = -2147483648) :
    TameStray fl (overlay_stray K) := by
  intro i r b _ hy
  unfold overlay_stray
  split
  · refine ⟨fun _ => hy, fun _ => ?_⟩
    unfold AttachOk
    show Flt.toInt (anchored fl ((SCREEN_HEIGHT : Int) - 20)
      (Flt.fin (((-170141183460469231731687303715884105728 : Int) : K)))) ≤ _
    have e : ((SCREEN_HEIGHT : Int) - 20) = 460 := by decide
    rw [e]
    unfold anchored
    simp only [Flt.ofInt_eq, Flt.round, h1, Flt.fin_sub_fin]
    rw [h2]
    decide
  · exact ⟨fun h => h, fun h => h⟩

theorem tame_overlay_stray_fin [FloorRing K] : TameStray Flt.fin (overlay_stray K) :=
  tame_overlay_stray Flt.fin rfl (by
    rw [← Int.cast_sub, Flt.toInt_fin, Flt.trunc_intCast, if_neg (by decide)])

/-! ## C1: the collision test -/

/-- C1 (as amended): for a ball with integer centre and integer radius `r ≥ 0`
and a rectangle whose width and height are non-negative and even, all
coordinates and dimensions at most 1024 in magnitude, `check_collision` reports
`collided = true` if and only if the Euclidean distance from the centre to the
point obtained by clamping the centre, per axis, to `[x, x+w] x [y, y+h]` is at
most `r`, that is the squared distance is at most `r²`; and that is when the
square root the code computes is at most `r`.  The square root is only asked to
compare correctly with integers, as the rounded one of `float` does. -/
theorem C1_collided_iff_clamped_distance {sqrtK : K → K} (hs : SqrtCompares sqrtK)
    (ball : Ball K) (rectangle : Rectangle) (r : Nat) (hr : ball.radius = Flt.fin (r : K))
    (hw : 0 ≤ rectangle.dims.w) (hh : 0 ≤ rectangle.dims.h)
    (hwe : rectangle.dims.w % 2 = 0) (hhe : rectangle.dims.h % 2 = 0)
    (hb : SmallCoordinates ball rectangle) :
    ((check_collision sqrtK ball rectangle).collided = true ↔
      sqdist_spec ball.x ball.y rectangle ≤ (r : Int) ^ 2) ∧
    ((check_collision sqrtK ball rectangle).collided = true ↔
      sqrtK ((sqdist_spec ball.x ball.y rectangle : Int) : K) ≤ (r : K)) := by
  have h := collided_iff_of_compares hs ball rectangle r hr
    (sqdist_lt _ _ _ hw hh hb.1 hb.2.1 hb.2.2.1 hb.2.2.2.1)
  rw [sqdist_even _ _ _ hw hh hwe hhe] at h
  exact ⟨by rw [pow_two]; exact h.2, h.1⟩

/-- C1, witness: a ball at `(50, 5)` above a `100 x 20` rectangle at `(0, 10)`. -/
theorem C1_collided_iff_clamped_distance_witness :
    SqrtCompares Real.sqrt ∧ SmallCoordinates (ball_at ℝ 50 5 0 1) (rect_at 0 10 100 20) ∧
      ((check_collision Real.sqrt (ball_at ℝ 50 5 0 1) (rect_at 0 10 100 20)).collided = true ↔
        sqdist_spec 50 5 (rect_at 0 10 100 20) ≤ ((10 : Nat) : Int) ^ 2) := by
  have hb : SmallCoordinates (ball_at ℝ 50 5 0 1) (rect_at 0 10 100 20) := by
    unfold SmallCoordinates
    decide
  exact ⟨sqrtCompares_of_isSqrt isSqrt_real, hb,
    (C1_collided_iff_clamped_distance (sqrtCompares_of_isSqrt isSqrt_real) (ball_at ℝ 50 5 0 1)
      (rect_at 0 10 100 20) 10 (by simp [ball_at]) (by decide) (by decide) (by decide)
      (by decide) hb).1⟩

/-- C1, counterexample: for the rectangle of width 1 and height 0 at the origin
and the ball of radius 10 at `(11, 0)`, the centre clamped to `[0, 1] x [0, 0]`
is `(1, 0)`, at distance 10 from the centre, but `check_collision` clamps to
`[0, 2 * (1 / 2)] = [0, 0]`, finds the distance 11 and reports no collision. -/
theorem C1_odd_width_counterexample :
    0 ≤ (rect_at 0 0 1 0).dims.w ∧ 0 ≤ (rect_at 0 0 1 0).dims.h ∧
    (ball_at ℝ 11 0 0 1).radius = Flt.fin 10 ∧
    Real.sqrt ((sqdist_spec 11 0 (rect_at 0 0 1 0) : Int) : ℝ) ≤ 10 ∧
    dist_to_closest Real.sqrt (ball_at ℝ 11 0 0 1) (rect_at 0 0 1 0) = Flt.fin 11 ∧
    (check_collision Real.sqrt (ball_at ℝ 11 0 0 1) (rect_at 0 0 1 0)).collided = false := by
  have h2 : sqdist_spec 11 0 (rect_at 0 0 1 0) = 100 := by decide
  have h1 : sqdist (ball_at ℝ 11 0 0 1).x (ball_at ℝ 11 0 0 1).y (rect_at 0 0 1 0) = 121 := by
    decide
  refine ⟨by decide, by decide, rfl, ?_, ?_, ?_⟩
  · rw [h2, isSqrt_real.le_iff (by norm_num) (by norm_num)]
    norm_num
  · rw [dist_to_closest_eq, h1]
    congr 1
    rw [show ((121 : Int) : ℝ) = 11 * 11 by norm_num]
    exact Real.sqrt_mul_self (by norm_num)
  · have h := not_collided_ball_at 11 0 0 1 (rect_at 0 0 1 0) (by decide)
    simpa using h

/-! ## C2: the table of sides -/

/-- C2 (as amended): for a colliding ball and rectangle with offset
`d = closestPoint - ballCentre = (dx, dy)`, `check_collision` returns RIGHT
when `d = (+x, 0)`, LEFT when `d = (-x, 0)`, UP when `d = (0, +y)` and DOWN
when `d = (0, -y)`. -/
theorem C2_side_table {sqrtK : K → K} (hs : IsSqrt sqrtK) (ball : Ball K)
    (rectangle : Rectangle) (dx dy : K) (hx : ball_to_closest_x ball rectangle = Flt.fin dx)
    (hy : ball_to_closest_y ball rectangle = Flt.fin dy)
    (hc : (check_collision sqrtK ball rectangle).collided = true) :
    (0 < dx ∧ dy = 0 → (check_collision sqrtK ball rectangle).side = .RIGHT) ∧
    (dx < 0 ∧ dy = 0 → (check_collision sqrtK ball rectangle).side = .LEFT) ∧
    (dx = 0 ∧ 0 < dy → (check_collision sqrtK ball rectangle).side = .UP) ∧
    (dx = 0 ∧ dy < 0 → (check_collision sqrtK ball rectangle).side = .DOWN) :=
  side_table hs ball rectangle dx dy hx hy hc

/-- C2, witness: the ball at `(50, 35)` under the `100 x 20` rectangle at
`(0, 10)` has offset `(0, -5)` and side DOWN. -/
theorem C2_side_table_witness :
    IsSqrt Real.sqrt ∧
    ball_to_closest_x (ball_at ℝ 50 35 0 1) (rect_at 0 10 100 20) = Flt.fin 0 ∧
    ball_to_closest_y (ball_at ℝ 50 35 0 1) (rect_at 0 10 100 20) = Flt.fin (-5) ∧
    (check_collision Real.sqrt (ball_at ℝ 50 35 0 1) (rect_at 0 10 100 20)).collided = true ∧
    (check_collision Real.sqrt (ball_at ℝ 50 35 0 1) (rect_at 0 10 100 20)).side = .DOWN := by
  have hx : ball_to_closest_x (ball_at ℝ 50 35 0 1) (rect_at 0 10 100 20) = Flt.fin 0 := by
    rw [(ball_to_closest_ball_at 50 35 0 1 _).1]
    have : offset 50 (rect_at 0 10 100 20).pos.x (rect_at 0 10 100 20).dims.w = 0 := by decide
    rw [this]
    simp
  have hy : ball_to_closest_y (ball_at ℝ 50 35 0 1) (rect_at 0 10 100 20) = Flt.fin (-5) := by
    rw [(ball_to_closest_ball_at 50 35 0 1 _).2]
    have : offset 35 (rect_at 0 10 100 20).pos.y (rect_at 0 10 100 20).dims.h = -5 := by decide
    rw [this]
    simp
  have hc := collided_ball_at 50 35 0 1 (rect_at 0 10 100 20) (by decide)
  exact ⟨isSqrt_real, hx, hy, hc,
    (C2_side_table isSqrt_real _ _ 0 (-5) hx hy hc).2.2.2 ⟨rfl, by norm_num⟩⟩

/-- C2, counterexample: the ball at `(50, 5)` above the `100 x 20` rectangle at
`(0, 10)` collides with offset `d = (0, +5)`, and the side returned is UP, not
DOWN. -/
theorem C2_vertical_sides_counterexample :
    (check_collision Real.sqrt (ball_at ℝ 50 5 0 1) (rect_at 0 10 100 20)).collided = true ∧
    ball_to_closest_x (ball_at ℝ 50 5 0 1) (rect_at 0 10 100 20) = Flt.fin 0 ∧
    ball_to_closest_y (ball_at ℝ 50 5 0 1) (rect_at 0 10 100 20) = Flt.fin 5 ∧
    (check_collision Real.sqrt (ball_at ℝ 50 5 0 1) (rect_at 0 10 100 20)).side = .UP ∧
    (check_collision Real.sqrt (ball_at ℝ 50 5 0 1) (rect_at 0 10 100 20)).side ≠ .DOWN := by
  have hx : ball_to_closest_x (ball_at ℝ 50 5 0 1) (rect_at 0 10 100 20) = Flt.fin 0 := by
    rw [(ball_to_closest_ball_at 50 5 0 1 _).1]
    have : offset 50 (rect_at 0 10 100 20).pos.x (rect_at 0 10 100 20).dims.w = 0 := by decide
    rw [this]
    simp
  have hy : ball_to_closest_y (ball_at ℝ 50 5 0 1) (rect_at 0 10 100 20) = Flt.fin 5 := by
    rw [(ball_to_closest_ball_at 50 5 0 1 _).2]
    have : offset 5 (rect_at 0 10 100 20).pos.y (rect_at 0 10 100 20).dims.h = 5 := by decide
    rw [this]
    simp
  have hc := collided_ball_at 50 5 0 1 (rect_at 0 10 100 20) (by decide)
  have hside := (side_table isSqrt_real _ _ 0 5 hx hy hc).2.2.1 ⟨rfl, by norm_num⟩
  refine ⟨hc, hx, hy, hside, ?_⟩
  rw [hside]
  decide

/-! ## C3: the norm of the velocity after a resolution -/

/-- C5: (1) after `check_collisions` resolves a collision with brick `i`, brick
`i` is inactive; (2) a rectangle that is inactive before `check_collisions` is
inactive afterwards; (3) changing the position and the dimensions of an
inactive rectangle changes neither whether the call throws, nor the ball
(velocity included) it leaves, nor the active flag of any rectangle; (4) the
render pass draws exactly the active ones among the `RECT_COUNT_X *
RECT_COUNT_Y` bricks. -/
theorem C5_hit_brick_excluded (sqrtK : K → K) (g : Game K) :
    (∀ i, FirstHit sqrtK g i → i ≠ RECT_COUNT_X * RECT_COUNT_Y →
      ∃ g', check_collisions sqrtK g = .ok g' ∧ (g'.rectangles i).active = false) ∧
    (∀ g' j, check_collisions sqrtK g = .ok g' → (g.rectangles j).active = false →
      (g'.rectangles j).active = false) ∧
    (∀ j d p, (g.rectangles j).active = false →
      (∀ e, check_collisions sqrtK g = .error e →
        check_collisions sqrtK (g.setGeometry j d p) = .error e) ∧
      (∀ g1, check_collisions sqrtK g = .ok g1 →
        ∃ g2, check_collisions sqrtK (g.setGeometry j d p) = .ok g2 ∧ g2.ball = g1.ball ∧
          ∀ k, (g2.rectangles k).active = (g1.rectangles k).active)) ∧
    (∀ c, c ∈ draw_bricks g ↔
      ∃ i, i < RECT_COUNT_X * RECT_COUNT_Y ∧ (g.rectangles i).active = true ∧
        c = DrawCall.rect (g.rectangles i)) := by
  refine ⟨fun i hi hb => check_collisions_brick_inactive sqrtK g i hi hb,
    fun g' j h hj => check_collisions_inactive sqrtK g g' h j hj, ?_, mem_draw_bricks g⟩
  intro j d p hj
  have h := check_collisions_setGeometry sqrtK g j d p hj
  constructor
  · intro e he
    rw [h, he]
    rfl
  · intro g1 hg1
    rw [h, hg1]
    exact ⟨g1.setGeometry j d p, rfl, rfl, fun k => Game.setGeometry_active g1 j d p k⟩

/-- C5, witness: the ball at `(50, 35)` hits the first brick, which is inactive
after the call. -/
theorem C5_hit_brick_excluded_witness :
    FirstHit Real.sqrt (game_of ℝ (ball_at ℝ 50 35 (1 / 4) (-3 / 4)) one_brick_board) 0 ∧
    ∃ g', check_collisions Real.sqrt
        (game_of ℝ (ball_at ℝ 50 35 (1 / 4) (-3 / 4)) one_brick_board) = .ok g' ∧
      (g'.rectangles 0).active = false :=
  ⟨firstHit_one_brick_board 50 35 (1 / 4) (-3 / 4) (by decide),
    (C5_hit_brick_excluded Real.sqrt
      (game_of ℝ (ball_at ℝ 50 35 (1 / 4) (-3 / 4)) one_brick_board)).1 0
      (firstHit_one_brick_board 50 35 (1 / 4) (-3 / 4) (by decide)) (by decide)⟩

/-! ## C6: the walls -/

/-- C6: in a state with ball radius 10 in which no active rectangle (brick or
slider) collides with the ball, `check_collisions` returns the state with `vx`
negated exactly when `(ball.x - 10 < 0 and vx < 0)` or
`(ball.x + 10 > SCREEN_WIDTH and vx > 0)`, with `vy` negated exactly when
`ball.y - 10 < 0`, and with nothing else changed. -/
theorem C6_walls (sqrtK : K → K) (g : Game K) (hr : g.ball.radius = Flt.fin 10)
    (hno : ∀ i, i < RECT_SLOTS → ¬ Hits sqrtK g i) :
    check_collisions sqrtK g = .ok
      ((g.setVx (if (g.ball.x - 10 < 0 ∧ g.ball.vx < Flt.fin 0) ∨
            (g.ball.x + 10 > (SCREEN_WIDTH : Int) ∧ g.ball.vx > Flt.fin 0)
          then -g.ball.vx else g.ball.vx)).setVy
        (if g.ball.y - 10 < 0 then -g.ball.vy else g.ball.vy)) := by
  unfold check_collisions
  rw [scan_none sqrtK g RECT_SLOTS 0 (fun j _ h => hno j (by omega)), ← walls_radius_ten g hr]
  rfl

/-- C6, witness: with the ball at `x = 0` and `vx = -0.3`, away from the slider
and with no brick left, the call leaves `vx = +0.3` and `vy` as it was. -/
theorem C6_walls_witness :
    (ball_at ℝ 0 300 (-3 / 10) (-1 / 2)).radius = Flt.fin 10 ∧
    (∀ i, i < RECT_SLOTS →
      ¬ Hits Real.sqrt (game_of ℝ (ball_at ℝ 0 300 (-3 / 10) (-1 / 2)) cleared_board) i) ∧
    ∃ g', check_collisions Real.sqrt
        (game_of ℝ (ball_at ℝ 0 300 (-3 / 10) (-1 / 2)) cleared_board) = .ok g' ∧
      g'.ball.vx = Flt.fin (3 / 10) ∧ g'.ball.vy = Flt.fin (-1 / 2) := by
  have hno : ∀ i, i < RECT_SLOTS →
      ¬ Hits Real.sqrt (game_of ℝ (ball_at ℝ 0 300 (-3 / 10) (-1 / 2)) cleared_board) i := by
    intro i _ hh
    by_cases hi : i = RECT_COUNT_X * RECT_COUNT_Y
    · subst hi
      have h2 : (check_collision Real.sqrt (ball_at ℝ 0 300 (-3 / 10) (-1 / 2))
          (cleared_board (RECT_COUNT_X * RECT_COUNT_Y))).collided = true := hh.2
      rw [cleared_board_slider] at h2
      exact not_collided_ball_at 0 300 _ _ _ (by decide) h2
    · have h1 : (cleared_board i).active = true := hh.1
      rw [cleared_board_inactive i hi] at h1
      cases h1
  refine ⟨rfl, hno, _, C6_walls Real.sqrt
    (game_of ℝ (ball_at ℝ 0 300 (-3 / 10) (-1 / 2)) cleared_board) rfl hno, ?_, ?_⟩
  · have h1 : (game_of ℝ (ball_at ℝ 0 300 (-3 / 10) (-1 / 2)) cleared_board).ball.x = 0 := rfl
    have h2 : (game_of ℝ (ball_at ℝ 0 300 (-3 / 10) (-1 / 2)) cleared_board).ball.vx =
        Flt.fin (-3 / 10) := rfl
    simp only [Game.setVy_vx, Game.setVx_vx, h1, h2]
    norm_num
  · have h1 : (game_of ℝ (ball_at ℝ 0 300 (-3 / 10) (-1 / 2)) cleared_board).ball.y = 300 := rfl
    have h2 : (game_of ℝ (ball_at ℝ 0 300 (-3 / 10) (-1 / 2)) cleared_board).ball.vy =
        Flt.fin (-1 / 2) := rfl
    simp only [Game.setVy_vy, h1, h2]
    norm_num

/-! ## C7: the slider stays on the screen -/

/-- C7 (as amended): for every pointer-motion `x` in the range of `int` and
every state whose slider has width 100, after the pointer-motion handler the
slider's `x` lies in `[0, SCREEN_WIDTH - 100]` and its dimensions (so the width
100) are unchanged; for `x ≥ INT_MIN + 50` it is
`clamp (x - 50, 0, SCREEN_WIDTH - 100)`, and for the 50 values of `x` below,
where `x - 50` overflows and wraps around, it is `SCREEN_WIDTH - 100`. -/
theorem C7_slider_clamped (a : App K) (x : Int)
    (hw : a.game.slider_rectangle.dims.w = 100) (hx0 : -2147483648 ≤ x)
    (hx1 : x ≤ 2147483647) :
    0 ≤ (handle_event a (.mouseMotion x)).game.slider_rectangle.pos.x ∧
      (handle_event a (.mouseMotion x)).game.slider_rectangle.pos.x ≤
        (SCREEN_WIDTH : Int) - 100 ∧
      (handle_event a (.mouseMotion x)).game.slider_rectangle.dims =
        a.game.slider_rectangle.dims ∧
      (-2147483648 + 50 ≤ x →
        (handle_event a (.mouseMotion x)).game.slider_rectangle.pos.x =
          clamp_spec (x - 50) 0 ((SCREEN_WIDTH : Int) - 100)) ∧
      (x < -2147483648 + 50 →
        (handle_event a (.mouseMotion x)).game.slider_rectangle.pos.x =
          (SCREEN_WIDTH : Int) - 100) := by
  show 0 ≤ (pointer_motion a.game x).slider_rectangle.pos.x ∧
    (pointer_motion a.game x).slider_rectangle.pos.x ≤ _ ∧
    (pointer_motion a.game x).slider_rectangle.dims = _ ∧
    (_ → (pointer_motion a.game x).slider_rectangle.pos.x = _) ∧
    (_ → (pointer_motion a.game x).slider_rectangle.pos.x = _)
  rw [pointer_motion_slider, hw]
  have e : (SCREEN_WIDTH : Int) = 640 := rfl
  have e2 : (100 : Int).tdiv 2 = 50 := by decide
  have e3 : wrap32 (640 - 100) = 540 := by decide
  simp only [e, e2, e3, clamp_spec]
  by_cases hx : -2147483648 + 50 ≤ x
  · rw [wrap32_of_range (x - 50) (by omega) (by omega)]
    refine ⟨by omega, by omega, trivial, fun _ => by omega, fun h => by omega⟩
  · rw [wrap32_of_below (x - 50) (by omega) (by omega)]
    refine ⟨by omega, by omega, trivial, fun h => by omega, fun _ => by omega⟩

/-- C7, witness: pointer motions at `-100` and at `SCREEN_WIDTH + 100` put the
slider at 0 and at 540. -/
theorem C7_slider_clamped_witness :
    (app_of ℚ (game_of ℚ (ball_at ℚ 320 450 0 0) cleared_board) true).game.slider_rectangle.dims.w
        = 100 ∧
    (handle_event (app_of ℚ (game_of ℚ (ball_at ℚ 320 450 0 0) cleared_board) true)
        (.mouseMotion (-100))).game.slider_rectangle.pos.x = 0 ∧
    (handle_event (app_of ℚ (game_of ℚ (ball_at ℚ 320 450 0 0) cleared_board) true)
        (.mouseMotion ((SCREEN_WIDTH : Int) + 100))).game.slider_rectangle.pos.x = 540 := by
  have hw : (app_of ℚ (game_of ℚ (ball_at ℚ 320 450 0 0) cleared_board)
      true).game.slider_rectangle.dims.w = 100 := by
    show (cleared_board (RECT_COUNT_X * RECT_COUNT_Y)).dims.w = 100
    rw [cleared_board_slider]
    rfl
  exact ⟨hw,
    ((C7_slider_clamped _ (-100) hw (by decide) (by decide)).2.2.2.1 (by decide)).trans
      (by decide),
    ((C7_slider_clamped _ ((SCREEN_WIDTH : Int) + 100) hw (by decide)
      (by decide)).2.2.2.1 (by decide)).trans (by decide)⟩

/-- C7, counterexample: for the pointer-motion `x = INT_MIN` the subtraction
`x - 50` overflows; the slider is put at 540, where
`clamp (x - 50, 0, SCREEN_WIDTH - 100)` is 0. -/
theorem C7_overflow_counterexample :
    (app_of ℚ (game_of ℚ (ball_at ℚ 320 450 0 0) cleared_board) true).game.slider_rectangle.dims.w
        = 100 ∧
    (handle_event (app_of ℚ (game_of ℚ (ball_at ℚ 320 450 0 0) cleared_board) true)
        (.mouseMotion (-2147483648))).game.slider_rectangle.pos.x = 540 ∧
    clamp_spec (-2147483648 - 50) 0 ((SCREEN_WIDTH : Int) - 100) = 0 := by
  refine ⟨?_, ?_, by decide⟩
  · show (cleared_board (RECT_COUNT_X * RECT_COUNT_Y)).dims.w = 100
    rw [cleared_board_slider]
    rfl
  · show (pointer_motion (game_of ℚ (ball_at ℚ 320 450 0 0) cleared_board)
      (-2147483648)).slider_rectangle.pos.x = 540
    rw [pointer_motion_slider]
    show Min.min (wrap32 ((SCREEN_WIDTH : Int) -
        (cleared_board (RECT_COUNT_X * RECT_COUNT_Y)).dims.w))
      (Max.max 0 (wrap32 (-2147483648 -
        (cleared_board (RECT_COUNT_X * RECT_COUNT_Y)).dims.w.tdiv 2))) = 540
    rw [cleared_board_slider]
    decide

/-! ## C8: the bricks after a reset -/

/-- C8, the code at a failing input: element 7 of `rectangles` is one of the
`RECT_COUNT_X * RECT_COUNT_Y` brick slots, but `fill_primitives` stores the
cell `(x, y)` at index `x + RECT_COUNT_Y * y` with `x < 7`, so it never assigns
it.  In play (first brick gone, ball at `(5, 5)`) `check_collisions` resolves a
collision with element 7 and deactivates it; when the ball then falls below
the screen the reset leaves element 7 inactive (whatever the rounding `fl` of
the height at which the ball is put on the slider). -/
theorem C8_reset_leaves_slot_inactive (fl : ℝ → Flt ℝ) :
    7 < RECT_COUNT_X * RECT_COUNT_Y ∧
    ∃ g', check_collisions Real.sqrt (first_brick_gone ℝ) = .ok g' ∧
      (g'.rectangles 7).active = false ∧
      (g'.setBallY 500).ball.y > (SCREEN_HEIGHT : Int) ∧
      (end_of_tick fl (app_of ℝ (g'.setBallY 500) false)).ball_attached = true ∧
      ((end_of_tick fl (app_of ℝ (g'.setBallY 500) false)).game.rectangles 7).active = false := by
  refine ⟨by decide, ?_⟩
  obtain ⟨hrad, hx, hy⟩ := first_brick_gone_ball ℝ
  have hcol : ∀ j, (check_collision Real.sqrt (first_brick_gone ℝ).ball
      ((first_brick_gone ℝ).rectangles j)).collided = true ↔
      sqdist 5 5 ((first_brick_gone ℝ).rectangles j) ≤ 100 := by
    intro j
    rw [collided_iff_sqdist isSqrt_real _ _ 10 hrad (by norm_num), hx, hy]
    have e : (10 : ℝ) * 10 = ((100 : Int) : ℝ) := by norm_num
    rw [e, Int.cast_le]
  have hfirst : FirstHit Real.sqrt (first_brick_gone ℝ) 7 := by
    refine ⟨by decide, ⟨by decide, (hcol 7).mpr (by decide)⟩, ?_⟩
    intro j hj hh
    have h2 := (hcol j).mp hh.2
    have h1 := hh.1
    interval_cases j
    · revert h1; decide
    all_goals revert h2; decide
  obtain ⟨g', h1, h2⟩ := check_collisions_brick_inactive Real.sqrt _ 7 hfirst (by decide)
  have hbelow : (g'.setBallY 500).ball.y > (SCREEN_HEIGHT : Int) := by
    show (500 : Int) > (SCREEN_HEIGHT : Int)
    decide
  refine ⟨g', h1, h2, hbelow, ?_, ?_⟩
  · exact (end_of_tick_reset fl _ hbelow).1
  · unfold end_of_tick
    rw [if_pos (show (app_of ℝ (g'.setBallY 500) false).game.ball.y > (SCREEN_HEIGHT : Int)
      from hbelow)]
    show ((attach_ball fl (fill_primitives (g'.setBallY 500))).rectangles 7).active = false
    rw [attach_ball_rectangles,
      fill_primitives_rectangles_of_not_written _ 7 (by decide)
        (by
          intro x hx y hy
          have e1 : RECT_COUNT_X = 7 := rfl
          have e2 : RECT_COUNT_Y = 8 := rfl
          rw [e1] at hx
          rw [e2] at hy ⊢
          omega)]
    exact h2

/-! ## C9: the reset of the round -/

/-- C9 (as amended): a tick that does not throw ends with the reset check on
the state `a1` the update leaves.  When `ball.y > SCREEN_HEIGHT` there, the
round resets: the ball is attached again, `fill_primitives` has put the slider
back at `(270, 460)` with dimensions `100 x 20`, and the ball is anchored to
that slider, at `(p.x + p.w/2, (int)(p.y - radius)) = (320, (int)(460 - radius))`
for the radius `fill_primitives` leaves, the difference being computed in
`float`.  That radius is 10 when the stores of `fill_primitives` past the end
of `rectangles` do not change the radius, and the ball is then at `(320, 450)`
(460 and 450 are values of `float`).  Otherwise the state is left as it is. -/
theorem C9_round_reset [FloorRing K] (fl : K → Flt K) (sqrtK : K → K) (dt : Flt K)
    (events : List Event) (a a1 : App K) (h : update fl sqrtK dt events a = .ok a1) :
    tick fl sqrtK dt events a = .ok (render a1.game, end_of_tick fl a1) ∧
    (a1.game.ball.y > (SCREEN_HEIGHT : Int) →
      (end_of_tick fl a1).ball_attached = true ∧
      (end_of_tick fl a1).game.slider_rectangle.pos = ⟨270, 460⟩ ∧
      (end_of_tick fl a1).game.slider_rectangle.dims = ⟨100, 20⟩ ∧
      (end_of_tick fl a1).game.ball.x =
        (end_of_tick fl a1).game.slider_rectangle.pos.x +
          (end_of_tick fl a1).game.slider_rectangle.dims.w.tdiv 2 ∧
      (end_of_tick fl a1).game.ball.x = 320 ∧
      (end_of_tick fl a1).game.ball.y =
        Flt.toInt (anchored fl (end_of_tick fl a1).game.slider_rectangle.pos.y
          (end_of_tick fl a1).game.ball.radius) ∧
      (end_of_tick fl a1).game.ball.radius = (fill_primitives a1.game).ball.radius ∧
      ((∀ i r b, (a1.game.stray i r b).radius = b.radius) →
        (end_of_tick fl a1).game.ball.radius = Flt.fin 10 ∧
        (ExactOnInts fl →
          (end_of_tick fl a1).game.ball.y =
            (end_of_tick fl a1).game.slider_rectangle.pos.y - 10 ∧
          (end_of_tick fl a1).game.ball.y = 450))) ∧
    (¬ a1.game.ball.y > (SCREEN_HEIGHT : Int) → end_of_tick fl a1 = a1) := by
  refine ⟨?_, ?_, end_of_tick_no_reset fl a1⟩
  · unfold tick
    rw [h]
    rfl
  · intro hb
    obtain ⟨h1, h2, h3, h4, h5, _⟩ := end_of_tick_reset fl a1 hb
    refine ⟨h1, by rw [h2], by rw [h2], by rw [h2, h3]; decide, h3, ?_, h5, ?_⟩
    · rw [h2, h4, h5]
    · intro hst
      obtain ⟨k1, k2⟩ := end_of_tick_reset_y fl a1 hb hst
      refine ⟨k1, fun hfl => ⟨?_, k2 hfl⟩⟩
      rw [h2, k2 hfl]
      decide

/-- C9, witness: the ball in flight at `(100, 470)` beside the slider, moving
straight down at speed 300; after `dt = 1/16` it is at `y = 488`, below the
screen, and the tick ends with the reset (in a state whose stray stores leave
the ball alone; no operation rounds). -/
theorem C9_round_reset_witness :
    ∃ a1, update Flt.fin Real.sqrt (Flt.fin (1 / 16)) []
        (app_of ℝ (game_of ℝ (ball_at ℝ 100 470 0 1) cleared_board) false) = .ok a1 ∧
      a1.game.ball.y > (SCREEN_HEIGHT : Int) ∧
      tick Flt.fin Real.sqrt (Flt.fin (1 / 16)) []
        (app_of ℝ (game_of ℝ (ball_at ℝ 100 470 0 1) cleared_board) false) =
          .ok (render a1.game, end_of_tick Flt.fin a1) ∧
      (end_of_tick Flt.fin a1).ball_attached = true ∧
      (end_of_tick Flt.fin a1).game.ball.x = 320 ∧
      (end_of_tick Flt.fin a1).game.ball.y = 450 := by
  obtain ⟨a1, h1, h2, h3⟩ := update_falling_ball
  have h := C9_round_reset Flt.fin Real.sqrt (Flt.fin (1 / 16)) []
    (app_of ℝ (game_of ℝ (ball_at ℝ 100 470 0 1) cleared_board) false) a1 h1
  have hb : a1.game.ball.y > (SCREEN_HEIGHT : Int) := by
    rw [h2]
    decide
  exact ⟨a1, h1, hb, h.1, (h.2.1 hb).1, (h.2.1 hb).2.2.2.2.1,
    (((h.2.1 hb).2.2.2.2.2.2.2 (fun i r b => by rw [h3])).2 exactOnInts_fin).2⟩

/-- C9, counterexample: with the slider moved to `x = 0` by the pointer and the
ball fallen to `y = 500`, the reset puts the slider back at `x = 270` and the
ball at `x = 320`, not at `0 + 100 / 2 = 50` over the place the slider had
before the reset. -/
theorem C9_reset_moves_slider_counterexample :
    (app_of ℚ (pointer_motion (game_of ℚ (ball_at ℚ 50 500 0 1) cleared_board) (-100))
        false).game.ball.y > (SCREEN_HEIGHT : Int) ∧
    (app_of ℚ (pointer_motion (game_of ℚ (ball_at ℚ 50 500 0 1) cleared_board) (-100))
        false).game.slider_rectangle.pos.x = 0 ∧
    (app_of ℚ (pointer_motion (game_of ℚ (ball_at ℚ 50 500 0 1) cleared_board) (-100))
        false).game.slider_rectangle.dims.w = 100 ∧
    (end_of_tick Flt.fin (app_of ℚ (pointer_motion
        (game_of ℚ (ball_at ℚ 50 500 0 1) cleared_board) (-100)) false)).game.slider_rectangle.pos.x
      = 270 ∧
    (end_of_tick Flt.fin (app_of ℚ (pointer_motion
        (game_of ℚ (ball_at ℚ 50 500 0 1) cleared_board) (-100)) false)).game.ball.x = 320 ∧
    (end_of_tick Flt.fin (app_of ℚ (pointer_motion
        (game_of ℚ (ball_at ℚ 50 500 0 1) cleared_board) (-100)) false)).game.ball.x ≠
      (app_of ℚ (pointer_motion (game_of ℚ (ball_at ℚ 50 500 0 1) cleared_board) (-100))
        false).game.slider_rectangle.pos.x +
      (app_of ℚ (pointer_motion (game_of ℚ (ball_at ℚ 50 500 0 1) cleared_board) (-100))
        false).game.slider_rectangle.dims.w.tdiv 2 := by
  have hb : (app_of ℚ (pointer_motion (game_of ℚ (ball_at ℚ 50 500 0 1) cleared_board) (-100))
      false).game.ball.y > (SCREEN_HEIGHT : Int) := by
    show (pointer_motion (game_of ℚ (ball_at ℚ 50 500 0 1) cleared_board) (-100)).ball.y > _
    unfold pointer_motion
    simp only [Game.store_ball]
    decide
  have hs : (app_of ℚ (pointer_motion (game_of ℚ (ball_at ℚ 50 500 0 1) cleared_board) (-100))
      false).game.slider_rectangle =
      { dims := ⟨100, 20⟩, pos := ⟨0, 460⟩, color := ⟨255, 255, 255, 255⟩, active := true } := by
    show (pointer_motion (game_of ℚ (ball_at ℚ 50 500 0 1) cleared_board) (-100)).slider_rectangle
      = _
    rw [pointer_motion_slider]
    show ({ cleared_board (RECT_COUNT_X * RECT_COUNT_Y) with
      pos := { (cleared_board (RECT_COUNT_X * RECT_COUNT_Y)).pos with
        x := Min.min (wrap32 ((SCREEN_WIDTH : Int) -
            (cleared_board (RECT_COUNT_X * RECT_COUNT_Y)).dims.w))
          (Max.max 0 (wrap32 (-100 -
            (cleared_board (RECT_COUNT_X * RECT_COUNT_Y)).dims.w.tdiv 2))) } } :
      Rectangle) = _
    rw [cleared_board_slider]
    decide
  obtain ⟨_, h2, h3, _⟩ := end_of_tick_reset Flt.fin _ hb
  refine ⟨hb, ?_, ?_, ?_, h3, ?_⟩
  · rw [hs]
  · rw [hs]
  · rw [h2]
  · rw [h3, hs]
    decide

/-! ## C10: zero distance -/

/-- C11 (as amended): `check_collisions` throws, with the message `"????!"`,
exactly when the first active rectangle that collides is the slider and the
side is DOWN; in every other state it returns.  The exception is no state
that the loop receives: `move_ball` and the iteration of the loop of `main`
end with it, and so does the loop. -/
theorem C11_slider_underside_throws [FloorRing K] (sqrtK : K → K) (g : Game K) :
    (∀ e, check_collisions sqrtK g = .error e ↔
      (e = "????!" ∧ FirstHit sqrtK g (RECT_COUNT_X * RECT_COUNT_Y) ∧
        (check_collision sqrtK g.ball (g.rectangles (RECT_COUNT_X * RECT_COUNT_Y))).side =
          .DOWN)) ∧
    (¬ (FirstHit sqrtK g (RECT_COUNT_X * RECT_COUNT_Y) ∧
        (check_collision sqrtK g.ball (g.rectangles (RECT_COUNT_X * RECT_COUNT_Y))).side =
          .DOWN) →
      ∃ g', check_collisions sqrtK g = .ok g') ∧
    (∀ e, check_collisions sqrtK g = .error e → ∀ (fl : K → Flt K) dt rest,
      move_ball fl sqrtK dt g = .error e ∧
      tick fl sqrtK dt [] { game := g, quit := false, ball_attached := false } = .error e ∧
      run fl sqrtK ((dt, []) :: rest) { game := g, quit := false, ball_attached := false } =
        .error e) :=
  ⟨check_collisions_error_iff sqrtK g, check_collisions_ok_of_not_down sqrtK g,
    fun e h fl dt rest => ⟨move_ball_error fl sqrtK dt g e h, tick_error fl sqrtK dt g e h,
      run_error fl sqrtK dt g e rest h⟩⟩

/-- C11, counterexample: with the ball at `(320, 485)`, 5 below the underside
of the slider at `(270, 460)`, `check_collisions` throws, and the loop of
`main` ends with the exception. -/
theorem C11_throws_counterexample :
    check_collisions Real.sqrt (game_of ℝ (ball_at ℝ 320 485 (1 / 4) (-3 / 4)) cleared_board) =
      .error "????!" ∧
    run Flt.fin Real.sqrt [(Flt.fin (3 / 100), [])]
      { game := game_of ℝ (ball_at ℝ 320 485 (1 / 4) (-3 / 4)) cleared_board,
        quit := false, ball_attached := false } = .error "????!" := by
  have hf := firstHit_cleared_board 320 485 (1 / 4) (-3 / 4) (by decide)
  have hside : (check_collision Real.sqrt
      (game_of ℝ (ball_at ℝ 320 485 (1 / 4) (-3 / 4)) cleared_board).ball
      ((game_of ℝ (ball_at ℝ 320 485 (1 / 4) (-3 / 4)) cleared_board).rectangles
        (RECT_COUNT_X * RECT_COUNT_Y))).side = .DOWN := by
    show (check_collision Real.sqrt (ball_at ℝ 320 485 (1 / 4) (-3 / 4))
      (cleared_board (RECT_COUNT_X * RECT_COUNT_Y))).side = .DOWN
    rw [cleared_board_slider]
    have hx : ball_to_closest_x (ball_at ℝ 320 485 (1 / 4) (-3 / 4)) (rect_at 270 460 100 20) =
        Flt.fin 0 := by
      rw [(ball_to_closest_ball_at 320 485 _ _ _).1]
      have : offset 320 (rect_at 270 460 100 20).pos.x (rect_at 270 460 100 20).dims.w = 0 := by
        decide
      rw [this]
      simp
    have hy : ball_to_closest_y (ball_at ℝ 320 485 (1 / 4) (-3 / 4)) (rect_at 270 460 100 20) =
        Flt.fin (-5) := by
      rw [(ball_to_closest_ball_at 320 485 _ _ _).2]
      have : offset 485 (rect_at 270 460 100 20).pos.y (rect_at 270 460 100 20).dims.h = -5 := by
        decide
      rw [this]
      simp
    exact (side_table isSqrt_real _ _ 0 (-5) hx hy
      (collided_ball_at 320 485 _ _ _ (by decide))).2.2.2 ⟨rfl, by norm_num⟩
  have hthrow := (check_collisions_error_iff Real.sqrt _ "????!").mpr ⟨rfl, hf, hside⟩
  exact ⟨hthrow, run_error Flt.fin Real.sqrt _ _ _ [] hthrow⟩

/-- C11, witness: with the ball at `(320, 450)` on top of the slider the first
hit is the slider on the side UP, and the call returns. -/
theorem C11_slider_underside_throws_witness :
    ∃ g', check_collisions Real.sqrt
      (game_of ℝ (ball_at ℝ 320 450 (1 / 4) (3 / 4)) cleared_board) = .ok g' := by
  refine (C11_slider_underside_throws Real.sqrt
    (game_of ℝ (ball_at ℝ 320 450 (1 / 4) (3 / 4)) cleared_board)).2.1 ?_
  rintro ⟨hf, hd⟩
  refine side_ne_down isSqrt_real _ _ ?_ hf.2.1.2 hd
  show 0 ≤ offset 450 (cleared_board (RECT_COUNT_X * RECT_COUNT_Y)).pos.y
    (cleared_board (RECT_COUNT_X * RECT_COUNT_Y)).dims.h
  rw [cleared_board_slider]
  decide

/-! ## C12: the move of the ball -/

/-- C12 (as amended): when the collision pass of `move_ball` returns,
`move_ball (dt)` leaves the ball centre at `((int) sx, (int) sy)`, where `sx` is
the value of `x + dt * vx' * speed` as the code computes it: `x`, the centre
before the call, converted to `float`, `vx'` the velocity the collision pass
leaves, every operation done in `float` and rounded; and `(int)` discards the
fractional part (the centre is stored in `int`).  So for `sx` in the range of
`int` the centre is less than 1 away from `sx` and not farther from 0; it is
the integer part of the exact `x + dt * vx' * speed` when no operation rounds;
and the velocity is the one the collision pass left. -/
theorem C12_move_ball_truncates [FloorRing K] (fl : K → Flt K) (sqrtK : K → K) (dt : Flt K)
    (g g1 : Game K) (h : check_collisions sqrtK g = .ok g1) :
    ∃ g2, move_ball fl sqrtK dt g = .ok g2 ∧
      g2.ball.x = Flt.toInt (displaced fl g.ball.x dt g1.ball.vx g.ball.speed) ∧
      g2.ball.y = Flt.toInt (displaced fl g.ball.y dt g1.ball.vy g.ball.speed) ∧
      g2.ball.vx = g1.ball.vx ∧ g2.ball.vy = g1.ball.vy ∧
      (∀ s : K, displaced fl g.ball.x dt g1.ball.vx g.ball.speed = Flt.fin s →
        -2147483649 < s → s < 2147483648 →
        |((g2.ball.x : Int) : K) - s| < 1 ∧ |((g2.ball.x : Int) : K)| ≤ |s|) ∧
      (∀ s : K, displaced fl g.ball.y dt g1.ball.vy g.ball.speed = Flt.fin s →
        -2147483649 < s → s < 2147483648 →
        |((g2.ball.y : Int) : K) - s| < 1 ∧ |((g2.ball.y : Int) : K)| ≤ |s|) ∧
      (∀ d v s : K, dt = Flt.fin d → g1.ball.vx = Flt.fin v → g.ball.speed = Flt.fin s →
        fl (g.ball.x : K) = Flt.fin (g.ball.x : K) → fl (d * v) = Flt.fin (d * v) →
        fl (d * v * s) = Flt.fin (d * v * s) →
        fl ((g.ball.x : K) + d * v * s) = Flt.fin ((g.ball.x : K) + d * v * s) →
        g2.ball.x = Flt.toInt (Flt.fin ((g.ball.x : K) + d * v * s))) ∧
      (∀ d v s : K, dt = Flt.fin d → g1.ball.vy = Flt.fin v → g.ball.speed = Flt.fin s →
        fl (g.ball.y : K) = Flt.fin (g.ball.y : K) → fl (d * v) = Flt.fin (d * v) →
        fl (d * v * s) = Flt.fin (d * v * s) →
        fl ((g.ball.y : K) + d * v * s) = Flt.fin ((g.ball.y : K) + d * v * s) →
        g2.ball.y = Flt.toInt (Flt.fin ((g.ball.y : K) + d * v * s))) := by
  obtain ⟨g2, h1, h2, h3, h4, h5, _⟩ := move_ball_eq fl sqrtK dt g g1 h
  refine ⟨g2, h1, h2, h3, h4, h5, ?_, ?_, ?_, ?_⟩
  · intro s hs l0 l1
    rw [h2, hs]
    exact (Flt.toInt_fin_in_range s l0 l1).2
  · intro s hs l0 l1
    rw [h3, hs]
    exact (Flt.toInt_fin_in_range s l0 l1).2
  · intro d v s e1 e2 e3 f1 f2 f3 f4
    rw [h2, e1, e2, e3, displaced_exact fl _ d v s f1 f2 f3 f4]
  · intro d v s e1 e2 e3 f1 f2 f3 f4
    rw [h3, e1, e2, e3, displaced_exact fl _ d v s f1 f2 f3 f4]

/-- C12, witness: the ball at `(100, 300)` in flight with the launch velocity
`(0.25, -0.75)` and `dt = 1/32`, no operation rounding: the sums are
`(102.34375, 292.96875)` and the ball ends at `(102, 292)`. -/
theorem C12_move_ball_truncates_witness :
    ∃ g2, move_ball Flt.fin Real.sqrt (Flt.fin (1 / 32))
        (game_of ℝ (ball_at ℝ 100 300 (1 / 4) (-3 / 4)) cleared_board) = .ok g2 ∧
      g2.ball.x = 102 ∧ g2.ball.y = 292 := by
  obtain ⟨g2, h1, _, _, _, _, _, _, h8, h9⟩ := C12_move_ball_truncates Flt.fin Real.sqrt
    (Flt.fin (1 / 32)) (game_of ℝ (ball_at ℝ 100 300 (1 / 4) (-3 / 4)) cleared_board) _
    (check_collisions_cleared_board 100 300 (1 / 4) (-3 / 4) (by decide) (by decide)
      (by decide) (by decide))
  refine ⟨g2, h1, ?_, ?_⟩
  · rw [h8 (1 / 32) (1 / 4) 300 rfl rfl rfl rfl rfl rfl rfl, Flt.toInt_fin]
    have e : Flt.trunc (((100 : Int) : ℝ) + 1 / 32 * (1 / 4) * 300) = 102 := by
      unfold Flt.trunc
      rw [if_pos (by norm_num), Int.floor_eq_iff]
      constructor <;> norm_num
    show (if -2147483648 ≤ Flt.trunc (((100 : Int) : ℝ) + 1 / 32 * (1 / 4) * 300) ∧
      Flt.trunc (((100 : Int) : ℝ) + 1 / 32 * (1 / 4) * 300) ≤ 2147483647 then
        Flt.trunc (((100 : Int) : ℝ) + 1 / 32 * (1 / 4) * 300) else -2147483648) = 102
    rw [e]
    decide
  · rw [h9 (1 / 32) (-3 / 4) 300 rfl rfl rfl rfl rfl rfl rfl, Flt.toInt_fin]
    have e : Flt.trunc (((300 : Int) : ℝ) + 1 / 32 * (-3 / 4) * 300) = 292 := by
      unfold Flt.trunc
      rw [if_pos (by norm_num), Int.floor_eq_iff]
      constructor <;> norm_num
    show (if -2147483648 ≤ Flt.trunc (((300 : Int) : ℝ) + 1 / 32 * (-3 / 4) * 300) ∧
      Flt.trunc (((300 : Int) : ℝ) + 1 / 32 * (-3 / 4) * 300) ≤ 2147483647 then
        Flt.trunc (((300 : Int) : ℝ) + 1 / 32 * (-3 / 4) * 300) else -2147483648) = 292
    rw [e]
    decide

/-- C12, counterexample: the ball at `(100, 300)` in flight with the launch
velocity `(0.25, -0.75)`, speed 300 and `dt = 1/128`.  Every value of the
computation is a `float` (no operation rounds): the displacement is
`(0.5859375, -1.7578125)`, the sums are `(100.5859375, 298.2421875)`, and
`move_ball` leaves the ball at `(100, 298)`: it has not moved on the x axis,
and neither coordinate is the sum. -/
theorem C12_small_step_counterexample :
    ∃ g2, move_ball Flt.fin Real.sqrt (Flt.fin (1 / 128))
        (game_of ℝ (ball_at ℝ 100 300 (1 / 4) (-3 / 4)) cleared_board) = .ok g2 ∧
      g2.ball.vx = Flt.fin (1 / 4) ∧ g2.ball.vy = Flt.fin (-3 / 4) ∧
      (1 / 128 : ℝ) * (1 / 4) * 300 ≠ 0 ∧
      g2.ball.x = 100 ∧ g2.ball.y = 298 ∧
      ((g2.ball.x : Int) : ℝ) ≠ 100 + 1 / 128 * (1 / 4) * 300 ∧
      ((g2.ball.y : Int) : ℝ) ≠ 300 + 1 / 128 * (-3 / 4) * 300 := by
  obtain ⟨g2, h1, h2, h3, h4, h5, _⟩ := move_ball_eq Flt.fin Real.sqrt (Flt.fin (1 / 128))
    (game_of ℝ (ball_at ℝ 100 300 (1 / 4) (-3 / 4)) cleared_board) _
    (check_collisions_cleared_board 100 300 (1 / 4) (-3 / 4) (by decide) (by decide)
      (by decide) (by decide))
  have hx : g2.ball.x = 100 := by
    rw [h2]
    show Flt.toInt (displaced Flt.fin 100 (Flt.fin (1 / 128)) (Flt.fin (1 / 4)) (Flt.fin 300)) =
      100
    rw [displaced_fin, Flt.toInt_fin]
    have e : Flt.trunc (((100 : Int) : ℝ) + 1 / 128 * (1 / 4) * 300) = 100 := by
      unfold Flt.trunc
      rw [if_pos (by norm_num), Int.floor_eq_iff]
      constructor <;> norm_num
    rw [e]
    decide
  have hy : g2.ball.y = 298 := by
    rw [h3]
    show Flt.toInt (displaced Flt.fin 300 (Flt.fin (1 / 128)) (Flt.fin (-3 / 4)) (Flt.fin 300)) =
      298
    rw [displaced_fin, Flt.toInt_fin]
    have e : Flt.trunc (((300 : Int) : ℝ) + 1 / 128 * (-3 / 4) * 300) = 298 := by
      unfold Flt.trunc
      rw [if_pos (by norm_num), Int.floor_eq_iff]
      constructor <;> norm_num
    rw [e]
    decide
  refine ⟨g2, h1, h4, h5, by norm_num, hx, hy, ?_, ?_⟩
  · rw [hx]
    norm_num
  · rw [hy]
    norm_num

/-! ## C13: one collider per call -/

/-- C13: (1) when no active rectangle collides with the ball, the call resolves
nothing and only runs the wall checks; (2) otherwise, with `i` the lowest index
of an active rectangle that collides, the call is the resolution of rectangle
`i` followed by the wall checks, every other element of the array is left
exactly as it was, and replacing any rectangle of higher index `k` (overlapping
or not, the slider included) changes nothing of the call but element `k`
itself, so that it contributes nothing to the velocity; (3) the active flag of
at most one rectangle changes in a call. -/
theorem C13_first_collider_only (sqrtK : K → K) (g : Game K) :
    ((∀ i, i < RECT_SLOTS → ¬ Hits sqrtK g i) → check_collisions sqrtK g = .ok (walls g)) ∧
    (∀ i, FirstHit sqrtK g i →
      check_collisions sqrtK g =
        (resolve sqrtK g i (check_collision sqrtK g.ball (g.rectangles i))).map walls ∧
      (∀ g', check_collisions sqrtK g = .ok g' →
        ∀ k, k ≠ i → g'.rectangles k = g.rectangles k) ∧
      (∀ k r, i < k →
        check_collisions sqrtK (g.setRect k r) =
          (check_collisions sqrtK g).map fun g' => g'.setRect k r)) ∧
    (∀ g', check_collisions sqrtK g = .ok g' → ∀ k1 k2,
      (g'.rectangles k1).active ≠ (g.rectangles k1).active →
      (g'.rectangles k2).active ≠ (g.rectangles k2).active → k1 = k2) :=
  ⟨check_collisions_of_no_hit sqrtK g,
    fun i hi => ⟨check_collisions_of_firstHit sqrtK g i hi,
      fun g' h k hk => check_collisions_frame sqrtK g g' i hi h k hk,
      fun k r hk => check_collisions_setRect sqrtK g i k r hi hk⟩,
    fun g' h k1 k2 h1 h2 => check_collisions_one_flag sqrtK g g' h k1 k2 h1 h2⟩

/-- C13, witness: the ball at `(50, 35)` overlaps the first brick; putting a
second overlapping rectangle at index 5 changes nothing of the call but
element 5. -/
theorem C13_first_collider_only_witness :
    FirstHit Real.sqrt (game_of ℝ (ball_at ℝ 50 35 (1 / 4) (-3 / 4)) one_brick_board) 0 ∧
    (check_collision Real.sqrt (ball_at ℝ 50 35 (1 / 4) (-3 / 4))
      (rect_at 40 30 20 20)).collided = true ∧
    check_collisions Real.sqrt
        ((game_of ℝ (ball_at ℝ 50 35 (1 / 4) (-3 / 4)) one_brick_board).setRect 5
          (rect_at 40 30 20 20)) =
      (check_collisions Real.sqrt
        (game_of ℝ (ball_at ℝ 50 35 (1 / 4) (-3 / 4)) one_brick_board)).map
        fun g' => g'.setRect 5 (rect_at 40 30 20 20) :=
  ⟨firstHit_one_brick_board 50 35 (1 / 4) (-3 / 4) (by decide),
    collided_ball_at 50 35 _ _ _ (by decide),
    ((C13_first_collider_only Real.sqrt
      (game_of ℝ (ball_at ℝ 50 35 (1 / 4) (-3 / 4)) one_brick_board)).2.1 0
      (firstHit_one_brick_board 50 35 (1 / 4) (-3 / 4) (by decide))).2.2 5
      (rect_at 40 30 20 20) (by decide)⟩

/-! ## C14: the normalized offset -/

/-- C14 (as amended): for the slider of width 100, with `offset` the horizontal
distance `paddleCentreX - ball.x` and `c = clamp (offset, -50, 50)`, the
quantity `check_collisions` compares with 0.1 on a hit of the slider on the side
UP is `|c| / 100 / 2 = |c| / 200`: it ranges over `[0, 1/4]`, is 0.01 for a
2 px offset, and exceeds 0.1 exactly for offsets of more than 20 px. -/
theorem C14_normalized_offset (g : Game K) (hw : g.slider_rectangle.dims.w = 100) :
    dist_from_center_normalized (reflect g .UP) = dist_from_center_normalized g ∧
    dist_from_center_normalized g =
      Flt.fin (|((clamp_spec (g.slider_rectangle.pos.x + 50 - g.ball.x) (-50) 50 : Int) : K)|
        / 100 / 2) ∧
    0 ≤ |((clamp_spec (g.slider_rectangle.pos.x + 50 - g.ball.x) (-50) 50 : Int) : K)|
      / 100 / 2 ∧
    |((clamp_spec (g.slider_rectangle.pos.x + 50 - g.ball.x) (-50) 50 : Int) : K)| / 100 / 2 ≤
      1 / 4 ∧
    (1 / 10 < |((clamp_spec (g.slider_rectangle.pos.x + 50 - g.ball.x) (-50) 50 : Int) : K)|
        / 100 / 2 ↔
      20 < |g.slider_rectangle.pos.x + 50 - g.ball.x|) ∧
    (|g.slider_rectangle.pos.x + 50 - g.ball.x| = 2 →
      |((clamp_spec (g.slider_rectangle.pos.x + 50 - g.ball.x) (-50) 50 : Int) : K)| / 100 / 2 =
        1 / 100) := by
  have hd := dist_from_center_normalized_eq g (by rw [hw]; decide)
  rw [clamped_center_offset_hundred g hw, hw] at hd
  have hcast : ∀ n : Int, |((n : Int) : K)| = ((|n| : Int) : K) := fun n => (Int.cast_abs).symm
  have hbound : |clamp_spec (g.slider_rectangle.pos.x + 50 - g.ball.x) (-50) 50| ≤ 50 := by
    unfold clamp_spec
    rw [abs_le]
    omega
  have hbK : ((|clamp_spec (g.slider_rectangle.pos.x + 50 - g.ball.x) (-50) 50| : Int) : K) ≤
      ((50 : Int) : K) := by exact_mod_cast hbound
  refine ⟨dist_from_center_normalized_reflect g .UP, ?_, by positivity, ?_, ?_, ?_⟩
  · rw [hd]
    norm_num
  · rw [hcast]
    push_cast at hbK ⊢
    linarith
  · rw [hcast]
    have e : (1 / 10 : K) <
        ((|clamp_spec (g.slider_rectangle.pos.x + 50 - g.ball.x) (-50) 50| : Int) : K) / 100 / 2 ↔
        ((20 : Int) : K) <
          ((|clamp_spec (g.slider_rectangle.pos.x + 50 - g.ball.x) (-50) 50| : Int) : K) := by
      push_cast
      constructor <;> intro h <;> linarith
    rw [e, Int.cast_lt]
    unfold clamp_spec
    rw [lt_abs, lt_abs]
    omega
  · intro h2
    have hc : |clamp_spec (g.slider_rectangle.pos.x + 50 - g.ball.x) (-50) 50| = 2 := by
      unfold clamp_spec
      rcases abs_eq (by norm_num : (0 : Int) ≤ 2) |>.mp h2 with h | h <;> rw [h] <;> decide
    rw [hcast, hc]
    norm_num

/-- C14, witness: the slider at `x = 270` and the ball 2 px right of its
centre: the quantity is 0.01. -/
theorem C14_normalized_offset_witness :
    (game_of ℚ (ball_at ℚ 322 450 (1 / 4) (3 / 4)) cleared_board).slider_rectangle.dims.w = 100 ∧
    dist_from_center_normalized (game_of ℚ (ball_at ℚ 322 450 (1 / 4) (3 / 4)) cleared_board) =
      Flt.fin (1 / 100) := by
  have hw : (game_of ℚ (ball_at ℚ 322 450 (1 / 4) (3 / 4))
      cleared_board).slider_rectangle.dims.w = 100 := by
    show (cleared_board (RECT_COUNT_X * RECT_COUNT_Y)).dims.w = 100
    rw [cleared_board_slider]
    rfl
  have h := C14_normalized_offset (game_of ℚ (ball_at ℚ 322 450 (1 / 4) (3 / 4)) cleared_board) hw
  refine ⟨hw, ?_⟩
  rw [h.2.1, h.2.2.2.2.2 (by
    show |(cleared_board (RECT_COUNT_X * RECT_COUNT_Y)).pos.x + 50 - 322| = 2
    rw [cleared_board_slider]
    decide)]

/-- C14, counterexample: on the slider at `x = 270` (width 100) the ball at
`(322, 450)`, 2 px off centre, hits the side UP and the quantity compared with
0.1 is 0.01, where `|clamp (offset, -w/2, w/2)| / (w/2)` is 0.04; and for the
ball at `(330, 450)`, 10 px off centre, the quantity is 0.05, which does not
exceed 0.1. -/
theorem C14_divides_by_twice_the_width_counterexample :
    FirstHit Real.sqrt (game_of ℝ (ball_at ℝ 322 450 (1 / 4) (3 / 4)) cleared_board)
      (RECT_COUNT_X * RECT_COUNT_Y) ∧
    (check_collision Real.sqrt (game_of ℝ (ball_at ℝ 322 450 (1 / 4) (3 / 4)) cleared_board).ball
      ((game_of ℝ (ball_at ℝ 322 450 (1 / 4) (3 / 4)) cleared_board).rectangles
        (RECT_COUNT_X * RECT_COUNT_Y))).side = .UP ∧
    dist_from_center_normalized
      (reflect (game_of ℝ (ball_at ℝ 322 450 (1 / 4) (3 / 4)) cleared_board) .UP) =
        Flt.fin (1 / 100) ∧
    normalized_offset_spec (320 - 322) 100 = (1 / 25 : ℝ) ∧
    dist_from_center_normalized
      (reflect (game_of ℝ (ball_at ℝ 330 450 (1 / 4) (3 / 4)) cleared_board) .UP) =
        Flt.fin (1 / 20) ∧
    ¬ ((Flt.fin (1 / 10) : Flt ℝ) < Flt.fin (1 / 20)) ∧ (5 : Int) < |320 - 330| := by
  obtain ⟨hf, hu⟩ := side_up_cleared_board 322 (1 / 4) (3 / 4) (by decide) (by decide)
  have key : ∀ x : Int, ∀ q : ℝ,
      |((Max.max (-50) (Min.min 50 (320 - x)) : Int) : ℝ)| / 100 / 2 = q →
      dist_from_center_normalized
        (reflect (game_of ℝ (ball_at ℝ x 450 (1 / 4) (3 / 4)) cleared_board) .UP) = Flt.fin q := by
    intro x q hq
    obtain ⟨h1, h2, _⟩ := cleared_board_offset x (1 / 4) (3 / 4) .UP
    rw [dist_from_center_normalized_eq _ (by rw [h2]; decide), h1, h2]
    show Flt.fin (|((Max.max (-50) (Min.min 50 (320 - x)) : Int) : ℝ)| / ((100 : Int) : ℝ) / 2) = _
    rw [← hq]
    norm_num
  refine ⟨hf, hu, key 322 _ ?_, ?_, key 330 _ ?_, ?_, by decide⟩
  · have : (Max.max (-50) (Min.min 50 (320 - 322)) : Int) = -2 := by decide
    rw [this]
    norm_num
  · unfold normalized_offset_spec
    have : clamp_spec (320 - 322) (-(100 / 2)) (100 / 2) = -2 := by decide
    rw [this]
    norm_num
  · have : (Max.max (-50) (Min.min 50 (320 - 330)) : Int) = -10 := by decide
    rw [this]
    norm_num
  · rw [Flt.fin_lt_fin]
    norm_num

/-! ## C15: when the slider reverses `vx` -/

/-- C17 (defect): the index `x + RECT_COUNT_Y * y` used by `fill_primitives`
does not give every grid cell a slot below `RECT_COUNT_X * RECT_COUNT_Y`: the
cell `(0, 7)` has the index of `slider_rectangle`, and the cells `(1, 7)` to
`(6, 7)` have indices past the last element of `rectangles`.  No cell has the
index 7, so after `fill_primitives` on the zero-initialized globals the slot 7
is still the 0x0 rectangle and fewer than `RECT_COUNT_X * RECT_COUNT_Y` slots
hold an 80x20 brick. -/
theorem C17_cells_outside_brick_slots :
    (0 < RECT_COUNT_X ∧ 7 < RECT_COUNT_Y ∧
      0 + RECT_COUNT_Y * 7 = RECT_COUNT_X * RECT_COUNT_Y) ∧
    (∀ x, 1 ≤ x → x < RECT_COUNT_X → ¬ (x + RECT_COUNT_Y * 7 < RECT_SLOTS)) ∧
    (∀ x y, x < RECT_COUNT_X → y < RECT_COUNT_Y → x + RECT_COUNT_Y * y ≠ 7) ∧
    (7 < RECT_COUNT_X * RECT_COUNT_Y ∧
      ((fill_primitives (initial_globals ℚ fun _ => 0)).rectangles 7).dims = ⟨0, 0⟩ ∧
      ((fill_primitives (initial_globals ℚ fun _ => 0)).rectangles 7).dims ≠
        ⟨RECT_WIDTH, RECT_HEIGHT⟩) := by
  have hx : RECT_COUNT_X = 7 := by decide
  have hy : RECT_COUNT_Y = 8 := by decide
  have hs : RECT_SLOTS = 57 := by decide
  have h7 : ((fill_primitives (initial_globals ℚ fun _ => 0)).rectangles 7).dims = ⟨0, 0⟩ := by
    rw [fill_primitives_rectangles_of_not_written _ 7 (by decide)
      (fun x h1 y h2 => by rw [hx] at h1; rw [hy] at h2 ⊢; omega)]
    rfl
  refine ⟨by decide, ?_, ?_, by decide, h7, ?_⟩
  · intro x h1 h2
    rw [hx] at h2
    rw [hy, hs]
    omega
  · intro x y h1 h2
    rw [hx] at h1
    rw [hy] at h2 ⊢
    omega
  · rw [h7]
    decide

/-! ## C18: the first side of maximal score -/

/-- C19: (1) in every state with the slider at its height `SCREEN_HEIGHT - 20`
and of dimensions `100 x 20` (any `x`) and with `ball.y <= SCREEN_HEIGHT`, a
collision with the slider is never on the side DOWN, and `check_collisions`
returns.  (2) The reset check at the end of an iteration leaves the ball
attached whenever `ball.y > SCREEN_HEIGHT`; so an iteration that starts from
such a state returns and leaves the slider at its height, and the ball in
flight only with `ball.y <= SCREEN_HEIGHT`: every iteration that starts in
flight after it starts with `ball.y <= SCREEN_HEIGHT`, and does not throw.
(3) The loop of `main`, started as `main` starts it, never throws, whatever the
elapsed times and the events are, and ends every iteration with
`ball.y <= SCREEN_HEIGHT`, for every rounding that leaves the integers up to
`2^24` as they are, provided the stores of `fill_primitives` past the end of
`rectangles` are tame: they do not put the ball below the screen, now or when
it is next put on the slider. -/
theorem C19_underside_unreachable [FloorRing K] {sqrtK : K → K} (hs : IsSqrt sqrtK) :
    (∀ g : Game K, g.slider_rectangle.pos.y = (SCREEN_HEIGHT : Int) - 20 →
      g.slider_rectangle.dims = ⟨100, 20⟩ → g.ball.y ≤ (SCREEN_HEIGHT : Int) →
      ((check_collision sqrtK g.ball g.slider_rectangle).collided = true →
        (check_collision sqrtK g.ball g.slider_rectangle).side ≠ .DOWN) ∧
      ∃ g', check_collisions sqrtK g = .ok g') ∧
    (∀ (fl : K → Flt K) (a : App K),
      (a.game.ball.y > (SCREEN_HEIGHT : Int) → (end_of_tick fl a).ball_attached = true) ∧
      ((end_of_tick fl a).ball_attached = true ∨
        (end_of_tick fl a).game.ball.y ≤ (SCREEN_HEIGHT : Int))) ∧
    (∀ (fl : K → Flt K) (dt : Flt K) (events : List Event) (a : App K),
      a.game.slider_rectangle.pos.y = (SCREEN_HEIGHT : Int) - 20 →
      a.game.slider_rectangle.dims = ⟨100, 20⟩ → a.game.ball.y ≤ (SCREEN_HEIGHT : Int) →
      ∃ frame a1, tick fl sqrtK dt events a = .ok (frame, a1) ∧
        a1.game.slider_rectangle.pos.y = (SCREEN_HEIGHT : Int) - 20 ∧
        a1.game.slider_rectangle.dims = ⟨100, 20⟩ ∧
        (a1.ball_attached = false → a1.game.ball.y ≤ (SCREEN_HEIGHT : Int))) ∧
    (∀ (fl : K → Flt K) (rng : Nat → Nat) (stray : Nat → Rectangle → Ball K → Ball K)
      (inputs : List (Flt K × List Event)), ExactOnInts fl → TameStray fl stray →
      ∃ a', run fl sqrtK inputs (main_start K rng stray) = .ok a' ∧
        a'.game.ball.y ≤ (SCREEN_HEIGHT : Int)) := by
  refine ⟨fun g hp hd hy => check_collisions_ok_of_inv hs g hy hp hd,
    end_of_tick_attached_or_above, ?_, ?_⟩
  · intro fl dt events a hp hd hy
    obtain ⟨frame, a1, h1, h2, h3⟩ := tick_ok_of_above hs fl dt events a ⟨hp, hd⟩ hy
    exact ⟨frame, a1, h1, h2.1, h2.2, h3⟩
  · intro fl rng stray inputs hfl ht
    obtain ⟨a', h1, h2⟩ := run_ok_of_inv hs fl hfl inputs (main_start K rng stray)
      (playInv_main_start fl hfl rng stray ht)
    exact ⟨a', h1, h2.1⟩

/-- C19, witness: a run of four iterations (the pointer moves, the button is
released, two more frames) returns, in a build whose first store past the end
of `rectangles` overwrites the centre and the radius of the ball (no operation
rounds). -/
theorem C19_underside_unreachable_witness :
    IsSqrt Real.sqrt ∧ ExactOnInts (Flt.fin : ℝ → Flt ℝ) ∧
    TameStray Flt.fin (overlay_stray ℝ) ∧
    ∃ a', run Flt.fin Real.sqrt
        [(Flt.fin (1 / 32), [Event.mouseMotion 100]), (Flt.fin (1 / 32), [Event.mouseButtonUp]),
          (Flt.fin (1 / 32), []), (Flt.fin (1 / 32), [])]
        (main_start ℝ (fun _ => 0) (overlay_stray ℝ)) = .ok a' ∧
      a'.game.ball.y ≤ (SCREEN_HEIGHT : Int) :=
  ⟨isSqrt_real, exactOnInts_fin, tame_overlay_stray_fin,
    (C19_underside_unreachable isSqrt_real).2.2.2 Flt.fin (fun _ => 0) (overlay_stray ℝ) _
      exactOnInts_fin tame_overlay_stray_fin⟩

/-! ## C20: the first tick after the launch -/

/-- C20: with the slider of dimensions `100 x 20` at `(px, SCREEN_HEIGHT - 20)`
(`0 <= px <= SCREEN_WIDTH - 100`), the ball of radius 10 at the attached
position `(px + 50, 450)` with the launch velocity `(0.25, -0.75)` and the
bricks as laid out by `fill_primitives`, the distance from the ball to the
slider is exactly the radius, the first collision `check_collisions` finds is
the one with the slider, on the side UP, and the call returns with the
velocity `(0.25, 0.75) / |v|`: the vertical velocity is positive (downward) and
the horizontal one still positive. -/
theorem C20_launch_bounces_on_slider {sqrtK : K → K} (hs : IsSqrt sqrtK) (g : Game K)
    (px : Int) (hpos : g.slider_rectangle.pos = ⟨px, (SCREEN_HEIGHT : Int) - 20⟩)
    (hdims : g.slider_rectangle.dims = ⟨100, 20⟩) (hact : g.slider_rectangle.active = true)
    (hpx0 : 0 ≤ px) (hpx1 : px ≤ (SCREEN_WIDTH : Int) - 100)
    (hbx : g.ball.x = px + 50) (hby : g.ball.y = 450) (hr : g.ball.radius = Flt.fin 10)
    (hvx : g.ball.vx = Flt.fin (1 / 4)) (hvy : g.ball.vy = Flt.fin (-3 / 4)) (hl : LaidOut g) :
    dist_to_closest sqrtK g.ball g.slider_rectangle = g.ball.radius ∧
    FirstHit sqrtK g (RECT_COUNT_X * RECT_COUNT_Y) ∧
    (check_collision sqrtK g.ball g.slider_rectangle).side = .UP ∧
    ∃ g' vx vy, check_collisions sqrtK g = .ok g' ∧
      g'.ball.vx = Flt.fin vx ∧ g'.ball.vy = Flt.fin vy ∧ 0 < vx ∧ 0 < vy ∧
      vx = 1 / 4 / sqrtK (1 / 4 * (1 / 4) + 3 / 4 * (3 / 4)) ∧
      vy = 3 / 4 / sqrtK (1 / 4 * (1 / 4) + 3 / 4 * (3 / 4)) := by
  obtain ⟨h1, h2, h3, g', h4, h5, h6⟩ :=
    launch_tick hs g px hpos hdims hact hpx0 hpx1 hbx hby hr hvx hvy hl
  have hn : 0 < sqrtK ((1 / 4 : K) * (1 / 4) + 3 / 4 * (3 / 4)) :=
    sqrt_sq_sum_pos hs (1 / 4) (3 / 4) (Or.inl (by norm_num))
  refine ⟨by rw [h1, hr], h2, h3, g', _, _, h4, h5, h6, ?_, ?_, rfl, rfl⟩
  · exact div_pos (by norm_num) hn
  · exact div_pos (by norm_num) hn

/-- C20, witness: the state after the launch in the program's first round (the
slider at `x = 270`, the ball at `(320, 450)`). -/
theorem C20_launch_bounces_on_slider_witness :
    IsSqrt Real.sqrt ∧
    FirstHit Real.sqrt (launch_state ℝ fun _ => 0) (RECT_COUNT_X * RECT_COUNT_Y) ∧
    (check_collision Real.sqrt (launch_state ℝ fun _ => 0).ball
      (launch_state ℝ fun _ => 0).slider_rectangle).side = .UP ∧
    ∃ g' vx vy, check_collisions Real.sqrt (launch_state ℝ fun _ => 0) = .ok g' ∧
      g'.ball.vx = Flt.fin vx ∧ g'.ball.vy = Flt.fin vy ∧ 0 < vx ∧ 0 < vy := by
  obtain ⟨e1, e2, e3, e4, e5, e6, e7, e8, e9⟩ := launch_state_eq
  obtain ⟨_, h2, h3, g', vx, vy, h4, h5, h6, h7, h8, _⟩ :=
    C20_launch_bounces_on_slider isSqrt_real (launch_state ℝ fun _ => 0) 270 e1 e2 e3
      (by decide) (by decide) e4 e5 e6 e7 e8 e9
  exact ⟨isSqrt_real, h2, h3, g', vx, vy, h4, h5, h6, h7, h8⟩

end Ark
